import Mathlib

/-!
Verification of the MTPZ cryptographic core (src/mtpz.c of libmtp).

Modelling conventions, used throughout:

* C `unsigned char` bytes are `Nat` values; all byte inequalities carry the
  bound `< 256` explicitly where a proof needs it.
* A C 32-bit word is modelled as the structure `W` holding its four bytes in
  big-endian order.  Every 32-bit access in mtpz.c is of the shape
  `MTPZ_SWAP(load)` for reads and `store(MTPZ_SWAP(x))` for writes on a
  little-endian host, i.e. the code always works with the big-endian value of
  the four underlying bytes, and all word operations used (XOR, byte
  extraction `MTPZ_ENCRYPTION*BYTE*`, table lookup, byte store) act bytewise,
  so the four-byte representation is exact.
* Byte buffers are `List Nat`; `memcpy`-style reads use `List.getD` with
  default 0 (reads past a C buffer are undefined behaviour there; no claim
  below depends on such a read).
* The SHA-1-style state (92 bytes in C: 64-byte block buffer, five chaining
  words, an overflow word and a low length word, the last two being C `int`s
  that wrap modulo 2^32) is the structure `HState`.
-/

namespace Mtpz

/-- A 32-bit word as its four bytes, big-endian: the C word value is
`b0 <<< 24 ||| b1 <<< 16 ||| b2 <<< 8 ||| b3`. -/
structure W where
  b0 : Nat
  b1 : Nat
  b2 : Nat
  b3 : Nat
deriving DecidableEq, Repr

/-- Bytewise XOR of two 32-bit words (C `^` on `unsigned int`). -/
def wxor (u v : W) : W := ⟨u.b0 ^^^ v.b0, u.b1 ^^^ v.b1, u.b2 ^^^ v.b2, u.b3 ^^^ v.b3⟩

/-- The all-zero word. -/
def w0 : W := ⟨0, 0, 0, 0⟩

/-- All four bytes of a word are in range. -/
def WB (u : W) : Prop := u.b0 < 256 ∧ u.b1 < 256 ∧ u.b2 < 256 ∧ u.b3 < 256

instance (u : W) : Decidable (WB u) := by unfold WB; infer_instance

/-- Split a C `unsigned int` literal into its four big-endian bytes. -/
def wOfU32 (v : Nat) : W := ⟨v >>> 24 &&& 255, v >>> 16 &&& 255, v >>> 8 &&& 255, v &&& 255⟩

/-- An AES state / block: the four working words `v14 v15 v16 v17`
of mtpz.c (equivalently 16 bytes, big-endian within each word). -/
structure Blk where
  x0 : W
  x1 : W
  x2 : W
  x3 : W
deriving DecidableEq, Repr

/-- Bytewise XOR of blocks. -/
def bxor (a b : Blk) : Blk := ⟨wxor a.x0 b.x0, wxor a.x1 b.x1, wxor a.x2 b.x2, wxor a.x3 b.x3⟩

/-- All sixteen bytes of a block are in range. -/
def BB (a : Blk) : Prop := WB a.x0 ∧ WB a.x1 ∧ WB a.x2 ∧ WB a.x3

instance (a : Blk) : Decidable (BB a) := by unfold BB; infer_instance

/-- Big-endian bytes of a 32-bit counter value (the effect of storing
`MTPZ_SWAP i` through an `int *` on a little-endian host). -/
def be32 (v : Nat) : List Nat := [v >>> 24 &&& 255, v >>> 16 &&& 255, v >>> 8 &&& 255, v &&& 255]

/-- Big-endian 16-bit read, as produced by the `MTPZ_SWAP(*(unsigned short *)p << 16)`
pattern of mtpz.c on a little-endian host. -/
def be16At (l : List Nat) (off : Nat) : Nat := (l.getD off 0) <<< 8 ||| l.getD (off + 1) 0

/-- Big-endian 32-bit read (`MTPZ_SWAP(*(unsigned int *)p)` on a little-endian host). -/
def be32At (l : List Nat) (off : Nat) : Nat :=
  ((l.getD off 0) <<< 24) ||| ((l.getD (off + 1) 0) <<< 16) |||
  ((l.getD (off + 2) 0) <<< 8) ||| l.getD (off + 3) 0

/-- `memcpy`-style read of `n` bytes starting at `off` (reads past the end
give 0; no claim depends on such a read). -/
def bytesAt (l : List Nat) (off n : Nat) : List Nat :=
  (List.range n).map fun j => l.getD (off + j) 0

/-- Table mtpz_aes_rcon, transcribed verbatim from mtpz.c. -/
def mtpz_aes_rcon : List Nat := [
  0x01, 0x02, 0x04, 0x08, 0x10, 0x20, 0x40, 0x80,
  0x1b, 0x36, 0x6c, 0xd8, 0xab, 0x4d, 0x9a]

/-- Table mtpz_aes_sbox, transcribed verbatim from mtpz.c. -/
def mtpz_aes_sbox : List Nat := [
  0x63, 0x7c, 0x77, 0x7b, 0xf2, 0x6b, 0x6f, 0xc5,
  0x30, 0x01, 0x67, 0x2b, 0xfe, 0xd7, 0xab, 0x76,
  0xca, 0x82, 0xc9, 0x7d, 0xfa, 0x59, 0x47, 0xf0,
  0xad, 0xd4, 0xa2, 0xaf, 0x9c, 0xa4, 0x72, 0xc0,
  0xb7, 0xfd, 0x93, 0x26, 0x36, 0x3f, 0xf7, 0xcc,
  0x34, 0xa5, 0xe5, 0xf1, 0x71, 0xd8, 0x31, 0x15,
  0x04, 0xc7, 0x23, 0xc3, 0x18, 0x96, 0x05, 0x9a,
  0x07, 0x12, 0x80, 0xe2, 0xeb, 0x27, 0xb2, 0x75,
  0x09, 0x83, 0x2c, 0x1a, 0x1b, 0x6e, 0x5a, 0xa0,
  0x52, 0x3b, 0xd6, 0xb3, 0x29, 0xe3, 0x2f, 0x84,
  0x53, 0xd1, 0x00, 0xed, 0x20, 0xfc, 0xb1, 0x5b,
  0x6a, 0xcb, 0xbe, 0x39, 0x4a, 0x4c, 0x58, 0xcf,
  0xd0, 0xef, 0xaa, 0xfb, 0x43, 0x4d, 0x33, 0x85,
  0x45, 0xf9, 0x02, 0x7f, 0x50, 0x3c, 0x9f, 0xa8,
  0x51, 0xa3, 0x40, 0x8f, 0x92, 0x9d, 0x38, 0xf5,
  0xbc, 0xb6, 0xda, 0x21, 0x10, 0xff, 0xf3, 0xd2,
  0xcd, 0x0c, 0x13, 0xec, 0x5f, 0x97, 0x44, 0x17,
  0xc4, 0xa7, 0x7e, 0x3d, 0x64, 0x5d, 0x19, 0x73,
  0x60, 0x81, 0x4f, 0xdc, 0x22, 0x2a, 0x90, 0x88,
  0x46, 0xee, 0xb8, 0x14, 0xde, 0x5e, 0x0b, 0xdb,
  0xe0, 0x32, 0x3a, 0x0a, 0x49, 0x06, 0x24, 0x5c,
  0xc2, 0xd3, 0xac, 0x62, 0x91, 0x95, 0xe4, 0x79,
  0xe7, 0xc8, 0x37, 0x6d, 0x8d, 0xd5, 0x4e, 0xa9,
  0x6c, 0x56, 0xf4, 0xea, 0x65, 0x7a, 0xae, 0x08,
  0xba, 0x78, 0x25, 0x2e, 0x1c, 0xa6, 0xb4, 0xc6,
  0xe8, 0xdd, 0x74, 0x1f, 0x4b, 0xbd, 0x8b, 0x8a,
  0x70, 0x3e, 0xb5, 0x66, 0x48, 0x03, 0xf6, 0x0e,
  0x61, 0x35, 0x57, 0xb9, 0x86, 0xc1, 0x1d, 0x9e,
  0xe1, 0xf8, 0x98, 0x11, 0x69, 0xd9, 0x8e, 0x94,
  0x9b, 0x1e, 0x87, 0xe9, 0xce, 0x55, 0x28, 0xdf,
  0x8c, 0xa1, 0x89, 0x0d, 0xbf, 0xe6, 0x42, 0x68,
  0x41, 0x99, 0x2d, 0x0f, 0xb0, 0x54, 0xbb, 0x16]

/-- Table mtpz_aes_invsbox, transcribed verbatim from mtpz.c. -/
def mtpz_aes_invsbox : List Nat := [
  0x52, 0x09, 0x6A, 0xD5, 0x30, 0x36, 0xA5, 0x38,
  0xBF, 0x40, 0xA3, 0x9E, 0x81, 0xF3, 0xD7, 0xFB,
  0x7C, 0xE3, 0x39, 0x82, 0x9B, 0x2F, 0xFF, 0x87,
  0x34, 0x8E, 0x43, 0x44, 0xC4, 0xDE, 0xE9, 0xCB,
  0x54, 0x7B, 0x94, 0x32, 0xA6, 0xC2, 0x23, 0x3D,
  0xEE, 0x4C, 0x95, 0x0B, 0x42, 0xFA, 0xC3, 0x4E,
  0x08, 0x2E, 0xA1, 0x66, 0x28, 0xD9, 0x24, 0xB2,
  0x76, 0x5B, 0xA2, 0x49, 0x6D, 0x8B, 0xD1, 0x25,
  0x72, 0xF8, 0xF6, 0x64, 0x86, 0x68, 0x98, 0x16,
  0xD4, 0xA4, 0x5C, 0xCC, 0x5D, 0x65, 0xB6, 0x92,
  0x6C, 0x70, 0x48, 0x50, 0xFD, 0xED, 0xB9, 0xDA,
  0x5E, 0x15, 0x46, 0x57, 0xA7, 0x8D, 0x9D, 0x84,
  0x90, 0xD8, 0xAB, 0x00, 0x8C, 0xBC, 0xD3, 0x0A,
  0xF7, 0xE4, 0x58, 0x05, 0xB8, 0xB3, 0x45, 0x06,
  0xD0, 0x2C, 0x1E, 0x8F, 0xCA, 0x3F, 0x0F, 0x02,
  0xC1, 0xAF, 0xBD, 0x03, 0x01, 0x13, 0x8A, 0x6B,
  0x3A, 0x91, 0x11, 0x41, 0x4F, 0x67, 0xDC, 0xEA,
  0x97, 0xF2, 0xCF, 0xCE, 0xF0, 0xB4, 0xE6, 0x73,
  0x96, 0xAC, 0x74, 0x22, 0xE7, 0xAD, 0x35, 0x85,
  0xE2, 0xF9, 0x37, 0xE8, 0x1C, 0x75, 0xDF, 0x6E,
  0x47, 0xF1, 0x1A, 0x71, 0x1D, 0x29, 0xC5, 0x89,
  0x6F, 0xB7, 0x62, 0x0E, 0xAA, 0x18, 0xBE, 0x1B,
  0xFC, 0x56, 0x3E, 0x4B, 0xC6, 0xD2, 0x79, 0x20,
  0x9A, 0xDB, 0xC0, 0xFE, 0x78, 0xCD, 0x5A, 0xF4,
  0x1F, 0xDD, 0xA8, 0x33, 0x88, 0x07, 0xC7, 0x31,
  0xB1, 0x12, 0x10, 0x59, 0x27, 0x80, 0xEC, 0x5F,
  0x60, 0x51, 0x7F, 0xA9, 0x19, 0xB5, 0x4A, 0x0D,
  0x2D, 0xE5, 0x7A, 0x9F, 0x93, 0xC9, 0x9C, 0xEF,
  0xA0, 0xE0, 0x3B, 0x4D, 0xAE, 0x2A, 0xF5, 0xB0,
  0xC8, 0xEB, 0xBB, 0x3C, 0x83, 0x53, 0x99, 0x61,
  0x17, 0x2B, 0x04, 0x7E, 0xBA, 0x77, 0xD6, 0x26,
  0xE1, 0x69, 0x14, 0x63, 0x55, 0x21, 0x0C, 0x7D]

/-- Table mtpz_aes_ft1, transcribed verbatim from mtpz.c. -/
def mtpz_aes_ft1 : List Nat := [
  0x6363A5C6, 0x7C7C84F8, 0x777799EE, 0x7B7B8DF6, 0xF2F20DFF, 0x6B6BBDD6, 0x6F6FB1DE, 0xC5C55491,
  0x30305060, 0x01010302, 0x6767A9CE, 0x2B2B7D56, 0xFEFE19E7, 0xD7D762B5, 0xABABE64D, 0x76769AEC,
  0xCACA458F, 0x82829D1F, 0xC9C94089, 0x7D7D87FA, 0xFAFA15EF, 0x5959EBB2, 0x4747C98E, 0xF0F00BFB,
  0xADADEC41, 0xD4D467B3, 0xA2A2FD5F, 0xAFAFEA45, 0x9C9CBF23, 0xA4A4F753, 0x727296E4, 0xC0C05B9B,
  0xB7B7C275, 0xFDFD1CE1, 0x9393AE3D, 0x26266A4C, 0x36365A6C, 0x3F3F417E, 0xF7F702F5, 0xCCCC4F83,
  0x34345C68, 0xA5A5F451, 0xE5E534D1, 0xF1F108F9, 0x717193E2, 0xD8D873AB, 0x31315362, 0x15153F2A,
  0x04040C08, 0xC7C75295, 0x23236546, 0xC3C35E9D, 0x18182830, 0x9696A137, 0x05050F0A, 0x9A9AB52F,
  0x0707090E, 0x12123624, 0x80809B1B, 0xE2E23DDF, 0xEBEB26CD, 0x2727694E, 0xB2B2CD7F, 0x75759FEA,
  0x09091B12, 0x83839E1D, 0x2C2C7458, 0x1A1A2E34, 0x1B1B2D36, 0x6E6EB2DC, 0x5A5AEEB4, 0xA0A0FB5B,
  0x5252F6A4, 0x3B3B4D76, 0xD6D661B7, 0xB3B3CE7D, 0x29297B52, 0xE3E33EDD, 0x2F2F715E, 0x84849713,
  0x5353F5A6, 0xD1D168B9, 0x00000000, 0xEDED2CC1, 0x20206040, 0xFCFC1FE3, 0xB1B1C879, 0x5B5BEDB6,
  0x6A6ABED4, 0xCBCB468D, 0xBEBED967, 0x39394B72, 0x4A4ADE94, 0x4C4CD498, 0x5858E8B0, 0xCFCF4A85,
  0xD0D06BBB, 0xEFEF2AC5, 0xAAAAE54F, 0xFBFB16ED, 0x4343C586, 0x4D4DD79A, 0x33335566, 0x85859411,
  0x4545CF8A, 0xF9F910E9, 0x02020604, 0x7F7F81FE, 0x5050F0A0, 0x3C3C4478, 0x9F9FBA25, 0xA8A8E34B,
  0x5151F3A2, 0xA3A3FE5D, 0x4040C080, 0x8F8F8A05, 0x9292AD3F, 0x9D9DBC21, 0x38384870, 0xF5F504F1,
  0xBCBCDF63, 0xB6B6C177, 0xDADA75AF, 0x21216342, 0x10103020, 0xFFFF1AE5, 0xF3F30EFD, 0xD2D26DBF,
  0xCDCD4C81, 0x0C0C1418, 0x13133526, 0xECEC2FC3, 0x5F5FE1BE, 0x9797A235, 0x4444CC88, 0x1717392E,
  0xC4C45793, 0xA7A7F255, 0x7E7E82FC, 0x3D3D477A, 0x6464ACC8, 0x5D5DE7BA, 0x19192B32, 0x737395E6,
  0x6060A0C0, 0x81819819, 0x4F4FD19E, 0xDCDC7FA3, 0x22226644, 0x2A2A7E54, 0x9090AB3B, 0x8888830B,
  0x4646CA8C, 0xEEEE29C7, 0xB8B8D36B, 0x14143C28, 0xDEDE79A7, 0x5E5EE2BC, 0x0B0B1D16, 0xDBDB76AD,
  0xE0E03BDB, 0x32325664, 0x3A3A4E74, 0x0A0A1E14, 0x4949DB92, 0x06060A0C, 0x24246C48, 0x5C5CE4B8,
  0xC2C25D9F, 0xD3D36EBD, 0xACACEF43, 0x6262A6C4, 0x9191A839, 0x9595A431, 0xE4E437D3, 0x79798BF2,
  0xE7E732D5, 0xC8C8438B, 0x3737596E, 0x6D6DB7DA, 0x8D8D8C01, 0xD5D564B1, 0x4E4ED29C, 0xA9A9E049,
  0x6C6CB4D8, 0x5656FAAC, 0xF4F407F3, 0xEAEA25CF, 0x6565AFCA, 0x7A7A8EF4, 0xAEAEE947, 0x08081810,
  0xBABAD56F, 0x787888F0, 0x25256F4A, 0x2E2E725C, 0x1C1C2438, 0xA6A6F157, 0xB4B4C773, 0xC6C65197,
  0xE8E823CB, 0xDDDD7CA1, 0x74749CE8, 0x1F1F213E, 0x4B4BDD96, 0xBDBDDC61, 0x8B8B860D, 0x8A8A850F,
  0x707090E0, 0x3E3E427C, 0xB5B5C471, 0x6666AACC, 0x4848D890, 0x03030506, 0xF6F601F7, 0x0E0E121C,
  0x6161A3C2, 0x35355F6A, 0x5757F9AE, 0xB9B9D069, 0x86869117, 0xC1C15899, 0x1D1D273A, 0x9E9EB927,
  0xE1E138D9, 0xF8F813EB, 0x9898B32B, 0x11113322, 0x6969BBD2, 0xD9D970A9, 0x8E8E8907, 0x9494A733,
  0x9B9BB62D, 0x1E1E223C, 0x87879215, 0xE9E920C9, 0xCECE4987, 0x5555FFAA, 0x28287850, 0xDFDF7AA5,
  0x8C8C8F03, 0xA1A1F859, 0x89898009, 0x0D0D171A, 0xBFBFDA65, 0xE6E631D7, 0x4242C684, 0x6868B8D0,
  0x4141C382, 0x9999B029, 0x2D2D775A, 0x0F0F111E, 0xB0B0CB7B, 0x5454FCA8, 0xBBBBD66D, 0x16163A2C]

/-- Table mtpz_aes_ft2, transcribed verbatim from mtpz.c. -/
def mtpz_aes_ft2 : List Nat := [
  0x63A5C663, 0x7C84F87C, 0x7799EE77, 0x7B8DF67B, 0xF20DFFF2, 0x6BBDD66B, 0x6FB1DE6F, 0xC55491C5,
  0x30506030, 0x01030201, 0x67A9CE67, 0x2B7D562B, 0xFE19E7FE, 0xD762B5D7, 0xABE64DAB, 0x769AEC76,
  0xCA458FCA, 0x829D1F82, 0xC94089C9, 0x7D87FA7D, 0xFA15EFFA, 0x59EBB259, 0x47C98E47, 0xF00BFBF0,
  0xADEC41AD, 0xD467B3D4, 0xA2FD5FA2, 0xAFEA45AF, 0x9CBF239C, 0xA4F753A4, 0x7296E472, 0xC05B9BC0,
  0xB7C275B7, 0xFD1CE1FD, 0x93AE3D93, 0x266A4C26, 0x365A6C36, 0x3F417E3F, 0xF702F5F7, 0xCC4F83CC,
  0x345C6834, 0xA5F451A5, 0xE534D1E5, 0xF108F9F1, 0x7193E271, 0xD873ABD8, 0x31536231, 0x153F2A15,
  0x040C0804, 0xC75295C7, 0x23654623, 0xC35E9DC3, 0x18283018, 0x96A13796, 0x050F0A05, 0x9AB52F9A,
  0x07090E07, 0x12362412, 0x809B1B80, 0xE23DDFE2, 0xEB26CDEB, 0x27694E27, 0xB2CD7FB2, 0x759FEA75,
  0x091B1209, 0x839E1D83, 0x2C74582C, 0x1A2E341A, 0x1B2D361B, 0x6EB2DC6E, 0x5AEEB45A, 0xA0FB5BA0,
  0x52F6A452, 0x3B4D763B, 0xD661B7D6, 0xB3CE7DB3, 0x297B5229, 0xE33EDDE3, 0x2F715E2F, 0x84971384,
  0x53F5A653, 0xD168B9D1, 0x00000000, 0xED2CC1ED, 0x20604020, 0xFC1FE3FC, 0xB1C879B1, 0x5BEDB65B,
  0x6ABED46A, 0xCB468DCB, 0xBED967BE, 0x394B7239, 0x4ADE944A, 0x4CD4984C, 0x58E8B058, 0xCF4A85CF,
  0xD06BBBD0, 0xEF2AC5EF, 0xAAE54FAA, 0xFB16EDFB, 0x43C58643, 0x4DD79A4D, 0x33556633, 0x85941185,
  0x45CF8A45, 0xF910E9F9, 0x02060402, 0x7F81FE7F, 0x50F0A050, 0x3C44783C, 0x9FBA259F, 0xA8E34BA8,
  0x51F3A251, 0xA3FE5DA3, 0x40C08040, 0x8F8A058F, 0x92AD3F92, 0x9DBC219D, 0x38487038, 0xF504F1F5,
  0xBCDF63BC, 0xB6C177B6, 0xDA75AFDA, 0x21634221, 0x10302010, 0xFF1AE5FF, 0xF30EFDF3, 0xD26DBFD2,
  0xCD4C81CD, 0x0C14180C, 0x13352613, 0xEC2FC3EC, 0x5FE1BE5F, 0x97A23597, 0x44CC8844, 0x17392E17,
  0xC45793C4, 0xA7F255A7, 0x7E82FC7E, 0x3D477A3D, 0x64ACC864, 0x5DE7BA5D, 0x192B3219, 0x7395E673,
  0x60A0C060, 0x81981981, 0x4FD19E4F, 0xDC7FA3DC, 0x22664422, 0x2A7E542A, 0x90AB3B90, 0x88830B88,
  0x46CA8C46, 0xEE29C7EE, 0xB8D36BB8, 0x143C2814, 0xDE79A7DE, 0x5EE2BC5E, 0x0B1D160B, 0xDB76ADDB,
  0xE03BDBE0, 0x32566432, 0x3A4E743A, 0x0A1E140A, 0x49DB9249, 0x060A0C06, 0x246C4824, 0x5CE4B85C,
  0xC25D9FC2, 0xD36EBDD3, 0xACEF43AC, 0x62A6C462, 0x91A83991, 0x95A43195, 0xE437D3E4, 0x798BF279,
  0xE732D5E7, 0xC8438BC8, 0x37596E37, 0x6DB7DA6D, 0x8D8C018D, 0xD564B1D5, 0x4ED29C4E, 0xA9E049A9,
  0x6CB4D86C, 0x56FAAC56, 0xF407F3F4, 0xEA25CFEA, 0x65AFCA65, 0x7A8EF47A, 0xAEE947AE, 0x08181008,
  0xBAD56FBA, 0x7888F078, 0x256F4A25, 0x2E725C2E, 0x1C24381C, 0xA6F157A6, 0xB4C773B4, 0xC65197C6,
  0xE823CBE8, 0xDD7CA1DD, 0x749CE874, 0x1F213E1F, 0x4BDD964B, 0xBDDC61BD, 0x8B860D8B, 0x8A850F8A,
  0x7090E070, 0x3E427C3E, 0xB5C471B5, 0x66AACC66, 0x48D89048, 0x03050603, 0xF601F7F6, 0x0E121C0E,
  0x61A3C261, 0x355F6A35, 0x57F9AE57, 0xB9D069B9, 0x86911786, 0xC15899C1, 0x1D273A1D, 0x9EB9279E,
  0xE138D9E1, 0xF813EBF8, 0x98B32B98, 0x11332211, 0x69BBD269, 0xD970A9D9, 0x8E89078E, 0x94A73394,
  0x9BB62D9B, 0x1E223C1E, 0x87921587, 0xE920C9E9, 0xCE4987CE, 0x55FFAA55, 0x28785028, 0xDF7AA5DF,
  0x8C8F038C, 0xA1F859A1, 0x89800989, 0x0D171A0D, 0xBFDA65BF, 0xE631D7E6, 0x42C68442, 0x68B8D068,
  0x41C38241, 0x99B02999, 0x2D775A2D, 0x0F111E0F, 0xB0CB7BB0, 0x54FCA854, 0xBBD66DBB, 0x163A2C16]

/-- Table mtpz_aes_ft3, transcribed verbatim from mtpz.c. -/
def mtpz_aes_ft3 : List Nat := [
  0xC66363A5, 0xF87C7C84, 0xEE777799, 0xF67B7B8D, 0xFFF2F20D, 0xD66B6BBD, 0xDE6F6FB1, 0x91C5C554,
  0x60303050, 0x02010103, 0xCE6767A9, 0x562B2B7D, 0xE7FEFE19, 0xB5D7D762, 0x4DABABE6, 0xEC76769A,
  0x8FCACA45, 0x1F82829D, 0x89C9C940, 0xFA7D7D87, 0xEFFAFA15, 0xB25959EB, 0x8E4747C9, 0xFBF0F00B,
  0x41ADADEC, 0xB3D4D467, 0x5FA2A2FD, 0x45AFAFEA, 0x239C9CBF, 0x53A4A4F7, 0xE4727296, 0x9BC0C05B,
  0x75B7B7C2, 0xE1FDFD1C, 0x3D9393AE, 0x4C26266A, 0x6C36365A, 0x7E3F3F41, 0xF5F7F702, 0x83CCCC4F,
  0x6834345C, 0x51A5A5F4, 0xD1E5E534, 0xF9F1F108, 0xE2717193, 0xABD8D873, 0x62313153, 0x2A15153F,
  0x0804040C, 0x95C7C752, 0x46232365, 0x9DC3C35E, 0x30181828, 0x379696A1, 0x0A05050F, 0x2F9A9AB5,
  0x0E070709, 0x24121236, 0x1B80809B, 0xDFE2E23D, 0xCDEBEB26, 0x4E272769, 0x7FB2B2CD, 0xEA75759F,
  0x1209091B, 0x1D83839E, 0x582C2C74, 0x341A1A2E, 0x361B1B2D, 0xDC6E6EB2, 0xB45A5AEE, 0x5BA0A0FB,
  0xA45252F6, 0x763B3B4D, 0xB7D6D661, 0x7DB3B3CE, 0x5229297B, 0xDDE3E33E, 0x5E2F2F71, 0x13848497,
  0xA65353F5, 0xB9D1D168, 0x00000000, 0xC1EDED2C, 0x40202060, 0xE3FCFC1F, 0x79B1B1C8, 0xB65B5BED,
  0xD46A6ABE, 0x8DCBCB46, 0x67BEBED9, 0x7239394B, 0x944A4ADE, 0x984C4CD4, 0xB05858E8, 0x85CFCF4A,
  0xBBD0D06B, 0xC5EFEF2A, 0x4FAAAAE5, 0xEDFBFB16, 0x864343C5, 0x9A4D4DD7, 0x66333355, 0x11858594,
  0x8A4545CF, 0xE9F9F910, 0x04020206, 0xFE7F7F81, 0xA05050F0, 0x783C3C44, 0x259F9FBA, 0x4BA8A8E3,
  0xA25151F3, 0x5DA3A3FE, 0x804040C0, 0x058F8F8A, 0x3F9292AD, 0x219D9DBC, 0x70383848, 0xF1F5F504,
  0x63BCBCDF, 0x77B6B6C1, 0xAFDADA75, 0x42212163, 0x20101030, 0xE5FFFF1A, 0xFDF3F30E, 0xBFD2D26D,
  0x81CDCD4C, 0x180C0C14, 0x26131335, 0xC3ECEC2F, 0xBE5F5FE1, 0x359797A2, 0x884444CC, 0x2E171739,
  0x93C4C457, 0x55A7A7F2, 0xFC7E7E82, 0x7A3D3D47, 0xC86464AC, 0xBA5D5DE7, 0x3219192B, 0xE6737395,
  0xC06060A0, 0x19818198, 0x9E4F4FD1, 0xA3DCDC7F, 0x44222266, 0x542A2A7E, 0x3B9090AB, 0x0B888883,
  0x8C4646CA, 0xC7EEEE29, 0x6BB8B8D3, 0x2814143C, 0xA7DEDE79, 0xBC5E5EE2, 0x160B0B1D, 0xADDBDB76,
  0xDBE0E03B, 0x64323256, 0x743A3A4E, 0x140A0A1E, 0x924949DB, 0x0C06060A, 0x4824246C, 0xB85C5CE4,
  0x9FC2C25D, 0xBDD3D36E, 0x43ACACEF, 0xC46262A6, 0x399191A8, 0x319595A4, 0xD3E4E437, 0xF279798B,
  0xD5E7E732, 0x8BC8C843, 0x6E373759, 0xDA6D6DB7, 0x018D8D8C, 0xB1D5D564, 0x9C4E4ED2, 0x49A9A9E0,
  0xD86C6CB4, 0xAC5656FA, 0xF3F4F407, 0xCFEAEA25, 0xCA6565AF, 0xF47A7A8E, 0x47AEAEE9, 0x10080818,
  0x6FBABAD5, 0xF0787888, 0x4A25256F, 0x5C2E2E72, 0x381C1C24, 0x57A6A6F1, 0x73B4B4C7, 0x97C6C651,
  0xCBE8E823, 0xA1DDDD7C, 0xE874749C, 0x3E1F1F21, 0x964B4BDD, 0x61BDBDDC, 0x0D8B8B86, 0x0F8A8A85,
  0xE0707090, 0x7C3E3E42, 0x71B5B5C4, 0xCC6666AA, 0x904848D8, 0x06030305, 0xF7F6F601, 0x1C0E0E12,
  0xC26161A3, 0x6A35355F, 0xAE5757F9, 0x69B9B9D0, 0x17868691, 0x99C1C158, 0x3A1D1D27, 0x279E9EB9,
  0xD9E1E138, 0xEBF8F813, 0x2B9898B3, 0x22111133, 0xD26969BB, 0xA9D9D970, 0x078E8E89, 0x339494A7,
  0x2D9B9BB6, 0x3C1E1E22, 0x15878792, 0xC9E9E920, 0x87CECE49, 0xAA5555FF, 0x50282878, 0xA5DFDF7A,
  0x038C8C8F, 0x59A1A1F8, 0x09898980, 0x1A0D0D17, 0x65BFBFDA, 0xD7E6E631, 0x844242C6, 0xD06868B8,
  0x824141C3, 0x299999B0, 0x5A2D2D77, 0x1E0F0F11, 0x7BB0B0CB, 0xA85454FC, 0x6DBBBBD6, 0x2C16163A]

/-- Table mtpz_aes_ft4, transcribed verbatim from mtpz.c. -/
def mtpz_aes_ft4 : List Nat := [
  0xA5C66363, 0x84F87C7C, 0x99EE7777, 0x8DF67B7B, 0x0DFFF2F2, 0xBDD66B6B, 0xB1DE6F6F, 0x5491C5C5,
  0x50603030, 0x03020101, 0xA9CE6767, 0x7D562B2B, 0x19E7FEFE, 0x62B5D7D7, 0xE64DABAB, 0x9AEC7676,
  0x458FCACA, 0x9D1F8282, 0x4089C9C9, 0x87FA7D7D, 0x15EFFAFA, 0xEBB25959, 0xC98E4747, 0x0BFBF0F0,
  0xEC41ADAD, 0x67B3D4D4, 0xFD5FA2A2, 0xEA45AFAF, 0xBF239C9C, 0xF753A4A4, 0x96E47272, 0x5B9BC0C0,
  0xC275B7B7, 0x1CE1FDFD, 0xAE3D9393, 0x6A4C2626, 0x5A6C3636, 0x417E3F3F, 0x02F5F7F7, 0x4F83CCCC,
  0x5C683434, 0xF451A5A5, 0x34D1E5E5, 0x08F9F1F1, 0x93E27171, 0x73ABD8D8, 0x53623131, 0x3F2A1515,
  0x0C080404, 0x5295C7C7, 0x65462323, 0x5E9DC3C3, 0x28301818, 0xA1379696, 0x0F0A0505, 0xB52F9A9A,
  0x090E0707, 0x36241212, 0x9B1B8080, 0x3DDFE2E2, 0x26CDEBEB, 0x694E2727, 0xCD7FB2B2, 0x9FEA7575,
  0x1B120909, 0x9E1D8383, 0x74582C2C, 0x2E341A1A, 0x2D361B1B, 0xB2DC6E6E, 0xEEB45A5A, 0xFB5BA0A0,
  0xF6A45252, 0x4D763B3B, 0x61B7D6D6, 0xCE7DB3B3, 0x7B522929, 0x3EDDE3E3, 0x715E2F2F, 0x97138484,
  0xF5A65353, 0x68B9D1D1, 0x00000000, 0x2CC1EDED, 0x60402020, 0x1FE3FCFC, 0xC879B1B1, 0xEDB65B5B,
  0xBED46A6A, 0x468DCBCB, 0xD967BEBE, 0x4B723939, 0xDE944A4A, 0xD4984C4C, 0xE8B05858, 0x4A85CFCF,
  0x6BBBD0D0, 0x2AC5EFEF, 0xE54FAAAA, 0x16EDFBFB, 0xC5864343, 0xD79A4D4D, 0x55663333, 0x94118585,
  0xCF8A4545, 0x10E9F9F9, 0x06040202, 0x81FE7F7F, 0xF0A05050, 0x44783C3C, 0xBA259F9F, 0xE34BA8A8,
  0xF3A25151, 0xFE5DA3A3, 0xC0804040, 0x8A058F8F, 0xAD3F9292, 0xBC219D9D, 0x48703838, 0x04F1F5F5,
  0xDF63BCBC, 0xC177B6B6, 0x75AFDADA, 0x63422121, 0x30201010, 0x1AE5FFFF, 0x0EFDF3F3, 0x6DBFD2D2,
  0x4C81CDCD, 0x14180C0C, 0x35261313, 0x2FC3ECEC, 0xE1BE5F5F, 0xA2359797, 0xCC884444, 0x392E1717,
  0x5793C4C4, 0xF255A7A7, 0x82FC7E7E, 0x477A3D3D, 0xACC86464, 0xE7BA5D5D, 0x2B321919, 0x95E67373,
  0xA0C06060, 0x98198181, 0xD19E4F4F, 0x7FA3DCDC, 0x66442222, 0x7E542A2A, 0xAB3B9090, 0x830B8888,
  0xCA8C4646, 0x29C7EEEE, 0xD36BB8B8, 0x3C281414, 0x79A7DEDE, 0xE2BC5E5E, 0x1D160B0B, 0x76ADDBDB,
  0x3BDBE0E0, 0x56643232, 0x4E743A3A, 0x1E140A0A, 0xDB924949, 0x0A0C0606, 0x6C482424, 0xE4B85C5C,
  0x5D9FC2C2, 0x6EBDD3D3, 0xEF43ACAC, 0xA6C46262, 0xA8399191, 0xA4319595, 0x37D3E4E4, 0x8BF27979,
  0x32D5E7E7, 0x438BC8C8, 0x596E3737, 0xB7DA6D6D, 0x8C018D8D, 0x64B1D5D5, 0xD29C4E4E, 0xE049A9A9,
  0xB4D86C6C, 0xFAAC5656, 0x07F3F4F4, 0x25CFEAEA, 0xAFCA6565, 0x8EF47A7A, 0xE947AEAE, 0x18100808,
  0xD56FBABA, 0x88F07878, 0x6F4A2525, 0x725C2E2E, 0x24381C1C, 0xF157A6A6, 0xC773B4B4, 0x5197C6C6,
  0x23CBE8E8, 0x7CA1DDDD, 0x9CE87474, 0x213E1F1F, 0xDD964B4B, 0xDC61BDBD, 0x860D8B8B, 0x850F8A8A,
  0x90E07070, 0x427C3E3E, 0xC471B5B5, 0xAACC6666, 0xD8904848, 0x05060303, 0x01F7F6F6, 0x121C0E0E,
  0xA3C26161, 0x5F6A3535, 0xF9AE5757, 0xD069B9B9, 0x91178686, 0x5899C1C1, 0x273A1D1D, 0xB9279E9E,
  0x38D9E1E1, 0x13EBF8F8, 0xB32B9898, 0x33221111, 0xBBD26969, 0x70A9D9D9, 0x89078E8E, 0xA7339494,
  0xB62D9B9B, 0x223C1E1E, 0x92158787, 0x20C9E9E9, 0x4987CECE, 0xFFAA5555, 0x78502828, 0x7AA5DFDF,
  0x8F038C8C, 0xF859A1A1, 0x80098989, 0x171A0D0D, 0xDA65BFBF, 0x31D7E6E6, 0xC6844242, 0xB8D06868,
  0xC3824141, 0xB0299999, 0x775A2D2D, 0x111E0F0F, 0xCB7BB0B0, 0xFCA85454, 0xD66DBBBB, 0x3A2C1616]

/-- Table mtpz_aes_rt1, transcribed verbatim from mtpz.c. -/
def mtpz_aes_rt1 : List Nat := [
  0xF4A75051, 0x4165537E, 0x17A4C31A, 0x275E963A, 0xAB6BCB3B, 0x9D45F11F, 0xFA58ABAC, 0xE303934B,
  0x30FA5520, 0x766DF6AD, 0xCC769188, 0x024C25F5, 0xE5D7FC4F, 0x2ACBD7C5, 0x35448026, 0x62A38FB5,
  0xB15A49DE, 0xBA1B6725, 0xEA0E9845, 0xFEC0E15D, 0x2F7502C3, 0x4CF01281, 0x4697A38D, 0xD3F9C66B,
  0x8F5FE703, 0x929C9515, 0x6D7AEBBF, 0x5259DA95, 0xBE832DD4, 0x7421D358, 0xE0692949, 0xC9C8448E,
  0xC2896A75, 0x8E7978F4, 0x583E6B99, 0xB971DD27, 0xE14FB6BE, 0x88AD17F0, 0x20AC66C9, 0xCE3AB47D,
  0xDF4A1863, 0x1A3182E5, 0x51336097, 0x537F4562, 0x6477E0B1, 0x6BAE84BB, 0x81A01CFE, 0x082B94F9,
  0x48685870, 0x45FD198F, 0xDE6C8794, 0x7BF8B752, 0x73D323AB, 0x4B02E272, 0x1F8F57E3, 0x55AB2A66,
  0xEB2807B2, 0xB5C2032F, 0xC57B9A86, 0x3708A5D3, 0x2887F230, 0xBFA5B223, 0x036ABA02, 0x16825CED,
  0xCF1C2B8A, 0x79B492A7, 0x07F2F0F3, 0x69E2A14E, 0xDAF4CD65, 0x05BED506, 0x34621FD1, 0xA6FE8AC4,
  0x2E539D34, 0xF355A0A2, 0x8AE13205, 0xF6EB75A4, 0x83EC390B, 0x60EFAA40, 0x719F065E, 0x6E1051BD,
  0x218AF93E, 0xDD063D96, 0x3E05AEDD, 0xE6BD464D, 0x548DB591, 0xC45D0571, 0x06D46F04, 0x5015FF60,
  0x98FB2419, 0xBDE997D6, 0x4043CC89, 0xD99E7767, 0xE842BDB0, 0x898B8807, 0x195B38E7, 0xC8EEDB79,
  0x7C0A47A1, 0x420FE97C, 0x841EC9F8, 0x00000000, 0x80868309, 0x2BED4832, 0x1170AC1E, 0x5A724E6C,
  0x0EFFFBFD, 0x8538560F, 0xAED51E3D, 0x2D392736, 0x0FD9640A, 0x5CA62168, 0x5B54D19B, 0x362E3A24,
  0x0A67B10C, 0x57E70F93, 0xEE96D2B4, 0x9B919E1B, 0xC0C54F80, 0xDC20A261, 0x774B695A, 0x121A161C,
  0x93BA0AE2, 0xA02AE5C0, 0x22E0433C, 0x1B171D12, 0x090D0B0E, 0x8BC7ADF2, 0xB6A8B92D, 0x1EA9C814,
  0xF1198557, 0x75074CAF, 0x99DDBBEE, 0x7F60FDA3, 0x01269FF7, 0x72F5BC5C, 0x663BC544, 0xFB7E345B,
  0x4329768B, 0x23C6DCCB, 0xEDFC68B6, 0xE4F163B8, 0x31DCCAD7, 0x63851042, 0x97224013, 0xC6112084,
  0x4A247D85, 0xBB3DF8D2, 0xF93211AE, 0x29A16DC7, 0x9E2F4B1D, 0xB230F3DC, 0x8652EC0D, 0xC1E3D077,
  0xB3166C2B, 0x70B999A9, 0x9448FA11, 0xE9642247, 0xFC8CC4A8, 0xF03F1AA0, 0x7D2CD856, 0x3390EF22,
  0x494EC787, 0x38D1C1D9, 0xCAA2FE8C, 0xD40B3698, 0xF581CFA6, 0x7ADE28A5, 0xB78E26DA, 0xADBFA43F,
  0x3A9DE42C, 0x78920D50, 0x5FCC9B6A, 0x7E466254, 0x8D13C2F6, 0xD8B8E890, 0x39F75E2E, 0xC3AFF582,
  0x5D80BE9F, 0xD0937C69, 0xD52DA96F, 0x2512B3CF, 0xAC993BC8, 0x187DA710, 0x9C636EE8, 0x3BBB7BDB,
  0x267809CD, 0x5918F46E, 0x9AB701EC, 0x4F9AA883, 0x956E65E6, 0xFFE67EAA, 0xBCCF0821, 0x15E8E6EF,
  0xE79BD9BA, 0x6F36CE4A, 0x9F09D4EA, 0xB07CD629, 0xA4B2AF31, 0x3F23312A, 0xA59430C6, 0xA266C035,
  0x4EBC3774, 0x82CAA6FC, 0x90D0B0E0, 0xA7D81533, 0x04984AF1, 0xECDAF741, 0xCD500E7F, 0x91F62F17,
  0x4DD68D76, 0xEFB04D43, 0xAA4D54CC, 0x9604DFE4, 0xD1B5E39E, 0x6A881B4C, 0x2C1FB8C1, 0x65517F46,
  0x5EEA049D, 0x8C355D01, 0x877473FA, 0x0B412EFB, 0x671D5AB3, 0xDBD25292, 0x105633E9, 0xD647136D,
  0xD7618C9A, 0xA10C7A37, 0xF8148E59, 0x133C89EB, 0xA927EECE, 0x61C935B7, 0x1CE5EDE1, 0x47B13C7A,
  0xD2DF599C, 0xF2733F55, 0x14CE7918, 0xC737BF73, 0xF7CDEA53, 0xFDAA5B5F, 0x3D6F14DF, 0x44DB8678,
  0xAFF381CA, 0x68C43EB9, 0x24342C38, 0xA3405FC2, 0x1DC37216, 0xE2250CBC, 0x3C498B28, 0x0D9541FF,
  0xA8017139, 0x0CB3DE08, 0xB4E49CD8, 0x56C19064, 0xCB84617B, 0x32B670D5, 0x6C5C7448, 0xB85742D0]

/-- Table mtpz_aes_rt2, transcribed verbatim from mtpz.c. -/
def mtpz_aes_rt2 : List Nat := [
  0xA75051F4, 0x65537E41, 0xA4C31A17, 0x5E963A27, 0x6BCB3BAB, 0x45F11F9D, 0x58ABACFA, 0x03934BE3,
  0xFA552030, 0x6DF6AD76, 0x769188CC, 0x4C25F502, 0xD7FC4FE5, 0xCBD7C52A, 0x44802635, 0xA38FB562,
  0x5A49DEB1, 0x1B6725BA, 0x0E9845EA, 0xC0E15DFE, 0x7502C32F, 0xF012814C, 0x97A38D46, 0xF9C66BD3,
  0x5FE7038F, 0x9C951592, 0x7AEBBF6D, 0x59DA9552, 0x832DD4BE, 0x21D35874, 0x692949E0, 0xC8448EC9,
  0x896A75C2, 0x7978F48E, 0x3E6B9958, 0x71DD27B9, 0x4FB6BEE1, 0xAD17F088, 0xAC66C920, 0x3AB47DCE,
  0x4A1863DF, 0x3182E51A, 0x33609751, 0x7F456253, 0x77E0B164, 0xAE84BB6B, 0xA01CFE81, 0x2B94F908,
  0x68587048, 0xFD198F45, 0x6C8794DE, 0xF8B7527B, 0xD323AB73, 0x02E2724B, 0x8F57E31F, 0xAB2A6655,
  0x2807B2EB, 0xC2032FB5, 0x7B9A86C5, 0x08A5D337, 0x87F23028, 0xA5B223BF, 0x6ABA0203, 0x825CED16,
  0x1C2B8ACF, 0xB492A779, 0xF2F0F307, 0xE2A14E69, 0xF4CD65DA, 0xBED50605, 0x621FD134, 0xFE8AC4A6,
  0x539D342E, 0x55A0A2F3, 0xE132058A, 0xEB75A4F6, 0xEC390B83, 0xEFAA4060, 0x9F065E71, 0x1051BD6E,
  0x8AF93E21, 0x063D96DD, 0x05AEDD3E, 0xBD464DE6, 0x8DB59154, 0x5D0571C4, 0xD46F0406, 0x15FF6050,
  0xFB241998, 0xE997D6BD, 0x43CC8940, 0x9E7767D9, 0x42BDB0E8, 0x8B880789, 0x5B38E719, 0xEEDB79C8,
  0x0A47A17C, 0x0FE97C42, 0x1EC9F884, 0x00000000, 0x86830980, 0xED48322B, 0x70AC1E11, 0x724E6C5A,
  0xFFFBFD0E, 0x38560F85, 0xD51E3DAE, 0x3927362D, 0xD9640A0F, 0xA621685C, 0x54D19B5B, 0x2E3A2436,
  0x67B10C0A, 0xE70F9357, 0x96D2B4EE, 0x919E1B9B, 0xC54F80C0, 0x20A261DC, 0x4B695A77, 0x1A161C12,
  0xBA0AE293, 0x2AE5C0A0, 0xE0433C22, 0x171D121B, 0x0D0B0E09, 0xC7ADF28B, 0xA8B92DB6, 0xA9C8141E,
  0x198557F1, 0x074CAF75, 0xDDBBEE99, 0x60FDA37F, 0x269FF701, 0xF5BC5C72, 0x3BC54466, 0x7E345BFB,
  0x29768B43, 0xC6DCCB23, 0xFC68B6ED, 0xF163B8E4, 0xDCCAD731, 0x85104263, 0x22401397, 0x112084C6,
  0x247D854A, 0x3DF8D2BB, 0x3211AEF9, 0xA16DC729, 0x2F4B1D9E, 0x30F3DCB2, 0x52EC0D86, 0xE3D077C1,
  0x166C2BB3, 0xB999A970, 0x48FA1194, 0x642247E9, 0x8CC4A8FC, 0x3F1AA0F0, 0x2CD8567D, 0x90EF2233,
  0x4EC78749, 0xD1C1D938, 0xA2FE8CCA, 0x0B3698D4, 0x81CFA6F5, 0xDE28A57A, 0x8E26DAB7, 0xBFA43FAD,
  0x9DE42C3A, 0x920D5078, 0xCC9B6A5F, 0x4662547E, 0x13C2F68D, 0xB8E890D8, 0xF75E2E39, 0xAFF582C3,
  0x80BE9F5D, 0x937C69D0, 0x2DA96FD5, 0x12B3CF25, 0x993BC8AC, 0x7DA71018, 0x636EE89C, 0xBB7BDB3B,
  0x7809CD26, 0x18F46E59, 0xB701EC9A, 0x9AA8834F, 0x6E65E695, 0xE67EAAFF, 0xCF0821BC, 0xE8E6EF15,
  0x9BD9BAE7, 0x36CE4A6F, 0x09D4EA9F, 0x7CD629B0, 0xB2AF31A4, 0x23312A3F, 0x9430C6A5, 0x66C035A2,
  0xBC37744E, 0xCAA6FC82, 0xD0B0E090, 0xD81533A7, 0x984AF104, 0xDAF741EC, 0x500E7FCD, 0xF62F1791,
  0xD68D764D, 0xB04D43EF, 0x4D54CCAA, 0x04DFE496, 0xB5E39ED1, 0x881B4C6A, 0x1FB8C12C, 0x517F4665,
  0xEA049D5E, 0x355D018C, 0x7473FA87, 0x412EFB0B, 0x1D5AB367, 0xD25292DB, 0x5633E910, 0x47136DD6,
  0x618C9AD7, 0x0C7A37A1, 0x148E59F8, 0x3C89EB13, 0x27EECEA9, 0xC935B761, 0xE5EDE11C, 0xB13C7A47,
  0xDF599CD2, 0x733F55F2, 0xCE791814, 0x37BF73C7, 0xCDEA53F7, 0xAA5B5FFD, 0x6F14DF3D, 0xDB867844,
  0xF381CAAF, 0xC43EB968, 0x342C3824, 0x405FC2A3, 0xC372161D, 0x250CBCE2, 0x498B283C, 0x9541FF0D,
  0x017139A8, 0xB3DE080C, 0xE49CD8B4, 0xC1906456, 0x84617BCB, 0xB670D532, 0x5C74486C, 0x5742D0B8]

/-- Table mtpz_aes_rt3, transcribed verbatim from mtpz.c. -/
def mtpz_aes_rt3 : List Nat := [
  0x51F4A750, 0x7E416553, 0x1A17A4C3, 0x3A275E96, 0x3BAB6BCB, 0x1F9D45F1, 0xACFA58AB, 0x4BE30393,
  0x2030FA55, 0xAD766DF6, 0x88CC7691, 0xF5024C25, 0x4FE5D7FC, 0xC52ACBD7, 0x26354480, 0xB562A38F,
  0xDEB15A49, 0x25BA1B67, 0x45EA0E98, 0x5DFEC0E1, 0xC32F7502, 0x814CF012, 0x8D4697A3, 0x6BD3F9C6,
  0x038F5FE7, 0x15929C95, 0xBF6D7AEB, 0x955259DA, 0xD4BE832D, 0x587421D3, 0x49E06929, 0x8EC9C844,
  0x75C2896A, 0xF48E7978, 0x99583E6B, 0x27B971DD, 0xBEE14FB6, 0xF088AD17, 0xC920AC66, 0x7DCE3AB4,
  0x63DF4A18, 0xE51A3182, 0x97513360, 0x62537F45, 0xB16477E0, 0xBB6BAE84, 0xFE81A01C, 0xF9082B94,
  0x70486858, 0x8F45FD19, 0x94DE6C87, 0x527BF8B7, 0xAB73D323, 0x724B02E2, 0xE31F8F57, 0x6655AB2A,
  0xB2EB2807, 0x2FB5C203, 0x86C57B9A, 0xD33708A5, 0x302887F2, 0x23BFA5B2, 0x02036ABA, 0xED16825C,
  0x8ACF1C2B, 0xA779B492, 0xF307F2F0, 0x4E69E2A1, 0x65DAF4CD, 0x0605BED5, 0xD134621F, 0xC4A6FE8A,
  0x342E539D, 0xA2F355A0, 0x058AE132, 0xA4F6EB75, 0x0B83EC39, 0x4060EFAA, 0x5E719F06, 0xBD6E1051,
  0x3E218AF9, 0x96DD063D, 0xDD3E05AE, 0x4DE6BD46, 0x91548DB5, 0x71C45D05, 0x0406D46F, 0x605015FF,
  0x1998FB24, 0xD6BDE997, 0x894043CC, 0x67D99E77, 0xB0E842BD, 0x07898B88, 0xE7195B38, 0x79C8EEDB,
  0xA17C0A47, 0x7C420FE9, 0xF8841EC9, 0x00000000, 0x09808683, 0x322BED48, 0x1E1170AC, 0x6C5A724E,
  0xFD0EFFFB, 0x0F853856, 0x3DAED51E, 0x362D3927, 0x0A0FD964, 0x685CA621, 0x9B5B54D1, 0x24362E3A,
  0x0C0A67B1, 0x9357E70F, 0xB4EE96D2, 0x1B9B919E, 0x80C0C54F, 0x61DC20A2, 0x5A774B69, 0x1C121A16,
  0xE293BA0A, 0xC0A02AE5, 0x3C22E043, 0x121B171D, 0x0E090D0B, 0xF28BC7AD, 0x2DB6A8B9, 0x141EA9C8,
  0x57F11985, 0xAF75074C, 0xEE99DDBB, 0xA37F60FD, 0xF701269F, 0x5C72F5BC, 0x44663BC5, 0x5BFB7E34,
  0x8B432976, 0xCB23C6DC, 0xB6EDFC68, 0xB8E4F163, 0xD731DCCA, 0x42638510, 0x13972240, 0x84C61120,
  0x854A247D, 0xD2BB3DF8, 0xAEF93211, 0xC729A16D, 0x1D9E2F4B, 0xDCB230F3, 0x0D8652EC, 0x77C1E3D0,
  0x2BB3166C, 0xA970B999, 0x119448FA, 0x47E96422, 0xA8FC8CC4, 0xA0F03F1A, 0x567D2CD8, 0x223390EF,
  0x87494EC7, 0xD938D1C1, 0x8CCAA2FE, 0x98D40B36, 0xA6F581CF, 0xA57ADE28, 0xDAB78E26, 0x3FADBFA4,
  0x2C3A9DE4, 0x5078920D, 0x6A5FCC9B, 0x547E4662, 0xF68D13C2, 0x90D8B8E8, 0x2E39F75E, 0x82C3AFF5,
  0x9F5D80BE, 0x69D0937C, 0x6FD52DA9, 0xCF2512B3, 0xC8AC993B, 0x10187DA7, 0xE89C636E, 0xDB3BBB7B,
  0xCD267809, 0x6E5918F4, 0xEC9AB701, 0x834F9AA8, 0xE6956E65, 0xAAFFE67E, 0x21BCCF08, 0xEF15E8E6,
  0xBAE79BD9, 0x4A6F36CE, 0xEA9F09D4, 0x29B07CD6, 0x31A4B2AF, 0x2A3F2331, 0xC6A59430, 0x35A266C0,
  0x744EBC37, 0xFC82CAA6, 0xE090D0B0, 0x33A7D815, 0xF104984A, 0x41ECDAF7, 0x7FCD500E, 0x1791F62F,
  0x764DD68D, 0x43EFB04D, 0xCCAA4D54, 0xE49604DF, 0x9ED1B5E3, 0x4C6A881B, 0xC12C1FB8, 0x4665517F,
  0x9D5EEA04, 0x018C355D, 0xFA877473, 0xFB0B412E, 0xB3671D5A, 0x92DBD252, 0xE9105633, 0x6DD64713,
  0x9AD7618C, 0x37A10C7A, 0x59F8148E, 0xEB133C89, 0xCEA927EE, 0xB761C935, 0xE11CE5ED, 0x7A47B13C,
  0x9CD2DF59, 0x55F2733F, 0x1814CE79, 0x73C737BF, 0x53F7CDEA, 0x5FFDAA5B, 0xDF3D6F14, 0x7844DB86,
  0xCAAFF381, 0xB968C43E, 0x3824342C, 0xC2A3405F, 0x161DC372, 0xBCE2250C, 0x283C498B, 0xFF0D9541,
  0x39A80171, 0x080CB3DE, 0xD8B4E49C, 0x6456C190, 0x7BCB8461, 0xD532B670, 0x486C5C74, 0xD0B85742]

/-- Table mtpz_aes_rt4, transcribed verbatim from mtpz.c. -/
def mtpz_aes_rt4 : List Nat := [
  0x5051F4A7, 0x537E4165, 0xC31A17A4, 0x963A275E, 0xCB3BAB6B, 0xF11F9D45, 0xABACFA58, 0x934BE303,
  0x552030FA, 0xF6AD766D, 0x9188CC76, 0x25F5024C, 0xFC4FE5D7, 0xD7C52ACB, 0x80263544, 0x8FB562A3,
  0x49DEB15A, 0x6725BA1B, 0x9845EA0E, 0xE15DFEC0, 0x02C32F75, 0x12814CF0, 0xA38D4697, 0xC66BD3F9,
  0xE7038F5F, 0x9515929C, 0xEBBF6D7A, 0xDA955259, 0x2DD4BE83, 0xD3587421, 0x2949E069, 0x448EC9C8,
  0x6A75C289, 0x78F48E79, 0x6B99583E, 0xDD27B971, 0xB6BEE14F, 0x17F088AD, 0x66C920AC, 0xB47DCE3A,
  0x1863DF4A, 0x82E51A31, 0x60975133, 0x4562537F, 0xE0B16477, 0x84BB6BAE, 0x1CFE81A0, 0x94F9082B,
  0x58704868, 0x198F45FD, 0x8794DE6C, 0xB7527BF8, 0x23AB73D3, 0xE2724B02, 0x57E31F8F, 0x2A6655AB,
  0x07B2EB28, 0x032FB5C2, 0x9A86C57B, 0xA5D33708, 0xF2302887, 0xB223BFA5, 0xBA02036A, 0x5CED1682,
  0x2B8ACF1C, 0x92A779B4, 0xF0F307F2, 0xA14E69E2, 0xCD65DAF4, 0xD50605BE, 0x1FD13462, 0x8AC4A6FE,
  0x9D342E53, 0xA0A2F355, 0x32058AE1, 0x75A4F6EB, 0x390B83EC, 0xAA4060EF, 0x065E719F, 0x51BD6E10,
  0xF93E218A, 0x3D96DD06, 0xAEDD3E05, 0x464DE6BD, 0xB591548D, 0x0571C45D, 0x6F0406D4, 0xFF605015,
  0x241998FB, 0x97D6BDE9, 0xCC894043, 0x7767D99E, 0xBDB0E842, 0x8807898B, 0x38E7195B, 0xDB79C8EE,
  0x47A17C0A, 0xE97C420F, 0xC9F8841E, 0x00000000, 0x83098086, 0x48322BED, 0xAC1E1170, 0x4E6C5A72,
  0xFBFD0EFF, 0x560F8538, 0x1E3DAED5, 0x27362D39, 0x640A0FD9, 0x21685CA6, 0xD19B5B54, 0x3A24362E,
  0xB10C0A67, 0x0F9357E7, 0xD2B4EE96, 0x9E1B9B91, 0x4F80C0C5, 0xA261DC20, 0x695A774B, 0x161C121A,
  0x0AE293BA, 0xE5C0A02A, 0x433C22E0, 0x1D121B17, 0x0B0E090D, 0xADF28BC7, 0xB92DB6A8, 0xC8141EA9,
  0x8557F119, 0x4CAF7507, 0xBBEE99DD, 0xFDA37F60, 0x9FF70126, 0xBC5C72F5, 0xC544663B, 0x345BFB7E,
  0x768B4329, 0xDCCB23C6, 0x68B6EDFC, 0x63B8E4F1, 0xCAD731DC, 0x10426385, 0x40139722, 0x2084C611,
  0x7D854A24, 0xF8D2BB3D, 0x11AEF932, 0x6DC729A1, 0x4B1D9E2F, 0xF3DCB230, 0xEC0D8652, 0xD077C1E3,
  0x6C2BB316, 0x99A970B9, 0xFA119448, 0x2247E964, 0xC4A8FC8C, 0x1AA0F03F, 0xD8567D2C, 0xEF223390,
  0xC787494E, 0xC1D938D1, 0xFE8CCAA2, 0x3698D40B, 0xCFA6F581, 0x28A57ADE, 0x26DAB78E, 0xA43FADBF,
  0xE42C3A9D, 0x0D507892, 0x9B6A5FCC, 0x62547E46, 0xC2F68D13, 0xE890D8B8, 0x5E2E39F7, 0xF582C3AF,
  0xBE9F5D80, 0x7C69D093, 0xA96FD52D, 0xB3CF2512, 0x3BC8AC99, 0xA710187D, 0x6EE89C63, 0x7BDB3BBB,
  0x09CD2678, 0xF46E5918, 0x01EC9AB7, 0xA8834F9A, 0x65E6956E, 0x7EAAFFE6, 0x0821BCCF, 0xE6EF15E8,
  0xD9BAE79B, 0xCE4A6F36, 0xD4EA9F09, 0xD629B07C, 0xAF31A4B2, 0x312A3F23, 0x30C6A594, 0xC035A266,
  0x37744EBC, 0xA6FC82CA, 0xB0E090D0, 0x1533A7D8, 0x4AF10498, 0xF741ECDA, 0x0E7FCD50, 0x2F1791F6,
  0x8D764DD6, 0x4D43EFB0, 0x54CCAA4D, 0xDFE49604, 0xE39ED1B5, 0x1B4C6A88, 0xB8C12C1F, 0x7F466551,
  0x049D5EEA, 0x5D018C35, 0x73FA8774, 0x2EFB0B41, 0x5AB3671D, 0x5292DBD2, 0x33E91056, 0x136DD647,
  0x8C9AD761, 0x7A37A10C, 0x8E59F814, 0x89EB133C, 0xEECEA927, 0x35B761C9, 0xEDE11CE5, 0x3C7A47B1,
  0x599CD2DF, 0x3F55F273, 0x791814CE, 0xBF73C737, 0xEA53F7CD, 0x5B5FFDAA, 0x14DF3D6F, 0x867844DB,
  0x81CAAFF3, 0x3EB968C4, 0x2C382434, 0x5FC2A340, 0x72161DC3, 0x0CBCE225, 0x8B283C49, 0x41FF0D95,
  0x7139A801, 0xDE080CB3, 0x9CD8B4E4, 0x906456C1, 0x617BCB84, 0x70D532B6, 0x74486C5C, 0x42D0B857]

/-- Table mtpz_aes_gb11, transcribed verbatim from mtpz.c. -/
def mtpz_aes_gb11 : List Nat := [
  0x00000000, 0x0B0E090D, 0x161C121A, 0x1D121B17, 0x2C382434, 0x27362D39, 0x3A24362E, 0x312A3F23,
  0x58704868, 0x537E4165, 0x4E6C5A72, 0x4562537F, 0x74486C5C, 0x7F466551, 0x62547E46, 0x695A774B,
  0xB0E090D0, 0xBBEE99DD, 0xA6FC82CA, 0xADF28BC7, 0x9CD8B4E4, 0x97D6BDE9, 0x8AC4A6FE, 0x81CAAFF3,
  0xE890D8B8, 0xE39ED1B5, 0xFE8CCAA2, 0xF582C3AF, 0xC4A8FC8C, 0xCFA6F581, 0xD2B4EE96, 0xD9BAE79B,
  0x7BDB3BBB, 0x70D532B6, 0x6DC729A1, 0x66C920AC, 0x57E31F8F, 0x5CED1682, 0x41FF0D95, 0x4AF10498,
  0x23AB73D3, 0x28A57ADE, 0x35B761C9, 0x3EB968C4, 0x0F9357E7, 0x049D5EEA, 0x198F45FD, 0x12814CF0,
  0xCB3BAB6B, 0xC035A266, 0xDD27B971, 0xD629B07C, 0xE7038F5F, 0xEC0D8652, 0xF11F9D45, 0xFA119448,
  0x934BE303, 0x9845EA0E, 0x8557F119, 0x8E59F814, 0xBF73C737, 0xB47DCE3A, 0xA96FD52D, 0xA261DC20,
  0xF6AD766D, 0xFDA37F60, 0xE0B16477, 0xEBBF6D7A, 0xDA955259, 0xD19B5B54, 0xCC894043, 0xC787494E,
  0xAEDD3E05, 0xA5D33708, 0xB8C12C1F, 0xB3CF2512, 0x82E51A31, 0x89EB133C, 0x94F9082B, 0x9FF70126,
  0x464DE6BD, 0x4D43EFB0, 0x5051F4A7, 0x5B5FFDAA, 0x6A75C289, 0x617BCB84, 0x7C69D093, 0x7767D99E,
  0x1E3DAED5, 0x1533A7D8, 0x0821BCCF, 0x032FB5C2, 0x32058AE1, 0x390B83EC, 0x241998FB, 0x2F1791F6,
  0x8D764DD6, 0x867844DB, 0x9B6A5FCC, 0x906456C1, 0xA14E69E2, 0xAA4060EF, 0xB7527BF8, 0xBC5C72F5,
  0xD50605BE, 0xDE080CB3, 0xC31A17A4, 0xC8141EA9, 0xF93E218A, 0xF2302887, 0xEF223390, 0xE42C3A9D,
  0x3D96DD06, 0x3698D40B, 0x2B8ACF1C, 0x2084C611, 0x11AEF932, 0x1AA0F03F, 0x07B2EB28, 0x0CBCE225,
  0x65E6956E, 0x6EE89C63, 0x73FA8774, 0x78F48E79, 0x49DEB15A, 0x42D0B857, 0x5FC2A340, 0x54CCAA4D,
  0xF741ECDA, 0xFC4FE5D7, 0xE15DFEC0, 0xEA53F7CD, 0xDB79C8EE, 0xD077C1E3, 0xCD65DAF4, 0xC66BD3F9,
  0xAF31A4B2, 0xA43FADBF, 0xB92DB6A8, 0xB223BFA5, 0x83098086, 0x8807898B, 0x9515929C, 0x9E1B9B91,
  0x47A17C0A, 0x4CAF7507, 0x51BD6E10, 0x5AB3671D, 0x6B99583E, 0x60975133, 0x7D854A24, 0x768B4329,
  0x1FD13462, 0x14DF3D6F, 0x09CD2678, 0x02C32F75, 0x33E91056, 0x38E7195B, 0x25F5024C, 0x2EFB0B41,
  0x8C9AD761, 0x8794DE6C, 0x9A86C57B, 0x9188CC76, 0xA0A2F355, 0xABACFA58, 0xB6BEE14F, 0xBDB0E842,
  0xD4EA9F09, 0xDFE49604, 0xC2F68D13, 0xC9F8841E, 0xF8D2BB3D, 0xF3DCB230, 0xEECEA927, 0xE5C0A02A,
  0x3C7A47B1, 0x37744EBC, 0x2A6655AB, 0x21685CA6, 0x10426385, 0x1B4C6A88, 0x065E719F, 0x0D507892,
  0x640A0FD9, 0x6F0406D4, 0x72161DC3, 0x791814CE, 0x48322BED, 0x433C22E0, 0x5E2E39F7, 0x552030FA,
  0x01EC9AB7, 0x0AE293BA, 0x17F088AD, 0x1CFE81A0, 0x2DD4BE83, 0x26DAB78E, 0x3BC8AC99, 0x30C6A594,
  0x599CD2DF, 0x5292DBD2, 0x4F80C0C5, 0x448EC9C8, 0x75A4F6EB, 0x7EAAFFE6, 0x63B8E4F1, 0x68B6EDFC,
  0xB10C0A67, 0xBA02036A, 0xA710187D, 0xAC1E1170, 0x9D342E53, 0x963A275E, 0x8B283C49, 0x80263544,
  0xE97C420F, 0xE2724B02, 0xFF605015, 0xF46E5918, 0xC544663B, 0xCE4A6F36, 0xD3587421, 0xD8567D2C,
  0x7A37A10C, 0x7139A801, 0x6C2BB316, 0x6725BA1B, 0x560F8538, 0x5D018C35, 0x40139722, 0x4B1D9E2F,
  0x2247E964, 0x2949E069, 0x345BFB7E, 0x3F55F273, 0x0E7FCD50, 0x0571C45D, 0x1863DF4A, 0x136DD647,
  0xCAD731DC, 0xC1D938D1, 0xDCCB23C6, 0xD7C52ACB, 0xE6EF15E8, 0xEDE11CE5, 0xF0F307F2, 0xFBFD0EFF,
  0x92A779B4, 0x99A970B9, 0x84BB6BAE, 0x8FB562A3, 0xBE9F5D80, 0xB591548D, 0xA8834F9A, 0xA38D4697]

/-- Table mtpz_aes_gb14, transcribed verbatim from mtpz.c. -/
def mtpz_aes_gb14 : List Nat := [
  0x00000000, 0x0E090D0B, 0x1C121A16, 0x121B171D, 0x3824342C, 0x362D3927, 0x24362E3A, 0x2A3F2331,
  0x70486858, 0x7E416553, 0x6C5A724E, 0x62537F45, 0x486C5C74, 0x4665517F, 0x547E4662, 0x5A774B69,
  0xE090D0B0, 0xEE99DDBB, 0xFC82CAA6, 0xF28BC7AD, 0xD8B4E49C, 0xD6BDE997, 0xC4A6FE8A, 0xCAAFF381,
  0x90D8B8E8, 0x9ED1B5E3, 0x8CCAA2FE, 0x82C3AFF5, 0xA8FC8CC4, 0xA6F581CF, 0xB4EE96D2, 0xBAE79BD9,
  0xDB3BBB7B, 0xD532B670, 0xC729A16D, 0xC920AC66, 0xE31F8F57, 0xED16825C, 0xFF0D9541, 0xF104984A,
  0xAB73D323, 0xA57ADE28, 0xB761C935, 0xB968C43E, 0x9357E70F, 0x9D5EEA04, 0x8F45FD19, 0x814CF012,
  0x3BAB6BCB, 0x35A266C0, 0x27B971DD, 0x29B07CD6, 0x038F5FE7, 0x0D8652EC, 0x1F9D45F1, 0x119448FA,
  0x4BE30393, 0x45EA0E98, 0x57F11985, 0x59F8148E, 0x73C737BF, 0x7DCE3AB4, 0x6FD52DA9, 0x61DC20A2,
  0xAD766DF6, 0xA37F60FD, 0xB16477E0, 0xBF6D7AEB, 0x955259DA, 0x9B5B54D1, 0x894043CC, 0x87494EC7,
  0xDD3E05AE, 0xD33708A5, 0xC12C1FB8, 0xCF2512B3, 0xE51A3182, 0xEB133C89, 0xF9082B94, 0xF701269F,
  0x4DE6BD46, 0x43EFB04D, 0x51F4A750, 0x5FFDAA5B, 0x75C2896A, 0x7BCB8461, 0x69D0937C, 0x67D99E77,
  0x3DAED51E, 0x33A7D815, 0x21BCCF08, 0x2FB5C203, 0x058AE132, 0x0B83EC39, 0x1998FB24, 0x1791F62F,
  0x764DD68D, 0x7844DB86, 0x6A5FCC9B, 0x6456C190, 0x4E69E2A1, 0x4060EFAA, 0x527BF8B7, 0x5C72F5BC,
  0x0605BED5, 0x080CB3DE, 0x1A17A4C3, 0x141EA9C8, 0x3E218AF9, 0x302887F2, 0x223390EF, 0x2C3A9DE4,
  0x96DD063D, 0x98D40B36, 0x8ACF1C2B, 0x84C61120, 0xAEF93211, 0xA0F03F1A, 0xB2EB2807, 0xBCE2250C,
  0xE6956E65, 0xE89C636E, 0xFA877473, 0xF48E7978, 0xDEB15A49, 0xD0B85742, 0xC2A3405F, 0xCCAA4D54,
  0x41ECDAF7, 0x4FE5D7FC, 0x5DFEC0E1, 0x53F7CDEA, 0x79C8EEDB, 0x77C1E3D0, 0x65DAF4CD, 0x6BD3F9C6,
  0x31A4B2AF, 0x3FADBFA4, 0x2DB6A8B9, 0x23BFA5B2, 0x09808683, 0x07898B88, 0x15929C95, 0x1B9B919E,
  0xA17C0A47, 0xAF75074C, 0xBD6E1051, 0xB3671D5A, 0x99583E6B, 0x97513360, 0x854A247D, 0x8B432976,
  0xD134621F, 0xDF3D6F14, 0xCD267809, 0xC32F7502, 0xE9105633, 0xE7195B38, 0xF5024C25, 0xFB0B412E,
  0x9AD7618C, 0x94DE6C87, 0x86C57B9A, 0x88CC7691, 0xA2F355A0, 0xACFA58AB, 0xBEE14FB6, 0xB0E842BD,
  0xEA9F09D4, 0xE49604DF, 0xF68D13C2, 0xF8841EC9, 0xD2BB3DF8, 0xDCB230F3, 0xCEA927EE, 0xC0A02AE5,
  0x7A47B13C, 0x744EBC37, 0x6655AB2A, 0x685CA621, 0x42638510, 0x4C6A881B, 0x5E719F06, 0x5078920D,
  0x0A0FD964, 0x0406D46F, 0x161DC372, 0x1814CE79, 0x322BED48, 0x3C22E043, 0x2E39F75E, 0x2030FA55,
  0xEC9AB701, 0xE293BA0A, 0xF088AD17, 0xFE81A01C, 0xD4BE832D, 0xDAB78E26, 0xC8AC993B, 0xC6A59430,
  0x9CD2DF59, 0x92DBD252, 0x80C0C54F, 0x8EC9C844, 0xA4F6EB75, 0xAAFFE67E, 0xB8E4F163, 0xB6EDFC68,
  0x0C0A67B1, 0x02036ABA, 0x10187DA7, 0x1E1170AC, 0x342E539D, 0x3A275E96, 0x283C498B, 0x26354480,
  0x7C420FE9, 0x724B02E2, 0x605015FF, 0x6E5918F4, 0x44663BC5, 0x4A6F36CE, 0x587421D3, 0x567D2CD8,
  0x37A10C7A, 0x39A80171, 0x2BB3166C, 0x25BA1B67, 0x0F853856, 0x018C355D, 0x13972240, 0x1D9E2F4B,
  0x47E96422, 0x49E06929, 0x5BFB7E34, 0x55F2733F, 0x7FCD500E, 0x71C45D05, 0x63DF4A18, 0x6DD64713,
  0xD731DCCA, 0xD938D1C1, 0xCB23C6DC, 0xC52ACBD7, 0xEF15E8E6, 0xE11CE5ED, 0xF307F2F0, 0xFD0EFFFB,
  0xA779B492, 0xA970B999, 0xBB6BAE84, 0xB562A38F, 0x9F5D80BE, 0x91548DB5, 0x834F9AA8, 0x8D4697A3]

/-- Table mtpz_aes_gb13, transcribed verbatim from mtpz.c. -/
def mtpz_aes_gb13 : List Nat := [
  0x00000000, 0x0D0B0E09, 0x1A161C12, 0x171D121B, 0x342C3824, 0x3927362D, 0x2E3A2436, 0x23312A3F,
  0x68587048, 0x65537E41, 0x724E6C5A, 0x7F456253, 0x5C74486C, 0x517F4665, 0x4662547E, 0x4B695A77,
  0xD0B0E090, 0xDDBBEE99, 0xCAA6FC82, 0xC7ADF28B, 0xE49CD8B4, 0xE997D6BD, 0xFE8AC4A6, 0xF381CAAF,
  0xB8E890D8, 0xB5E39ED1, 0xA2FE8CCA, 0xAFF582C3, 0x8CC4A8FC, 0x81CFA6F5, 0x96D2B4EE, 0x9BD9BAE7,
  0xBB7BDB3B, 0xB670D532, 0xA16DC729, 0xAC66C920, 0x8F57E31F, 0x825CED16, 0x9541FF0D, 0x984AF104,
  0xD323AB73, 0xDE28A57A, 0xC935B761, 0xC43EB968, 0xE70F9357, 0xEA049D5E, 0xFD198F45, 0xF012814C,
  0x6BCB3BAB, 0x66C035A2, 0x71DD27B9, 0x7CD629B0, 0x5FE7038F, 0x52EC0D86, 0x45F11F9D, 0x48FA1194,
  0x03934BE3, 0x0E9845EA, 0x198557F1, 0x148E59F8, 0x37BF73C7, 0x3AB47DCE, 0x2DA96FD5, 0x20A261DC,
  0x6DF6AD76, 0x60FDA37F, 0x77E0B164, 0x7AEBBF6D, 0x59DA9552, 0x54D19B5B, 0x43CC8940, 0x4EC78749,
  0x05AEDD3E, 0x08A5D337, 0x1FB8C12C, 0x12B3CF25, 0x3182E51A, 0x3C89EB13, 0x2B94F908, 0x269FF701,
  0xBD464DE6, 0xB04D43EF, 0xA75051F4, 0xAA5B5FFD, 0x896A75C2, 0x84617BCB, 0x937C69D0, 0x9E7767D9,
  0xD51E3DAE, 0xD81533A7, 0xCF0821BC, 0xC2032FB5, 0xE132058A, 0xEC390B83, 0xFB241998, 0xF62F1791,
  0xD68D764D, 0xDB867844, 0xCC9B6A5F, 0xC1906456, 0xE2A14E69, 0xEFAA4060, 0xF8B7527B, 0xF5BC5C72,
  0xBED50605, 0xB3DE080C, 0xA4C31A17, 0xA9C8141E, 0x8AF93E21, 0x87F23028, 0x90EF2233, 0x9DE42C3A,
  0x063D96DD, 0x0B3698D4, 0x1C2B8ACF, 0x112084C6, 0x3211AEF9, 0x3F1AA0F0, 0x2807B2EB, 0x250CBCE2,
  0x6E65E695, 0x636EE89C, 0x7473FA87, 0x7978F48E, 0x5A49DEB1, 0x5742D0B8, 0x405FC2A3, 0x4D54CCAA,
  0xDAF741EC, 0xD7FC4FE5, 0xC0E15DFE, 0xCDEA53F7, 0xEEDB79C8, 0xE3D077C1, 0xF4CD65DA, 0xF9C66BD3,
  0xB2AF31A4, 0xBFA43FAD, 0xA8B92DB6, 0xA5B223BF, 0x86830980, 0x8B880789, 0x9C951592, 0x919E1B9B,
  0x0A47A17C, 0x074CAF75, 0x1051BD6E, 0x1D5AB367, 0x3E6B9958, 0x33609751, 0x247D854A, 0x29768B43,
  0x621FD134, 0x6F14DF3D, 0x7809CD26, 0x7502C32F, 0x5633E910, 0x5B38E719, 0x4C25F502, 0x412EFB0B,
  0x618C9AD7, 0x6C8794DE, 0x7B9A86C5, 0x769188CC, 0x55A0A2F3, 0x58ABACFA, 0x4FB6BEE1, 0x42BDB0E8,
  0x09D4EA9F, 0x04DFE496, 0x13C2F68D, 0x1EC9F884, 0x3DF8D2BB, 0x30F3DCB2, 0x27EECEA9, 0x2AE5C0A0,
  0xB13C7A47, 0xBC37744E, 0xAB2A6655, 0xA621685C, 0x85104263, 0x881B4C6A, 0x9F065E71, 0x920D5078,
  0xD9640A0F, 0xD46F0406, 0xC372161D, 0xCE791814, 0xED48322B, 0xE0433C22, 0xF75E2E39, 0xFA552030,
  0xB701EC9A, 0xBA0AE293, 0xAD17F088, 0xA01CFE81, 0x832DD4BE, 0x8E26DAB7, 0x993BC8AC, 0x9430C6A5,
  0xDF599CD2, 0xD25292DB, 0xC54F80C0, 0xC8448EC9, 0xEB75A4F6, 0xE67EAAFF, 0xF163B8E4, 0xFC68B6ED,
  0x67B10C0A, 0x6ABA0203, 0x7DA71018, 0x70AC1E11, 0x539D342E, 0x5E963A27, 0x498B283C, 0x44802635,
  0x0FE97C42, 0x02E2724B, 0x15FF6050, 0x18F46E59, 0x3BC54466, 0x36CE4A6F, 0x21D35874, 0x2CD8567D,
  0x0C7A37A1, 0x017139A8, 0x166C2BB3, 0x1B6725BA, 0x38560F85, 0x355D018C, 0x22401397, 0x2F4B1D9E,
  0x642247E9, 0x692949E0, 0x7E345BFB, 0x733F55F2, 0x500E7FCD, 0x5D0571C4, 0x4A1863DF, 0x47136DD6,
  0xDCCAD731, 0xD1C1D938, 0xC6DCCB23, 0xCBD7C52A, 0xE8E6EF15, 0xE5EDE11C, 0xF2F0F307, 0xFFFBFD0E,
  0xB492A779, 0xB999A970, 0xAE84BB6B, 0xA38FB562, 0x80BE9F5D, 0x8DB59154, 0x9AA8834F, 0x97A38D46]

/-- Table mtpz_aes_gb9, transcribed verbatim from mtpz.c. -/
def mtpz_aes_gb9 : List Nat := [
  0x00000000, 0x090D0B0E, 0x121A161C, 0x1B171D12, 0x24342C38, 0x2D392736, 0x362E3A24, 0x3F23312A,
  0x48685870, 0x4165537E, 0x5A724E6C, 0x537F4562, 0x6C5C7448, 0x65517F46, 0x7E466254, 0x774B695A,
  0x90D0B0E0, 0x99DDBBEE, 0x82CAA6FC, 0x8BC7ADF2, 0xB4E49CD8, 0xBDE997D6, 0xA6FE8AC4, 0xAFF381CA,
  0xD8B8E890, 0xD1B5E39E, 0xCAA2FE8C, 0xC3AFF582, 0xFC8CC4A8, 0xF581CFA6, 0xEE96D2B4, 0xE79BD9BA,
  0x3BBB7BDB, 0x32B670D5, 0x29A16DC7, 0x20AC66C9, 0x1F8F57E3, 0x16825CED, 0x0D9541FF, 0x04984AF1,
  0x73D323AB, 0x7ADE28A5, 0x61C935B7, 0x68C43EB9, 0x57E70F93, 0x5EEA049D, 0x45FD198F, 0x4CF01281,
  0xAB6BCB3B, 0xA266C035, 0xB971DD27, 0xB07CD629, 0x8F5FE703, 0x8652EC0D, 0x9D45F11F, 0x9448FA11,
  0xE303934B, 0xEA0E9845, 0xF1198557, 0xF8148E59, 0xC737BF73, 0xCE3AB47D, 0xD52DA96F, 0xDC20A261,
  0x766DF6AD, 0x7F60FDA3, 0x6477E0B1, 0x6D7AEBBF, 0x5259DA95, 0x5B54D19B, 0x4043CC89, 0x494EC787,
  0x3E05AEDD, 0x3708A5D3, 0x2C1FB8C1, 0x2512B3CF, 0x1A3182E5, 0x133C89EB, 0x082B94F9, 0x01269FF7,
  0xE6BD464D, 0xEFB04D43, 0xF4A75051, 0xFDAA5B5F, 0xC2896A75, 0xCB84617B, 0xD0937C69, 0xD99E7767,
  0xAED51E3D, 0xA7D81533, 0xBCCF0821, 0xB5C2032F, 0x8AE13205, 0x83EC390B, 0x98FB2419, 0x91F62F17,
  0x4DD68D76, 0x44DB8678, 0x5FCC9B6A, 0x56C19064, 0x69E2A14E, 0x60EFAA40, 0x7BF8B752, 0x72F5BC5C,
  0x05BED506, 0x0CB3DE08, 0x17A4C31A, 0x1EA9C814, 0x218AF93E, 0x2887F230, 0x3390EF22, 0x3A9DE42C,
  0xDD063D96, 0xD40B3698, 0xCF1C2B8A, 0xC6112084, 0xF93211AE, 0xF03F1AA0, 0xEB2807B2, 0xE2250CBC,
  0x956E65E6, 0x9C636EE8, 0x877473FA, 0x8E7978F4, 0xB15A49DE, 0xB85742D0, 0xA3405FC2, 0xAA4D54CC,
  0xECDAF741, 0xE5D7FC4F, 0xFEC0E15D, 0xF7CDEA53, 0xC8EEDB79, 0xC1E3D077, 0xDAF4CD65, 0xD3F9C66B,
  0xA4B2AF31, 0xADBFA43F, 0xB6A8B92D, 0xBFA5B223, 0x80868309, 0x898B8807, 0x929C9515, 0x9B919E1B,
  0x7C0A47A1, 0x75074CAF, 0x6E1051BD, 0x671D5AB3, 0x583E6B99, 0x51336097, 0x4A247D85, 0x4329768B,
  0x34621FD1, 0x3D6F14DF, 0x267809CD, 0x2F7502C3, 0x105633E9, 0x195B38E7, 0x024C25F5, 0x0B412EFB,
  0xD7618C9A, 0xDE6C8794, 0xC57B9A86, 0xCC769188, 0xF355A0A2, 0xFA58ABAC, 0xE14FB6BE, 0xE842BDB0,
  0x9F09D4EA, 0x9604DFE4, 0x8D13C2F6, 0x841EC9F8, 0xBB3DF8D2, 0xB230F3DC, 0xA927EECE, 0xA02AE5C0,
  0x47B13C7A, 0x4EBC3774, 0x55AB2A66, 0x5CA62168, 0x63851042, 0x6A881B4C, 0x719F065E, 0x78920D50,
  0x0FD9640A, 0x06D46F04, 0x1DC37216, 0x14CE7918, 0x2BED4832, 0x22E0433C, 0x39F75E2E, 0x30FA5520,
  0x9AB701EC, 0x93BA0AE2, 0x88AD17F0, 0x81A01CFE, 0xBE832DD4, 0xB78E26DA, 0xAC993BC8, 0xA59430C6,
  0xD2DF599C, 0xDBD25292, 0xC0C54F80, 0xC9C8448E, 0xF6EB75A4, 0xFFE67EAA, 0xE4F163B8, 0xEDFC68B6,
  0x0A67B10C, 0x036ABA02, 0x187DA710, 0x1170AC1E, 0x2E539D34, 0x275E963A, 0x3C498B28, 0x35448026,
  0x420FE97C, 0x4B02E272, 0x5015FF60, 0x5918F46E, 0x663BC544, 0x6F36CE4A, 0x7421D358, 0x7D2CD856,
  0xA10C7A37, 0xA8017139, 0xB3166C2B, 0xBA1B6725, 0x8538560F, 0x8C355D01, 0x97224013, 0x9E2F4B1D,
  0xE9642247, 0xE0692949, 0xFB7E345B, 0xF2733F55, 0xCD500E7F, 0xC45D0571, 0xDF4A1863, 0xD647136D,
  0x31DCCAD7, 0x38D1C1D9, 0x23C6DCCB, 0x2ACBD7C5, 0x15E8E6EF, 0x1CE5EDE1, 0x07F2F0F3, 0x0EFFFBFD,
  0x79B492A7, 0x70B999A9, 0x6BAE84BB, 0x62A38FB5, 0x5D80BE9F, 0x548DB591, 0x4F9AA883, 0x4697A38D]


/-- S-box lookup, `mtpz_aes_sbox[i]`. -/
def sB (i : Nat) : Nat := mtpz_aes_sbox.getD i 0

/-- Inverse S-box lookup, `mtpz_aes_invsbox[i]`. -/
def siB (i : Nat) : Nat := mtpz_aes_invsbox.getD i 0

/-- Round-constant lookup, `mtpz_aes_rcon[i]`. -/
def rconB (i : Nat) : Nat := mtpz_aes_rcon.getD i 0

/-- 32-bit table lookup, returning the four big-endian bytes of the entry. -/
def tw (t : List Nat) (i : Nat) : W := wOfU32 (t.getD i 0)

/-- The InvMixColumns word transform of `mtpz_encryption_inv_mix_columns`:
the stored word is `SWAP(gb9[m3] ^ gb13[m2] ^ gb11[m1] ^ gb14[m0])` where
`m0..m3` are the four stored bytes of the input word. -/
def imcW (u : W) : W :=
  wxor (wxor (wxor (tw mtpz_aes_gb9 u.b3) (tw mtpz_aes_gb13 u.b2))
    (tw mtpz_aes_gb11 u.b1)) (tw mtpz_aes_gb14 u.b0)


/-! ## AES key schedule and block cipher (mtpz_encryption_*) -/

/-- One step of the key-expansion loop of `mtpz_encryption_expand_key_inner`:
given the words produced so far, append the next one.  With `i` the byte
index of the C loop (here `4 * w.length`), `temp` is the previous word,
rotated/substituted/Rcon-ed on a `key_len` boundary, with an extra S-box pass
at `i % key_len == 16` for keys longer than 24 bytes; the new word XORs
`temp` into the word `key_len` bytes back. -/
def schedStep (key_len : Nat) (w : List W) : List W :=
  let t := w.getD (w.length - 1) w0
  let t' :=
    if (4 * w.length) % key_len = 0 then
      ⟨(sB t.b1 ^^^ rconB ((4 * w.length) / key_len - 1)) &&& 255, sB t.b2, sB t.b3, sB t.b0⟩
    else if 24 < key_len ∧ (4 * w.length) % key_len = 16 then
      ⟨sB t.b0, sB t.b1, sB t.b2, sB t.b3⟩
    else t
  w ++ [wxor (w.getD (w.length - key_len / 4) w0) t']

/-- The raw Rijndael key schedule of `mtpz_encryption_expand_key_inner` as a
word list of length `innerKsLen key_len / 4`: the first `key_len/4` words are
the key bytes (big-endian words), the rest come from `schedStep`. -/
def schedWords (key : List Nat) (key_len : Nat) : List W :=
  (List.range ((if key_len = 16 then 176 else if key_len = 24 then 208 else if key_len = 32 then 240 else 0) / 4 - key_len / 4)).foldl
    (fun w _ => schedStep key_len w)
    ((List.range (key_len / 4)).map fun i =>
      ⟨key.getD (4 * i) 0, key.getD (4 * i + 1) 0, key.getD (4 * i + 2) 0, key.getD (4 * i + 3) 0⟩)

/-- Word `i` of the raw key schedule. -/
def schedW (key : List Nat) (key_len : Nat) (i : Nat) : W := (schedWords key key_len).getD i w0

/-- `ks` of `mtpz_encryption_expand_key_inner`: 176/208/240 bytes for
16/24/32-byte keys, 0 otherwise (the C code returns a NULL schedule then). -/
def innerKsLen (key_len : Nat) : Nat :=
  if key_len = 16 then 176 else if key_len = 24 then 208 else if key_len = 32 then 240 else 0

/-- The `seek` offset chosen by the `switch (count)` of `mtpz_encryption_expand_key`. -/
def seekOf (count : Nat) : Nat := if count = 10 then 0xB4 else if count = 12 then 0xD4 else 0xF4

/-- The word at byte offset `o` (a multiple of 4) of the 484-byte buffer built
by `mtpz_encryption_expand_key`: byte 0 holds `count % 0xFF`; two copies of the
inner schedule start at byte 4; `mtpz_encryption_inv_mix_columns` then rewrites
in place the 16-byte blocks at offsets `seek+16*r`, `r = 1 .. count-1` (each
block is read once and overwritten once, so the transform sees pre-pass bytes). -/
def mtpz_encryption_expand_key (key : List Nat) (key_len count : Nat) (o : Nat) : W :=
  let il := innerKsLen key_len
  let base : W :=
    if o < 4 then ⟨count % 255, 0, 0, 0⟩
    else if o < 4 + il then schedW key key_len ((o - 4) / 4)
    else if o < 4 + 2 * il then schedW key key_len ((o - 4 - il) / 4)
    else w0
  if seekOf count + 16 ≤ o ∧ o < seekOf count + 16 * count then imcW base else base

/-- The four schedule words at byte offsets `o, o+4, o+8, o+12` (the C reads
`MTPZ_SWAP(u_expanded[(keyOffset + 4*j)/4])`). -/
def readBlk (E : Nat → W) (o : Nat) : Blk := ⟨E o, E (o + 4), E (o + 8), E (o + 12)⟩

/-- One forward table round: the `v18..v21` assignments of
`mtpz_encryption_encrypt_custom` (lines using `mtpz_aes_ft1..ft4`). -/
def ftMixBlk (s : Blk) : Blk :=
  ⟨wxor (wxor (wxor (tw mtpz_aes_ft1 s.x3.b3) (tw mtpz_aes_ft2 s.x2.b2)) (tw mtpz_aes_ft3 s.x0.b0)) (tw mtpz_aes_ft4 s.x1.b1),
   wxor (wxor (wxor (tw mtpz_aes_ft1 s.x0.b3) (tw mtpz_aes_ft2 s.x3.b2)) (tw mtpz_aes_ft3 s.x1.b0)) (tw mtpz_aes_ft4 s.x2.b1),
   wxor (wxor (wxor (tw mtpz_aes_ft1 s.x1.b3) (tw mtpz_aes_ft2 s.x0.b2)) (tw mtpz_aes_ft3 s.x2.b0)) (tw mtpz_aes_ft4 s.x3.b1),
   wxor (wxor (wxor (tw mtpz_aes_ft1 s.x2.b3) (tw mtpz_aes_ft2 s.x1.b2)) (tw mtpz_aes_ft3 s.x3.b0)) (tw mtpz_aes_ft4 s.x0.b1)⟩

/-- One inverse table round: the `v18..v21` assignments of
`mtpz_encryption_decrypt_custom` (lines using `mtpz_aes_rt1..rt4`). -/
def rtMixBlk (s : Blk) : Blk :=
  ⟨wxor (wxor (wxor (tw mtpz_aes_rt1 s.x1.b3) (tw mtpz_aes_rt2 s.x2.b2)) (tw mtpz_aes_rt3 s.x0.b0)) (tw mtpz_aes_rt4 s.x3.b1),
   wxor (wxor (wxor (tw mtpz_aes_rt1 s.x2.b3) (tw mtpz_aes_rt2 s.x3.b2)) (tw mtpz_aes_rt3 s.x1.b0)) (tw mtpz_aes_rt4 s.x0.b1),
   wxor (wxor (wxor (tw mtpz_aes_rt1 s.x3.b3) (tw mtpz_aes_rt2 s.x0.b2)) (tw mtpz_aes_rt3 s.x2.b0)) (tw mtpz_aes_rt4 s.x1.b1),
   wxor (wxor (wxor (tw mtpz_aes_rt1 s.x0.b3) (tw mtpz_aes_rt2 s.x1.b2)) (tw mtpz_aes_rt3 s.x3.b0)) (tw mtpz_aes_rt4 s.x2.b1)⟩

/-- Byte 1 (little-endian) of an `mtpz_aes_ft3` entry, the
`FT3_Bytes[1 + 4*x]` lookup of the final encryption round; on a little-endian
host this is bits 8..15 of the table word. -/
def ft3b1 (i : Nat) : Nat := (mtpz_aes_ft3.getD i 0) >>> 8 &&& 255

/-- The final (S-box only) round of `mtpz_encryption_encrypt_custom`. -/
def finSubBlk (s : Blk) : Blk :=
  ⟨⟨ft3b1 s.x0.b0, ft3b1 s.x1.b1, ft3b1 s.x2.b2, ft3b1 s.x3.b3⟩,
   ⟨ft3b1 s.x1.b0, ft3b1 s.x2.b1, ft3b1 s.x3.b2, ft3b1 s.x0.b3⟩,
   ⟨ft3b1 s.x2.b0, ft3b1 s.x3.b1, ft3b1 s.x0.b2, ft3b1 s.x1.b3⟩,
   ⟨ft3b1 s.x3.b0, ft3b1 s.x0.b1, ft3b1 s.x1.b2, ft3b1 s.x2.b3⟩⟩

/-- The final (inverse S-box only) round of `mtpz_encryption_decrypt_custom`. -/
def invFinSubBlk (s : Blk) : Blk :=
  ⟨⟨siB s.x0.b0, siB s.x3.b1, siB s.x2.b2, siB s.x1.b3⟩,
   ⟨siB s.x1.b0, siB s.x0.b1, siB s.x3.b2, siB s.x2.b3⟩,
   ⟨siB s.x2.b0, siB s.x1.b1, siB s.x0.b2, siB s.x3.b3⟩,
   ⟨siB s.x3.b0, siB s.x2.b1, siB s.x1.b2, siB s.x0.b3⟩⟩

/-- The encryption do-while loop (it always runs 8 times: `rounds` counts
1,2,..,8 and exits at 9; `ko` advances 0x14,0x24,..,0x84). -/
def encLoop (E : Nat → W) : Nat → Nat → Blk → Blk
  | 0, _, m => m
  | n + 1, ko, m => encLoop E n (ko + 16) (ftMixBlk (bxor m (readBlk E ko)))

/-- The decryption do-while loop (8 iterations, `ko` descending
0x144,0x134,..,0xD4). -/
def decLoop (E : Nat → W) : Nat → Nat → Blk → Blk
  | 0, _, m => m
  | n + 1, ko, m => decLoop E n (ko - 16) (rtMixBlk (bxor m (readBlk E ko)))

/-- `mtpz_encryption_encrypt_custom` as a function of the block actually fed
to the rounds (`seed`, or `data` itself when the C `seed` is NULL): initial
key addition at offset 0x04, eight looped rounds, one more table round keyed
at 0x94, final S-box round keyed at 0xA4. -/
def encCore (E : Nat → W) (s : Blk) : Blk :=
  let m0 := ftMixBlk (bxor s (readBlk E 0x04))
  let m8 := encLoop E 8 0x14 m0
  bxor (finSubBlk (bxor m8 (readBlk E 0x94))) (readBlk E 0xA4)

/-- `mtpz_encryption_decrypt_custom` likewise: initial key addition at offset
0x154 (= 0xB4 + 0xA0), eight looped rounds down to 0xD4, one more at 0xC4,
final inverse S-box round keyed at 0xB4. -/
def decCore (E : Nat → W) (s : Blk) : Blk :=
  let m0 := rtMixBlk (bxor s (readBlk E 0x154))
  let m8 := decLoop E 8 0x144 m0
  bxor (invFinSubBlk (bxor m8 (readBlk E 0xC4))) (readBlk E 0xB4)

/-- `mtpz_encryption_encrypt_custom(data, seed, expanded)`: the block written
to `data`. A NULL C `seed` makes the code read the block itself. -/
def mtpz_encryption_encrypt_custom (data : Blk) (seed : Option Blk) (E : Nat → W) : Blk :=
  encCore E (seed.getD data)

/-- `mtpz_encryption_decrypt_custom(data, seed, expanded)`: the block written
to `data`. -/
def mtpz_encryption_decrypt_custom (data : Blk) (seed : Option Blk) (E : Nat → W) : Blk :=
  decCore E (seed.getD data)

/-- The round-count selection `(key_len == 16) ? 10 : (key_len == 24) ? 12 : 32`
appearing verbatim in `mtpz_encryption_cipher_advanced` and in
`mtpz_encryption_encrypt_mac`. -/
def mtpzKeyRounds (key_len : Nat) : Nat :=
  if key_len = 16 then 10 else if key_len = 24 then 12 else 32

/-- First sixteen bytes of a list as a block (big-endian per word, matching
`MTPZ_SWAP` on 32-bit loads). -/
def toBlk (l : List Nat) : Blk :=
  ⟨⟨l.getD 0 0, l.getD 1 0, l.getD 2 0, l.getD 3 0⟩,
   ⟨l.getD 4 0, l.getD 5 0, l.getD 6 0, l.getD 7 0⟩,
   ⟨l.getD 8 0, l.getD 9 0, l.getD 10 0, l.getD 11 0⟩,
   ⟨l.getD 12 0, l.getD 13 0, l.getD 14 0, l.getD 15 0⟩⟩

/-- The sixteen bytes of a block. -/
def blkBytes (b : Blk) : List Nat :=
  [b.x0.b0, b.x0.b1, b.x0.b2, b.x0.b3, b.x1.b0, b.x1.b1, b.x1.b2, b.x1.b3,
   b.x2.b0, b.x2.b1, b.x2.b2, b.x2.b3, b.x3.b0, b.x3.b1, b.x3.b2, b.x3.b3]

/-- Recursion worker for `toBlocks` (a trailing short chunk is zero-padded,
matching the `memset(out, 0, 16)` path of the C code). -/
def toBlocksF : Nat → List Nat → List Blk
  | 0, _ => []
  | _ + 1, [] => []
  | fuel + 1, a :: r => toBlk ((a :: r).take 16) :: toBlocksF fuel ((a :: r).drop 16)

/-- Split a byte list into its 16-byte blocks (the fuel argument only bounds
the recursion; `l.length` steps always suffice since each block consumes at
least one byte). -/
def toBlocks (l : List Nat) : List Blk := toBlocksF l.length l

/-- Encryption direction of the chained loop of
`mtpz_encryption_cipher_advanced`: each plaintext block is XORed with the
register `dtf` (the double `MTPZ_SWAP` makes this a plain bytewise XOR),
encrypted, and the ciphertext becomes the new register. -/
def cbcEnc (E : Nat → W) (reg : Blk) : List Blk → List Blk
  | [] => []
  | p :: r => let c := encCore E (bxor p reg); c :: cbcEnc E c r

/-- Decryption direction: each block is decrypted from a copy of the
ciphertext, XORed with the register, and the original ciphertext becomes the
new register. -/
def cbcDec (E : Nat → W) (reg : Blk) : List Blk → List Blk
  | [] => []
  | c :: r => bxor (decCore E c) reg :: cbcDec E c r

/-- `mtpz_encryption_cipher_advanced(key, key_len, data, data_len, encrypt)`:
the bytes left in `data`.  The register starts all-zero.  (For `data_len` not
a multiple of 16 the C code writes 16 bytes into a shorter tail, which is out
of bounds there; every use in the protocol and in the claims below has a
multiple of 16.) -/
def mtpz_encryption_cipher_advanced (key : List Nat) (key_len : Nat) (data : List Nat) (encrypt : Bool) : List Nat :=
  let E := mtpz_encryption_expand_key key key_len (mtpzKeyRounds key_len)
  let bs := toBlocks data
  ((if encrypt then cbcEnc E ⟨w0, w0, w0, w0⟩ bs else cbcDec E ⟨w0, w0, w0, w0⟩ bs).map blkBytes).flatten

/-- `mtpz_encryption_encrypt_mac(hash, hash_length, seed, seed_len, out)`:
the 16 bytes written to `out`, or `out` itself when the guard
`hash == NULL || hash_length != 16` returns early.  `enc_hash` is the 17-byte
zeroed buffer whose first 16 bytes the chained cipher fills; `loop1`/`loop2`
are the doubled subkeys with the conditional 0x87 twist. -/
def mtpz_encryption_encrypt_mac (hash : Option (List Nat)) (hash_length : Nat)
    (seed : List Nat) (seed_len : Nat) (out : List Nat) : List Nat :=
  match hash with
  | none => out
  | some h =>
    if hash_length ≠ 16 then out else
    let enc_hash := mtpz_encryption_cipher_advanced h hash_length (List.replicate 16 0) true ++ [0]
    let loop1 := (List.range 16).map fun i =>
      (2 * enc_hash.getD i 0 ||| enc_hash.getD (i + 1) 0 >>> 7) &&& 255
    let loop1 := if 128 ≤ enc_hash.getD 0 0 then loop1.set 15 (loop1.getD 15 0 ^^^ 0x87) else loop1
    let loop2 := (List.range 16).map fun i =>
      (2 * loop1.getD i 0 ||| loop1.getD (i + 1) 0 >>> 7) &&& 255
    let loop2 := if 128 ≤ loop1.getD 0 0 then loop2.set 15 (loop2.getD 15 0 ^^^ 0x87) else loop2
    let E := mtpz_encryption_expand_key h hash_length (mtpzKeyRounds hash_length)
    let actual_seed : List Nat :=
      if seed_len = 16 then
        (List.range 16).map fun i => seed.getD i 0 ^^^ loop1.getD i 0
      else
        let s1 := (List.range 16).map fun i => if i < seed_len then seed.getD i 0 else 0
        let s2 := s1.set seed_len 128
        (List.range 16).map fun i => s2.getD i 0 ^^^ loop2.getD i 0
    blkBytes (encCore E (toBlk actual_seed))


/-! ## SHA-1-style hash engine (mtpz_hash_*) -/

/-- The 92-byte hash state: the 64-byte block buffer, the five chaining words
`state_box[0..4]`, the overflow word `state_box[5]` (`MTPZ_HASHSTATE_84`) and
the low length word `state_box[6]` (`MTPZ_HASHSTATE_88`).  The two counters
are C `int`s; they are kept as their 32-bit bit patterns (`Nat < 2^32`) and
compared through `toInt32` where the C compares signed values. -/
structure HState where
  buf : List Nat
  h0 : Nat
  h1 : Nat
  h2 : Nat
  h3 : Nat
  h4 : Nat
  len84 : Nat
  len88 : Nat
deriving DecidableEq, Repr

/-- `mtpz_hash_init_state`: 92 zeroed bytes. -/
def mtpz_hash_init_state : HState := ⟨List.replicate 64 0, 0, 0, 0, 0, 0, 0, 0⟩

/-- `mtpz_hash_reset_state`: restore the FIPS 180-2 initial vector and clear
both counters; the block buffer is left as is. -/
def mtpz_hash_reset_state (s : HState) : HState :=
  { s with h0 := 0x67452301, h1 := 0xefcdab89, h2 := 0x98badcfe,
           h3 := 0x10325476, h4 := 0xc3d2e1f0, len84 := 0, len88 := 0 }

/-- Signed value of a 32-bit pattern. -/
def toInt32 (n : Nat) : Int := if n < 0x80000000 then (n : Int) else (n : Int) - 0x100000000

/-- `mtpz_hash_rotate_left` (callers use 0 < n < 32 only). -/
def rotl32 (x n : Nat) : Nat := ((x <<< n) &&& 0xFFFFFFFF) ||| x >>> (32 - n)

/-- `mtpz_hash_f`: Ch / Parity / Maj / Parity, 0 otherwise. -/
def mtpz_hash_f (s x y z : Nat) : Nat :=
  if s = 0 then (x &&& y) ^^^ ((x ^^^ 0xFFFFFFFF) &&& z)
  else if s = 1 then x ^^^ y ^^^ z
  else if s = 2 then (x &&& y) ^^^ (x &&& z) ^^^ (y &&& z)
  else if s = 3 then x ^^^ y ^^^ z
  else 0

/-- The per-stage constants `K` of `mtpz_hash_compute_hash`. -/
def hashK (s : Nat) : Nat := [0x5a827999, 0x6ed9eba1, 0x8f1bbcdc, 0xca62c1d6].getD s 0

/-- One extension step of the 80-word message schedule. -/
def msgSchedStep (w : List Nat) : List Nat :=
  w ++ [rotl32 (w.getD (w.length - 3) 0 ^^^ w.getD (w.length - 8) 0 ^^^
                w.getD (w.length - 14) 0 ^^^ w.getD (w.length - 16) 0) 1]

/-- The 80-word message schedule `W` of `mtpz_hash_compute_hash`; the first 16
words are the big-endian 32-bit loads (`MTPZ_SWAP(M[i])`). -/
def msgSched (msg : List Nat) : List Nat :=
  (List.range 64).foldl (fun w _ => msgSchedStep w) ((List.range 16).map fun i => be32At msg (4 * i))

/-- `mtpz_hash_compute_hash(state, msg, len)`: a no-op unless `len == 64`,
otherwise the standard SHA-1 compression of one 64-byte block, all additions
masked to 32 bits as in the C. -/
def mtpz_hash_compute_hash (s : HState) (msg : List Nat) (len : Nat) : HState :=
  if len ≠ 64 then s else
  let w := msgSched msg
  let r := (List.range 80).foldl
    (fun (p : Nat × Nat × Nat × Nat × Nat) i =>
      let st := i / 20
      let t := (rotl32 p.1 5 + mtpz_hash_f st p.2.1 p.2.2.1 p.2.2.2.1 + p.2.2.2.2 +
                hashK st + w.getD i 0) &&& 0xFFFFFFFF
      (t, p.1, rotl32 p.2.1 30, p.2.2.1, p.2.2.2.1))
    (s.h0, s.h1, s.h2, s.h3, s.h4)
  { s with
    h0 := (s.h0 + r.1) &&& 0xFFFFFFFF, h1 := (s.h1 + r.2.1) &&& 0xFFFFFFFF,
    h2 := (s.h2 + r.2.2.1) &&& 0xFFFFFFFF, h3 := (s.h3 + r.2.2.2.1) &&& 0xFFFFFFFF,
    h4 := (s.h4 + r.2.2.2.2) &&& 0xFFFFFFFF }

/-- Write the bytes of `src` into `buf` starting at `off` (`List.set`'s
out-of-range write is a no-op; the C code's corresponding writes are in
bounds for every input reached by the claims below). -/
def setBytes (buf : List Nat) (off : Nat) : List Nat → List Nat
  | [] => buf
  | b :: r => setBytes (buf.set off b) (off + 1) r

/-- The `while (i > 63)` loop of `mtpz_hash_transform_hash`: compress whole
64-byte pieces of `msg` starting at `j`; returns the state and final `i`, `j`.
The fuel argument only bounds the recursion; callers pass `i`, which always
suffices since `i` drops by 64 per iteration. -/
def hashBlocksLoop (msg : List Nat) : Nat → Nat → Nat → HState → HState × Nat × Nat
  | 0, i, j, s => (s, i, j)
  | fuel + 1, i, j, s =>
    if 63 < i then
      hashBlocksLoop msg fuel (i - 64) (j + 64) (mtpz_hash_compute_hash s (bytesAt msg j 64) 64)
    else (s, i, j)

/-- `mtpz_hash_transform_hash(state, msg, len)`.  `x` is the old buffer fill,
`v5` the new low counter (C `int` addition, wrapping): the overflow word is
bumped when `len > v5` as a *signed* comparison.  When the buffer was
non-empty and fills up, it is completed from `msg` and compressed; then whole
blocks are compressed; the remainder is copied into the buffer at offset `x`
(the C reuses the pre-call `x` here). -/
def mtpz_hash_transform_hash (s : HState) (msg : List Nat) (len : Nat) : HState :=
  let x := s.len88 &&& 0x3F
  let v5 := (len + s.len88) &&& 0xFFFFFFFF
  let n84 := if toInt32 v5 < toInt32 len then (s.len84 + 1) &&& 0xFFFFFFFF else s.len84
  let s1 := { s with len88 := v5, len84 := n84 }
  let r :=
    if x ≠ 0 ∧ 0x3F < len + x then
      let sA := { s1 with buf := setBytes s1.buf x (bytesAt msg 0 (64 - x)) }
      let sB := mtpz_hash_compute_hash sA sA.buf 64
      hashBlocksLoop msg (len + x - 64) (len + x - 64) (64 - x) sB
    else hashBlocksLoop msg len len 0 s1
  if r.2.1 ≠ 0 then { r.1 with buf := setBytes r.1.buf x (bytesAt msg r.2.2 r.2.1) } else r.1

/-- Arithmetic (sign-extending) right shift by 29 of a 32-bit `int` pattern,
the `state_box[MTPZ_HASHSTATE_88] >> 29` of the finaliser. -/
def asr29 (n : Nat) : Nat := if n < 0x80000000 then n >>> 29 else n >>> 29 ||| 0xFFFFFFF8

/-- `mtpz_hash_finalize_hash(state, out)`: build the 72-byte padding block
`v5` (leading 0x80, big-endian 64-bit bit count in its last 8 bytes at
`v2-8`), absorb it, emit the five chaining words big-endian, then zero the
buffer and reset.  Returns the new state and the 20 output bytes. -/
def mtpz_hash_finalize_hash (s : HState) : HState × List Nat :=
  let v2 := 64 - (s.len88 &&& 0x3F)
  let v2 := if v2 ≤ 8 then v2 + 64 else v2
  let v6 := (8 * s.len84) &&& 0xFFFFFFFF ||| asr29 s.len88
  let v7 := (8 * s.len88) &&& 0xFFFFFFFF
  let v5 := setBytes (setBytes ((List.replicate 72 0).set 0 0x80) (v2 - 8) (be32 v6)) (v2 - 4) (be32 v7)
  let s2 := mtpz_hash_transform_hash s (v5.take v2) v2
  (mtpz_hash_reset_state { s2 with buf := List.replicate 64 0 },
   be32 s2.h0 ++ be32 s2.h1 ++ be32 s2.h2 ++ be32 s2.h3 ++ be32 s2.h4)

/-- `mtpz_hash_custom6A5DC(state, msg, len, a4)`: for `i = 0 .. a4/20`
(that is, `a4/20 + 1` iterations) reset the state, absorb the `len` message
bytes followed by the big-endian counter `i` (the C stores `MTPZ_SWAP(i)`
into the last four bytes of the scratch buffer), finalise into the next 20
output bytes.  Returns the final state and the output buffer. -/
def mtpz_hash_custom6A5DC (st : HState) (msg : List Nat) (len a4 : Nat) : HState × List Nat :=
  (List.range (a4 / 20 + 1)).foldl
    (fun (p : HState × List Nat) i =>
      let v5 := bytesAt msg 0 len ++ be32 i
      let st1 := mtpz_hash_transform_hash (mtpz_hash_reset_state p.1) v5 (len + 4)
      let q := mtpz_hash_finalize_hash st1
      (q.1, p.2 ++ q.2))
    (st, [])

/-- One-shot hash through the engine: fresh state, reset, absorb, finalise. -/
def sha1Bytes (msg : List Nat) : List Nat :=
  (mtpz_hash_finalize_hash
    (mtpz_hash_transform_hash (mtpz_hash_reset_state mtpz_hash_init_state) msg msg.length)).2


/-! ## Secrets loader (hex_to_bytes, mtpz_loaddata) -/

/-- Value of a hexadecimal digit character, if any. -/
def hexDigitVal (c : Char) : Option Nat :=
  if '0' ≤ c ∧ c ≤ '9' then some (c.toNat - 48)
  else if 'a' ≤ c ∧ c ≤ 'f' then some (c.toNat - 87)
  else if 'A' ≤ c ∧ c ≤ 'F' then some (c.toNat - 55)
  else none

/-- C `isspace` characters skipped by `sscanf`. -/
def isSpaceC (c : Char) : Bool :=
  c = ' ' ∨ c = '\t' ∨ c = '\n' ∨ c = '\x0b' ∨ c = '\x0c' ∨ c = '\r'

/-- `sscanf(p, "%2x", &u)`: skip leading whitespace, then read one or two hex
digits; `none` models a scanf match failure (return value 0). -/
def scan2x (cs : List Char) : Option Nat :=
  match cs.dropWhile isSpaceC with
  | [] => none
  | c1 :: rest =>
    match hexDigitVal c1 with
    | none => none
    | some d1 =>
      match rest with
      | [] => some d1
      | c2 :: _ =>
        match hexDigitVal c2 with
        | none => some d1
        | some d2 => some (16 * d1 + d2)

/-- The scanning loop of `hex_to_bytes`: decode at positions `i = 0, 2, 4, ...`
while `i < len` and the scan succeeds; a failed scan simply stops the loop
(bytes past the decoded prefix stay uninitialised in C and are dropped here).
The fuel argument only bounds the recursion; `cs.length` steps suffice. -/
def hexDecodeFrom (cs : List Char) : Nat → Nat → List Nat
  | 0, _ => []
  | fuel + 1, i =>
    if i < cs.length then
      match scan2x (cs.drop i) with
      | some u => u :: hexDecodeFrom cs fuel (i + 2)
      | none => []
    else []

/-- `hex_to_bytes(hex, len)`: NULL (`none`) exactly on odd length, otherwise
the decoded prefix (decoding stops at the first non-hex position but the
buffer is still returned). -/
def hex_to_bytes (cs : List Char) : Option (List Nat) :=
  if cs.length % 2 = 1 then none else some (hexDecodeFrom cs cs.length 0)

/-- `mtpz_loaddata` on the (already `fgets_strip`-ped) lines of the secrets
file: five lines are read in order; the second (encryption key) and fifth
(certificates) must decode through `hex_to_bytes`; any missing line or NULL
decode gives -1, otherwise 0.  (The `$HOME` lookup, `fopen` and the fgets
buffer caps of 7/34/259/259/1259 characters are outside this model; the
theorems below restrict line lengths to those caps.) -/
def mtpz_loaddata (lines : List (List Char)) : Int :=
  match lines.get? 0 with
  | none => -1
  | some _ =>
    match lines.get? 1 with
    | none => -1
    | some l1 =>
      match hex_to_bytes l1 with
      | none => -1
      | some _ =>
        match lines.get? 2 with
        | none => -1
        | some _ =>
          match lines.get? 3 with
          | none => -1
          | some _ =>
            match lines.get? 4 with
            | none => -1
            | some l4 =>
              match hex_to_bytes l4 with
              | none => -1
              | some _ => 0

/-! ## Application-certificate message (ptp_mtpz_makeapplicationcertificatemessage) -/

/-- The 785-byte message buffer after the marker bytes, the 0x275 certificate
bytes, the `00 10` length prefix and the 16 random bytes have been written
(the writes through `target` in the C source, before the signature work). -/
def acmPrefix (certs random : List Nat) : List Nat :=
  setBytes (setBytes (setBytes (setBytes (List.replicate 785 0)
    0 [0x02, 0x01, 0x01, 0x00, 0x00, 0x02, 0x75])
    7 (bytesAt certs 0 0x275))
    636 [0x00, 0x10])
    638 (bytesAt random 0 16)

/-- The 128-byte EMSA-PSS-like block `odata` signed by the RSA engine:
SHA-1 of message bytes 2..653, rehashed through the 28-byte `v16` buffer,
masked with `mtpz_hash_custom6A5DC(hash, 20, 107)`, with the 0x01 separator
(also XOR-masked, since the C masks indices 0..106 after setting it), the
embedded hash at 107..126, the cleared top bit and the trailing 0xBC. -/
def acmOdata (certs random : List Nat) : List Nat :=
  let st1 := mtpz_hash_transform_hash (mtpz_hash_reset_state mtpz_hash_init_state)
    (bytesAt (acmPrefix certs random) 2 652) 652
  let q1 := mtpz_hash_finalize_hash st1
  let v16 := List.replicate 8 0 ++ q1.2
  let st2 := mtpz_hash_transform_hash (mtpz_hash_reset_state q1.1) v16 28
  let q2 := mtpz_hash_finalize_hash st2
  let hash := q2.2
  let v17 := (mtpz_hash_custom6A5DC q2.1 hash 20 107).2
  let od1 := setBytes (List.replicate 128 0) 107 hash
  let od2 := od1.set 106 1
  let od3 := (List.range 128).map fun i =>
    if i < 107 then od2.getD i 0 ^^^ v17.getD i 0 else od2.getD i 0
  ((od3.set 0 (od3.getD 0 0 &&& 127)).set 127 188)

/-- `ptp_mtpz_makeapplicationcertificatemessage`, parameterised by the
certificate bytes of the secrets bundle, the 16 generated random bytes (the
C draws them from `rand()`), and the raw RSA private-key operation `rsaSign`.
Modelled from the spec: `mtpz_rsa_sign` delegates to libgcrypt
(`gcry_pk_decrypt`, raw flag), which is outside this repository; per §4.F it
is the raw private-key exponentiation producing a 128-byte big-endian block,
abstracted here as the parameter `rsaSign`.  After the random bytes the code
writes the three marker bytes `01 00 80` and then the 128 signature bytes. -/
def ptp_mtpz_makeapplicationcertificatemessage (certs random : List Nat)
    (rsaSign : List Nat → List Nat) : List Nat :=
  setBytes (setBytes (acmPrefix certs random) 654 [0x01, 0x00, 0x80])
    657 (bytesAt (rsaSign (acmOdata certs random)) 0 128)

/-- `ptp_mtpz_makeconfirmationmessage(hash, out_len)`: `02 03 00 10` followed
by the 16-byte MAC of the seed `00..00 01` under `hash`. -/
def ptp_mtpz_makeconfirmationmessage (hash : List Nat) : List Nat :=
  [0x02, 0x03, 0x00, 0x10] ++
    mtpz_encryption_encrypt_mac (some hash) 16 ((List.replicate 16 0).set 15 1) 16
      (List.replicate 16 0)

/-! ## Handshake response validation (ptp_mtpz_validatehandshakeresponse) -/

/-- The two mask-removal passes of the response's RSA-decrypted hash-key
block: `msg_dec[1..20] ^= custom6A5DC(msg_dec+21, 107, 20)` then
`msg_dec[21..127] ^= custom6A5DC(msg_dec+1, 20, 107)`. -/
def mtpzUnmaskKey (msg_dec : List Nat) : List Nat :=
  let q10 := mtpz_hash_custom6A5DC mtpz_hash_init_state (bytesAt msg_dec 21 107) 107 20
  let md1 := (List.range 128).map fun i =>
    if 1 ≤ i ∧ i < 21 then msg_dec.getD i 0 ^^^ q10.2.getD (i - 1) 0 else msg_dec.getD i 0
  let q11 := mtpz_hash_custom6A5DC q10.1 (bytesAt md1 1 20) 20 107
  (List.range 128).map fun i =>
    if 21 ≤ i ∧ i < 128 then md1.getD i 0 ^^^ q11.2.getD (i - 21) 0 else md1.getD i 0

/-- The 16-byte hash key recovered from a response: bytes 112..127 of the
unmasked RSA-decrypted block.  `rsaD` abstracts `mtpz_rsa_decrypt` (libgcrypt,
outside this repository): it returns the written-byte count and the 128-byte
plaintext block. -/
def mtpzHashKeyOf (rsaD : List Nat → Nat × List Nat) (resp : List Nat) : List Nat :=
  bytesAt (mtpzUnmaskKey (bytesAt (rsaD (bytesAt resp 4 128)).2 0 128)) 112 16

/-- The decrypted 832-byte body of a response: chained AES decryption of
response bytes 136..967 under the recovered hash key. -/
def mtpzDecryptedBody (rsaD : List Nat → Nat × List Nat) (resp : List Nat) : List Nat :=
  mtpz_encryption_cipher_advanced (mtpzHashKeyOf rsaD resp) 16 (bytesAt resp 136 832) false

/-- `ptp_mtpz_validatehandshakeresponse`, parameterised by the abstract RSA
private-key operation (see `mtpzHashKeyOf`).  `none` models every `-1`/error
return; `some machash` is the hash returned through `calculatedHash`.  The
byte positions follow the C reader exactly: preamble `02 02 ?? 80`, 128-byte
RSA block at 4, marker `03 40` at 134/135, body at 136; inside the decrypted
body: one skipped byte, 4-byte big-endian certificate length, the
certificates, a 2-byte big-endian random length, then the random bytes that
`memcmp` compares against the first 16 client-random bytes (the C compares 16
bytes unconditionally), then device random, signature and machash fields,
each with its length prefix and framing byte. -/
def ptp_mtpz_validatehandshakeresponse (rsaD : List Nat → Nat × List Nat)
    (resp random : List Nat) : Option (List Nat) :=
  if resp.getD 0 0 ≠ 2 then none else
  if resp.getD 1 0 ≠ 2 then none else
  if resp.getD 3 0 ≠ 0x80 then none else
  if (rsaD (bytesAt resp 4 128)).1 = 0 then none else
  if resp.getD 134 0 ≠ 3 then none else
  if resp.getD 135 0 ≠ 0x40 then none else
  let act := mtpzDecryptedBody rsaD resp
  let cl := be32At act 1
  let rl := be16At act (5 + cl)
  if bytesAt act (7 + cl) 16 ≠ bytesAt random 0 16 then none else
  let p1 := 7 + cl + rl
  let drl := be16At act p1
  let p2 := p1 + 2 + drl + 1
  let sl := be16At act p2
  let p3 := p2 + 2 + sl + 1
  let ml := be16At act p3
  some (bytesAt act (p3 + 2) ml)

/-- The application-request payloads `ptp_mtpz_handshake` ships, in order,
given the outcomes of the transport calls: nothing after a failed
session-initiator set or reset; the application-certificate message; and the
confirmation message only when a response arrived and validated. -/
def ptp_mtpz_handshake_sends (certs random : List Nat) (rsaSign : List Nat → List Nat)
    (rsaD : List Nat → Nat × List Nat) (setInfoOk resetOk sendCertOk respOk : Bool)
    (resp : List Nat) : List (List Nat) :=
  if setInfoOk = false then [] else
  if resetOk = false then [] else
  let acm := ptp_mtpz_makeapplicationcertificatemessage certs random rsaSign
  if sendCertOk = false then [acm] else
  if respOk = false then [acm] else
  match ptp_mtpz_validatehandshakeresponse rsaD resp random with
  | none => [acm]
  | some hash => [acm, ptp_mtpz_makeconfirmationmessage hash]


/-! ## XOR algebra on words and blocks -/

theorem nxor_left_comm (a b c : Nat) : a ^^^ (b ^^^ c) = b ^^^ (a ^^^ c) := by
  rw [← Nat.xor_assoc, Nat.xor_comm a b, Nat.xor_assoc]

theorem wxor_assoc (u v t : W) : wxor (wxor u v) t = wxor u (wxor v t) := by
  simp [wxor, Nat.xor_assoc]

theorem wxor_comm (u v : W) : wxor u v = wxor v u := by
  simp [wxor, Nat.xor_comm]

theorem wxor_self (u : W) : wxor u u = w0 := by
  simp [wxor, w0]

theorem wxor_zero (u : W) : wxor u w0 = u := by
  simp [wxor, w0]

theorem zero_wxor (u : W) : wxor w0 u = u := by
  simp [wxor, w0]

theorem wxor_right_comm (u v t : W) : wxor (wxor u v) t = wxor (wxor u t) v := by
  simp [wxor, Nat.xor_assoc, Nat.xor_comm, nxor_left_comm]

theorem wxor_cancel (u v : W) : wxor (wxor u v) v = u := by
  rw [wxor_assoc, wxor_self, wxor_zero]

theorem bxor_cancel (a b : Blk) : bxor (bxor a b) b = a := by
  simp [bxor, wxor_cancel]

theorem byte_xor_lt (a b : Nat) (ha : a < 256) (hb : b < 256) : a ^^^ b < 256 :=
  Nat.xor_lt_two_pow (n := 8) ha hb

theorem WB_wxor {u v : W} (hu : WB u) (hv : WB v) : WB (wxor u v) :=
  ⟨byte_xor_lt _ _ hu.1 hv.1, byte_xor_lt _ _ hu.2.1 hv.2.1,
   byte_xor_lt _ _ hu.2.2.1 hv.2.2.1, byte_xor_lt _ _ hu.2.2.2 hv.2.2.2⟩

theorem BB_bxor {a b : Blk} (ha : BB a) (hb : BB b) : BB (bxor a b) :=
  ⟨WB_wxor ha.1 hb.1, WB_wxor ha.2.1 hb.2.1, WB_wxor ha.2.2.1 hb.2.2.1, WB_wxor ha.2.2.2 hb.2.2.2⟩

theorem WB_wOfU32 (v : Nat) : WB (wOfU32 v) := by
  refine ⟨?_, ?_, ?_, ?_⟩ <;> exact Nat.lt_succ_of_le (Nat.and_le_right)

theorem WB_tw (t : List Nat) (i : Nat) : WB (tw t i) := WB_wOfU32 _

theorem WB_imcW (u : W) : WB (imcW u) :=
  WB_wxor (WB_wxor (WB_wxor (WB_tw _ _) (WB_tw _ _)) (WB_tw _ _)) (WB_tw _ _)

theorem ft3b1_lt (i : Nat) : ft3b1 i < 256 := Nat.lt_succ_of_le (Nat.and_le_right)

/-! ## Byte-level table facts (checked by exhaustive computation) -/

set_option maxRecDepth 1000000

theorem sB_invsB : ∀ i : Fin 256, siB (sB i.val) = i.val := by decide

theorem sB_lt_fin : ∀ i : Fin 256, sB i.val < 256 := by decide

theorem siB_lt_fin : ∀ i : Fin 256, siB i.val < 256 := by decide

theorem ft3b1_eq_sB : ∀ i : Fin 256, ft3b1 i.val = sB i.val := by decide

theorem rt1_eq_gb9 : ∀ i : Fin 256, tw mtpz_aes_rt1 i.val = tw mtpz_aes_gb9 (siB i.val) := by decide

theorem rt2_eq_gb13 : ∀ i : Fin 256, tw mtpz_aes_rt2 i.val = tw mtpz_aes_gb13 (siB i.val) := by decide

theorem rt3_eq_gb14 : ∀ i : Fin 256, tw mtpz_aes_rt3 i.val = tw mtpz_aes_gb14 (siB i.val) := by decide

theorem rt4_eq_gb11 : ∀ i : Fin 256, tw mtpz_aes_rt4 i.val = tw mtpz_aes_gb11 (siB i.val) := by decide

theorem imc_ft3 : ∀ i : Fin 256, imcW (tw mtpz_aes_ft3 i.val) = ⟨sB i.val, 0, 0, 0⟩ := by decide

theorem imc_ft4 : ∀ i : Fin 256, imcW (tw mtpz_aes_ft4 i.val) = ⟨0, sB i.val, 0, 0⟩ := by decide

theorem imc_ft2 : ∀ i : Fin 256, imcW (tw mtpz_aes_ft2 i.val) = ⟨0, 0, sB i.val, 0⟩ := by decide

theorem imc_ft1 : ∀ i : Fin 256, imcW (tw mtpz_aes_ft1 i.val) = ⟨0, 0, 0, sB i.val⟩ := by decide

/-- One indicator summand of the GF(2)-basis expansion of a table column. -/
def bitW (x j : Nat) (u : W) : W := if x.testBit j then u else w0

/-- Basis expansion of a table at index `x < 256`: the XOR of the table values
at the powers of two whose bits are set in `x`. -/
def basisW (t : List Nat) (x : Nat) : W :=
  wxor (wxor (wxor (bitW x 0 (tw t 1)) (bitW x 1 (tw t 2)))
             (wxor (bitW x 2 (tw t 4)) (bitW x 3 (tw t 8))))
       (wxor (wxor (bitW x 4 (tw t 16)) (bitW x 5 (tw t 32)))
             (wxor (bitW x 6 (tw t 64)) (bitW x 7 (tw t 128))))

theorem gb9_basis : ∀ i : Fin 256, tw mtpz_aes_gb9 i.val = basisW mtpz_aes_gb9 i.val := by decide

theorem gb11_basis : ∀ i : Fin 256, tw mtpz_aes_gb11 i.val = basisW mtpz_aes_gb11 i.val := by decide

theorem gb13_basis : ∀ i : Fin 256, tw mtpz_aes_gb13 i.val = basisW mtpz_aes_gb13 i.val := by decide

theorem gb14_basis : ∀ i : Fin 256, tw mtpz_aes_gb14 i.val = basisW mtpz_aes_gb14 i.val := by decide

theorem bitW_xor (x y j : Nat) (u : W) :
    bitW (x ^^^ y) j u = wxor (bitW x j u) (bitW y j u) := by
  simp only [bitW, Nat.testBit_xor]
  cases hx : x.testBit j <;> cases hy : y.testBit j <;>
    simp [wxor_self, wxor_zero, zero_wxor]

theorem xor8_interchange (p0 p1 p2 p3 p4 p5 p6 p7 q0 q1 q2 q3 q4 q5 q6 q7 : Nat) :
    (((p0 ^^^ q0) ^^^ (p1 ^^^ q1)) ^^^ ((p2 ^^^ q2) ^^^ (p3 ^^^ q3))) ^^^
      (((p4 ^^^ q4) ^^^ (p5 ^^^ q5)) ^^^ ((p6 ^^^ q6) ^^^ (p7 ^^^ q7))) =
    (((p0 ^^^ p1) ^^^ (p2 ^^^ p3)) ^^^ ((p4 ^^^ p5) ^^^ (p6 ^^^ p7))) ^^^
      (((q0 ^^^ q1) ^^^ (q2 ^^^ q3)) ^^^ ((q4 ^^^ q5) ^^^ (q6 ^^^ q7))) := by
  simp only [Nat.xor_assoc]
  simp [Nat.xor_comm, nxor_left_comm]

theorem basisW_xor (t : List Nat) (x y : Nat) :
    basisW t (x ^^^ y) = wxor (basisW t x) (basisW t y) := by
  simp only [basisW, bitW_xor x y, wxor]
  congr 1 <;> exact xor8_interchange ..


/-! ## Lifting the byte facts to bounded naturals -/

theorem sbox_len : mtpz_aes_sbox.length = 256 := by decide

theorem invsbox_len : mtpz_aes_invsbox.length = 256 := by decide

theorem sB_lt (i : Nat) : sB i < 256 := by
  by_cases h : i < 256
  · exact sB_lt_fin ⟨i, h⟩
  · unfold sB
    rw [List.getD_eq_default _ _ (by rw [sbox_len]; omega)]
    norm_num

theorem siB_lt (i : Nat) : siB i < 256 := by
  by_cases h : i < 256
  · exact siB_lt_fin ⟨i, h⟩
  · unfold siB
    rw [List.getD_eq_default _ _ (by rw [invsbox_len]; omega)]
    norm_num

theorem siB_sB (i : Nat) (h : i < 256) : siB (sB i) = i := sB_invsB ⟨i, h⟩

theorem ft3b1_sB (i : Nat) (h : i < 256) : ft3b1 i = sB i := ft3b1_eq_sB ⟨i, h⟩

theorem siB_ft3b1 (i : Nat) (h : i < 256) : siB (ft3b1 i) = i := by
  rw [ft3b1_sB i h, siB_sB i h]

theorem tw_gb9_xor (x y : Nat) (hx : x < 256) (hy : y < 256) :
    tw mtpz_aes_gb9 (x ^^^ y) = wxor (tw mtpz_aes_gb9 x) (tw mtpz_aes_gb9 y) := by
  rw [gb9_basis ⟨x ^^^ y, byte_xor_lt x y hx hy⟩, basisW_xor,
    ← gb9_basis ⟨x, hx⟩, ← gb9_basis ⟨y, hy⟩]

theorem tw_gb11_xor (x y : Nat) (hx : x < 256) (hy : y < 256) :
    tw mtpz_aes_gb11 (x ^^^ y) = wxor (tw mtpz_aes_gb11 x) (tw mtpz_aes_gb11 y) := by
  rw [gb11_basis ⟨x ^^^ y, byte_xor_lt x y hx hy⟩, basisW_xor,
    ← gb11_basis ⟨x, hx⟩, ← gb11_basis ⟨y, hy⟩]

theorem tw_gb13_xor (x y : Nat) (hx : x < 256) (hy : y < 256) :
    tw mtpz_aes_gb13 (x ^^^ y) = wxor (tw mtpz_aes_gb13 x) (tw mtpz_aes_gb13 y) := by
  rw [gb13_basis ⟨x ^^^ y, byte_xor_lt x y hx hy⟩, basisW_xor,
    ← gb13_basis ⟨x, hx⟩, ← gb13_basis ⟨y, hy⟩]

theorem tw_gb14_xor (x y : Nat) (hx : x < 256) (hy : y < 256) :
    tw mtpz_aes_gb14 (x ^^^ y) = wxor (tw mtpz_aes_gb14 x) (tw mtpz_aes_gb14 y) := by
  rw [gb14_basis ⟨x ^^^ y, byte_xor_lt x y hx hy⟩, basisW_xor,
    ← gb14_basis ⟨x, hx⟩, ← gb14_basis ⟨y, hy⟩]

theorem xor4_interchange (p0 p1 p2 p3 q0 q1 q2 q3 : Nat) :
    (((p0 ^^^ q0) ^^^ (p1 ^^^ q1)) ^^^ (p2 ^^^ q2)) ^^^ (p3 ^^^ q3) =
      ((p0 ^^^ p1) ^^^ p2) ^^^ p3 ^^^ (((q0 ^^^ q1) ^^^ q2) ^^^ q3) := by
  simp only [Nat.xor_assoc]
  simp [Nat.xor_comm, nxor_left_comm]

/-- `imcW` is GF(2)-linear on words with in-range bytes. -/
theorem imcW_xor (u v : W) (hu : WB u) (hv : WB v) :
    imcW (wxor u v) = wxor (imcW u) (imcW v) := by
  obtain ⟨hu0, hu1, hu2, hu3⟩ := hu
  obtain ⟨hv0, hv1, hv2, hv3⟩ := hv
  show imcW ⟨u.b0 ^^^ v.b0, u.b1 ^^^ v.b1, u.b2 ^^^ v.b2, u.b3 ^^^ v.b3⟩ = _
  unfold imcW
  simp only
  rw [tw_gb9_xor _ _ hu3 hv3, tw_gb13_xor _ _ hu2 hv2, tw_gb11_xor _ _ hu1 hv1,
    tw_gb14_xor _ _ hu0 hv0]
  simp only [wxor]
  congr 1 <;> exact xor4_interchange ..

/-- `mtpz_encryption_inv_mix_columns` acting on one 16-byte round key. -/
def imcB (b : Blk) : Blk := ⟨imcW b.x0, imcW b.x1, imcW b.x2, imcW b.x3⟩

theorem BB_imcB (b : Blk) : BB (imcB b) := ⟨WB_imcW _, WB_imcW _, WB_imcW _, WB_imcW _⟩

theorem imcB_xor (a b : Blk) (ha : BB a) (hb : BB b) :
    imcB (bxor a b) = bxor (imcB a) (imcB b) := by
  simp only [imcB, bxor]
  rw [imcW_xor _ _ ha.1 hb.1, imcW_xor _ _ ha.2.1 hb.2.1,
    imcW_xor _ _ ha.2.2.1 hb.2.2.1, imcW_xor _ _ ha.2.2.2 hb.2.2.2]

/-! ## Round-level identities -/

/-- One word of the inverse table round equals InvMixColumns of the
inverse-S-boxed (and inversely shifted) bytes. -/
theorem rt_word (a b c d : Nat) (ha : a < 256) (hb : b < 256) (hc : c < 256) (hd : d < 256) :
    wxor (wxor (wxor (tw mtpz_aes_rt1 d) (tw mtpz_aes_rt2 c)) (tw mtpz_aes_rt3 a))
      (tw mtpz_aes_rt4 b) = imcW ⟨siB a, siB b, siB c, siB d⟩ := by
  rw [rt1_eq_gb9 ⟨d, hd⟩, rt2_eq_gb13 ⟨c, hc⟩, rt3_eq_gb14 ⟨a, ha⟩, rt4_eq_gb11 ⟨b, hb⟩]
  show _ = wxor (wxor (wxor (tw mtpz_aes_gb9 (siB d)) (tw mtpz_aes_gb13 (siB c)))
    (tw mtpz_aes_gb11 (siB b))) (tw mtpz_aes_gb14 (siB a))
  rw [wxor_right_comm]

/-- One word of the forward table round, pushed through InvMixColumns, leaves
just the S-boxed bytes. -/
theorem ft_word (a b c d : Nat) (ha : a < 256) (hb : b < 256) (hc : c < 256) (hd : d < 256) :
    imcW (wxor (wxor (wxor (tw mtpz_aes_ft1 d) (tw mtpz_aes_ft2 c)) (tw mtpz_aes_ft3 a))
      (tw mtpz_aes_ft4 b)) = ⟨ft3b1 a, ft3b1 b, ft3b1 c, ft3b1 d⟩ := by
  rw [imcW_xor _ _ (WB_wxor (WB_wxor (WB_tw _ _) (WB_tw _ _)) (WB_tw _ _)) (WB_tw _ _),
    imcW_xor _ _ (WB_wxor (WB_tw _ _) (WB_tw _ _)) (WB_tw _ _),
    imcW_xor _ _ (WB_tw _ _) (WB_tw _ _),
    imc_ft1 ⟨d, hd⟩, imc_ft2 ⟨c, hc⟩, imc_ft3 ⟨a, ha⟩, imc_ft4 ⟨b, hb⟩,
    ft3b1_sB a ha, ft3b1_sB b hb, ft3b1_sB c hc, ft3b1_sB d hd]
  simp [wxor]

theorem BB_finSubBlk (s : Blk) : BB (finSubBlk s) := by
  refine ⟨⟨?_, ?_, ?_, ?_⟩, ⟨?_, ?_, ?_, ?_⟩, ⟨?_, ?_, ?_, ?_⟩, ⟨?_, ?_, ?_, ?_⟩⟩ <;>
    exact ft3b1_lt _

theorem BB_ftMixBlk (s : Blk) : BB (ftMixBlk s) := by
  refine ⟨?_, ?_, ?_, ?_⟩ <;>
    exact WB_wxor (WB_wxor (WB_wxor (WB_tw _ _) (WB_tw _ _)) (WB_tw _ _)) (WB_tw _ _)

/-- The inverse final round undoes the final round. -/
theorem invFinSub_finSub (u : Blk) (hu : BB u) : invFinSubBlk (finSubBlk u) = u := by
  obtain ⟨⟨h00, h01, h02, h03⟩, ⟨h10, h11, h12, h13⟩, ⟨h20, h21, h22, h23⟩,
    ⟨h30, h31, h32, h33⟩⟩ := hu
  simp only [finSubBlk, invFinSubBlk]
  rw [siB_ft3b1 _ h00, siB_ft3b1 _ h01, siB_ft3b1 _ h02, siB_ft3b1 _ h03,
    siB_ft3b1 _ h10, siB_ft3b1 _ h11, siB_ft3b1 _ h12, siB_ft3b1 _ h13,
    siB_ft3b1 _ h20, siB_ft3b1 _ h21, siB_ft3b1 _ h22, siB_ft3b1 _ h23,
    siB_ft3b1 _ h30, siB_ft3b1 _ h31, siB_ft3b1 _ h32, siB_ft3b1 _ h33]

/-- The inverse table round factors as InvMixColumns after the inverse final
round. -/
theorem rtMix_eq (u : Blk) (hu : BB u) : rtMixBlk u = imcB (invFinSubBlk u) := by
  obtain ⟨⟨h00, h01, h02, h03⟩, ⟨h10, h11, h12, h13⟩, ⟨h20, h21, h22, h23⟩,
    ⟨h30, h31, h32, h33⟩⟩ := hu
  simp only [rtMixBlk, invFinSubBlk, imcB]
  congr 1
  · exact rt_word _ _ _ _ h00 h31 h22 h13
  · exact rt_word _ _ _ _ h10 h01 h32 h23
  · exact rt_word _ _ _ _ h20 h11 h02 h33
  · exact rt_word _ _ _ _ h30 h21 h12 h03

/-- InvMixColumns after the forward table round is just the final S-box round. -/
theorem imc_ftMix (t : Blk) (ht : BB t) : imcB (ftMixBlk t) = finSubBlk t := by
  obtain ⟨⟨h00, h01, h02, h03⟩, ⟨h10, h11, h12, h13⟩, ⟨h20, h21, h22, h23⟩,
    ⟨h30, h31, h32, h33⟩⟩ := ht
  simp only [ftMixBlk, imcB, finSubBlk]
  congr 1
  · exact ft_word _ _ _ _ h00 h11 h22 h33
  · exact ft_word _ _ _ _ h10 h21 h32 h03
  · exact ft_word _ _ _ _ h20 h31 h02 h13
  · exact ft_word _ _ _ _ h30 h01 h12 h23

/-- The inverse table round applied to a final-round output recovers
InvMixColumns of the pre-final state. -/
theorem rtMix_finSub (t : Blk) (ht : BB t) : rtMixBlk (finSubBlk t) = imcB t := by
  rw [rtMix_eq _ (BB_finSubBlk t), invFinSub_finSub t ht]


/-! ## Key-schedule bounds and expanded-buffer access -/

theorem WB_w0 : WB w0 := by decide

theorem rconB_lt (i : Nat) : rconB i < 256 := by
  by_cases h : i < 15
  · have : ∀ j : Fin 15, rconB j.val < 256 := by decide
    exact this ⟨i, h⟩
  · unfold rconB
    rw [List.getD_eq_default _ _ (by simp [mtpz_aes_rcon]; omega)]
    norm_num

theorem key_byte_lt (key : List Nat) (hk : ∀ b ∈ key, b < 256) (i : Nat) :
    key.getD i 0 < 256 := by
  by_cases h : i < key.length
  · rw [List.getD_eq_getElem _ _ h]
    exact hk _ (List.getElem_mem h)
  · rw [List.getD_eq_default _ _ (by omega)]
    norm_num

theorem getD_WB (w : List W) (hw : ∀ u ∈ w, WB u) (i : Nat) : WB (w.getD i w0) := by
  by_cases h : i < w.length
  · rw [List.getD_eq_getElem _ _ h]
    exact hw _ (List.getElem_mem h)
  · rw [List.getD_eq_default _ _ (by omega)]
    exact WB_w0

theorem schedStep_bound (kl : Nat) (w : List W) (hw : ∀ u ∈ w, WB u) :
    ∀ u ∈ schedStep kl w, WB u := by
  intro u hu
  unfold schedStep at hu
  simp only [List.mem_append, List.mem_singleton] at hu
  rcases hu with hu | hu
  · exact hw u hu
  · subst hu
    refine WB_wxor (getD_WB w hw _) ?_
    split
    · exact ⟨Nat.lt_succ_of_le Nat.and_le_right, sB_lt _, sB_lt _, sB_lt _⟩
    · split
      · exact ⟨sB_lt _, sB_lt _, sB_lt _, sB_lt _⟩
      · exact getD_WB w hw _

theorem foldl_schedStep_bound (kl : Nat) (l : List Nat) (w : List W) (hw : ∀ u ∈ w, WB u) :
    ∀ u ∈ l.foldl (fun w _ => schedStep kl w) w, WB u := by
  induction l generalizing w with
  | nil => simpa using hw
  | cons a l ih =>
    rw [List.foldl_cons]
    exact ih (schedStep kl w) (schedStep_bound kl w hw)

theorem schedWords_bound (key : List Nat) (hk : ∀ b ∈ key, b < 256) (kl : Nat) :
    ∀ u ∈ schedWords key kl, WB u := by
  unfold schedWords
  refine foldl_schedStep_bound kl _ _ ?_
  intro u hu
  simp only [List.mem_map, List.mem_range] at hu
  obtain ⟨i, _, rfl⟩ := hu
  exact ⟨key_byte_lt key hk _, key_byte_lt key hk _, key_byte_lt key hk _, key_byte_lt key hk _⟩

theorem schedW_bound (key : List Nat) (hk : ∀ b ∈ key, b < 256) (kl i : Nat) :
    WB (schedW key kl i) :=
  getD_WB _ (schedWords_bound key hk kl) i


attribute [irreducible] schedWords

theorem expand16_copy1 (key : List Nat) (o : Nat) (h1 : 4 ≤ o) (h2 : o < 180) :
    mtpz_encryption_expand_key key 16 10 o = schedW key 16 ((o - 4) / 4) := by
  unfold mtpz_encryption_expand_key innerKsLen seekOf
  norm_num
  rw [if_neg (by omega), if_neg (by omega), if_pos (by omega)]

theorem expand16_copy2 (key : List Nat) (o : Nat) (h1 : 180 ≤ o) (h2 : o < 196) :
    mtpz_encryption_expand_key key 16 10 o = schedW key 16 ((o - 180) / 4) := by
  unfold mtpz_encryption_expand_key innerKsLen seekOf
  norm_num
  have g : (o - 4 - 176) / 4 = (o - 180) / 4 := by omega
  rw [if_neg (by omega), if_neg (by omega), if_neg (by omega), if_pos (by omega), g]

theorem expand16_imc (key : List Nat) (o : Nat) (h1 : 196 ≤ o) (h2 : o < 340) :
    mtpz_encryption_expand_key key 16 10 o = imcW (schedW key 16 ((o - 180) / 4)) := by
  unfold mtpz_encryption_expand_key innerKsLen seekOf
  norm_num
  have g : (o - 4 - 176) / 4 = (o - 180) / 4 := by omega
  rw [if_pos (by omega), if_neg (by omega), if_neg (by omega), if_pos (by omega), g]

theorem expand16_hi (key : List Nat) (o : Nat) (h1 : 340 ≤ o) (h2 : o < 356) :
    mtpz_encryption_expand_key key 16 10 o = schedW key 16 ((o - 180) / 4) := by
  unfold mtpz_encryption_expand_key innerKsLen seekOf
  norm_num
  have g : (o - 4 - 176) / 4 = (o - 180) / 4 := by omega
  rw [if_neg (by omega), if_neg (by omega), if_neg (by omega), if_pos (by omega), g]

/-- Round key `r` of the 16-byte-key schedule, as a block of four words. -/
def rkBlk (key : List Nat) (r : Nat) : Blk :=
  ⟨schedW key 16 (4 * r), schedW key 16 (4 * r + 1), schedW key 16 (4 * r + 2),
   schedW key 16 (4 * r + 3)⟩

theorem BB_rkBlk (key : List Nat) (hk : ∀ b ∈ key, b < 256) (r : Nat) : BB (rkBlk key r) := by
  refine ⟨?_, ?_, ?_, ?_⟩
  · exact schedW_bound key hk 16 (4 * r)
  · exact schedW_bound key hk 16 (4 * r + 1)
  · exact schedW_bound key hk 16 (4 * r + 2)
  · exact schedW_bound key hk 16 (4 * r + 3)

theorem readBlk_enc16 (key : List Nat) (r : Nat) (hr : r ≤ 10) :
    readBlk (mtpz_encryption_expand_key key 16 10) (4 + 16 * r) = rkBlk key r := by
  unfold readBlk rkBlk
  rw [expand16_copy1 key _ (by omega) (by omega), expand16_copy1 key _ (by omega) (by omega),
    expand16_copy1 key _ (by omega) (by omega), expand16_copy1 key _ (by omega) (by omega)]
  have g1 : (4 + 16 * r - 4) / 4 = 4 * r := by omega
  have g2 : (4 + 16 * r + 4 - 4) / 4 = 4 * r + 1 := by omega
  have g3 : (4 + 16 * r + 8 - 4) / 4 = 4 * r + 2 := by omega
  have g4 : (4 + 16 * r + 12 - 4) / 4 = 4 * r + 3 := by omega
  rw [g1, g2, g3, g4]

theorem readBlk_dec0 (key : List Nat) :
    readBlk (mtpz_encryption_expand_key key 16 10) 0xB4 = rkBlk key 0 := by
  unfold readBlk rkBlk
  rw [expand16_copy2 key _ (by omega) (by omega), expand16_copy2 key _ (by omega) (by omega),
    expand16_copy2 key _ (by omega) (by omega), expand16_copy2 key _ (by omega) (by omega)]


theorem readBlk_decImc (key : List Nat) (j : Nat) (h1 : 1 ≤ j) (h2 : j ≤ 9) :
    readBlk (mtpz_encryption_expand_key key 16 10) (0xB4 + 16 * j) = imcB (rkBlk key j) := by
  unfold readBlk rkBlk imcB
  rw [expand16_imc key _ (by omega) (by omega), expand16_imc key _ (by omega) (by omega),
    expand16_imc key _ (by omega) (by omega), expand16_imc key _ (by omega) (by omega)]
  have g1 : (0xB4 + 16 * j - 180) / 4 = 4 * j := by omega
  have g2 : (0xB4 + 16 * j + 4 - 180) / 4 = 4 * j + 1 := by omega
  have g3 : (0xB4 + 16 * j + 8 - 180) / 4 = 4 * j + 2 := by omega
  have g4 : (0xB4 + 16 * j + 12 - 180) / 4 = 4 * j + 3 := by omega
  rw [g1, g2, g3, g4]

theorem readBlk_dec10 (key : List Nat) :
    readBlk (mtpz_encryption_expand_key key 16 10) 0x154 = rkBlk key 10 := by
  unfold readBlk rkBlk
  rw [expand16_hi key _ (by omega) (by omega), expand16_hi key _ (by omega) (by omega),
    expand16_hi key _ (by omega) (by omega), expand16_hi key _ (by omega) (by omega)]



/-! ## The block-cipher inverse (16-byte keys) -/

set_option maxHeartbeats 4000000 in
/-- With a 16-byte key (in-range bytes), decryption through the expanded
schedule inverts encryption: the decryption path reads round key 10 plain at
offset 0x154, the InvMixColumns images of round keys 9..1 at 0x144..0xC4,
and round key 0 plain at 0xB4, exactly undoing the ten forward rounds. -/
theorem decCore_encCore (key : List Nat) (hk : ∀ b ∈ key, b < 256) (x : Blk) (hx : BB x) :
    decCore (mtpz_encryption_expand_key key 16 10)
      (encCore (mtpz_encryption_expand_key key 16 10) x) = x := by
  set E := mtpz_encryption_expand_key key 16 10 with hE
  have hkB : ∀ r, BB (rkBlk key r) := fun r => BB_rkBlk key hk r
  have e0 : readBlk E 4 = rkBlk key 0 := by simpa using readBlk_enc16 key 0 (by norm_num)
  have e1 : readBlk E 0x14 = rkBlk key 1 := by simpa using readBlk_enc16 key 1 (by norm_num)
  have e2 : readBlk E 0x24 = rkBlk key 2 := by simpa using readBlk_enc16 key 2 (by norm_num)
  have e3 : readBlk E 0x34 = rkBlk key 3 := by simpa using readBlk_enc16 key 3 (by norm_num)
  have e4 : readBlk E 0x44 = rkBlk key 4 := by simpa using readBlk_enc16 key 4 (by norm_num)
  have e5 : readBlk E 0x54 = rkBlk key 5 := by simpa using readBlk_enc16 key 5 (by norm_num)
  have e6 : readBlk E 0x64 = rkBlk key 6 := by simpa using readBlk_enc16 key 6 (by norm_num)
  have e7 : readBlk E 0x74 = rkBlk key 7 := by simpa using readBlk_enc16 key 7 (by norm_num)
  have e8 : readBlk E 0x84 = rkBlk key 8 := by simpa using readBlk_enc16 key 8 (by norm_num)
  have e9 : readBlk E 0x94 = rkBlk key 9 := by simpa using readBlk_enc16 key 9 (by norm_num)
  have e10 : readBlk E 0xA4 = rkBlk key 10 := by simpa using readBlk_enc16 key 10 (by norm_num)
  have d0 : readBlk E 0xB4 = rkBlk key 0 := readBlk_dec0 key
  have d1 : readBlk E 0xC4 = imcB (rkBlk key 1) := by
    simpa using readBlk_decImc key 1 (by norm_num) (by norm_num)
  have d2 : readBlk E 0xD4 = imcB (rkBlk key 2) := by
    simpa using readBlk_decImc key 2 (by norm_num) (by norm_num)
  have d3 : readBlk E 0xE4 = imcB (rkBlk key 3) := by
    simpa using readBlk_decImc key 3 (by norm_num) (by norm_num)
  have d4 : readBlk E 0xF4 = imcB (rkBlk key 4) := by
    simpa using readBlk_decImc key 4 (by norm_num) (by norm_num)
  have d5 : readBlk E 0x104 = imcB (rkBlk key 5) := by
    simpa using readBlk_decImc key 5 (by norm_num) (by norm_num)
  have d6 : readBlk E 0x114 = imcB (rkBlk key 6) := by
    simpa using readBlk_decImc key 6 (by norm_num) (by norm_num)
  have d7 : readBlk E 0x124 = imcB (rkBlk key 7) := by
    simpa using readBlk_decImc key 7 (by norm_num) (by norm_num)
  have d8 : readBlk E 0x134 = imcB (rkBlk key 8) := by
    simpa using readBlk_decImc key 8 (by norm_num) (by norm_num)
  have d9 : readBlk E 0x144 = imcB (rkBlk key 9) := by
    simpa using readBlk_decImc key 9 (by norm_num) (by norm_num)
  have d10 : readBlk E 0x154 = rkBlk key 10 := readBlk_dec10 key
  set a0 := bxor x (rkBlk key 0) with ha0
  set m0 := ftMixBlk a0 with hm0
  set a1 := bxor m0 (rkBlk key 1) with ha1
  set m1 := ftMixBlk a1 with hm1
  set a2 := bxor m1 (rkBlk key 2) with ha2
  set m2 := ftMixBlk a2 with hm2
  set a3 := bxor m2 (rkBlk key 3) with ha3
  set m3 := ftMixBlk a3 with hm3
  set a4 := bxor m3 (rkBlk key 4) with ha4
  set m4 := ftMixBlk a4 with hm4
  set a5 := bxor m4 (rkBlk key 5) with ha5
  set m5 := ftMixBlk a5 with hm5
  set a6 := bxor m5 (rkBlk key 6) with ha6
  set m6 := ftMixBlk a6 with hm6
  set a7 := bxor m6 (rkBlk key 7) with ha7
  set m7 := ftMixBlk a7 with hm7
  set a8 := bxor m7 (rkBlk key 8) with ha8
  set m8 := ftMixBlk a8 with hm8
  set a9 := bxor m8 (rkBlk key 9) with ha9
  have ba0 : BB a0 := by rw [ha0]; exact BB_bxor hx (hkB 0)
  have bm0 : BB m0 := by rw [hm0]; exact BB_ftMixBlk a0
  have ba1 : BB a1 := by rw [ha1]; exact BB_bxor bm0 (hkB 1)
  have bm1 : BB m1 := by rw [hm1]; exact BB_ftMixBlk a1
  have ba2 : BB a2 := by rw [ha2]; exact BB_bxor bm1 (hkB 2)
  have bm2 : BB m2 := by rw [hm2]; exact BB_ftMixBlk a2
  have ba3 : BB a3 := by rw [ha3]; exact BB_bxor bm2 (hkB 3)
  have bm3 : BB m3 := by rw [hm3]; exact BB_ftMixBlk a3
  have ba4 : BB a4 := by rw [ha4]; exact BB_bxor bm3 (hkB 4)
  have bm4 : BB m4 := by rw [hm4]; exact BB_ftMixBlk a4
  have ba5 : BB a5 := by rw [ha5]; exact BB_bxor bm4 (hkB 5)
  have bm5 : BB m5 := by rw [hm5]; exact BB_ftMixBlk a5
  have ba6 : BB a6 := by rw [ha6]; exact BB_bxor bm5 (hkB 6)
  have bm6 : BB m6 := by rw [hm6]; exact BB_ftMixBlk a6
  have ba7 : BB a7 := by rw [ha7]; exact BB_bxor bm6 (hkB 7)
  have bm7 : BB m7 := by rw [hm7]; exact BB_ftMixBlk a7
  have ba8 : BB a8 := by rw [ha8]; exact BB_bxor bm7 (hkB 8)
  have bm8 : BB m8 := by rw [hm8]; exact BB_ftMixBlk a8
  have ba9 : BB a9 := by rw [ha9]; exact BB_bxor bm8 (hkB 9)
  clear_value E a0 m0 a1 m1 a2 m2 a3 m3 a4 m4 a5 m5 a6 m6 a7 m7 a8 m8 a9
  have henc : encCore E x = bxor (finSubBlk a9) (rkBlk key 10) := by
    show bxor (finSubBlk (bxor (encLoop E 8 0x14 (ftMixBlk (bxor x (readBlk E 4))))
      (readBlk E 0x94))) (readBlk E 0xA4) = _
    simp only [e0, e1, e2, e3, e4, e5, e6, e7, e8, e9, e10,
      ← ha0, ← ha1, ← ha2, ← ha3, ← ha4, ← ha5, ← ha6, ← ha7, ← ha8, ← ha9,
      ← hm0, ← hm1, ← hm2, ← hm3, ← hm4, ← hm5, ← hm6, ← hm7, ← hm8,
      show ∀ m, encLoop E 8 0x14 m
        = encLoop E 7 0x24 (ftMixBlk (bxor m (readBlk E 0x14))) from fun _ => rfl,
      show ∀ m, encLoop E 7 0x24 m
        = encLoop E 6 0x34 (ftMixBlk (bxor m (readBlk E 0x24))) from fun _ => rfl,
      show ∀ m, encLoop E 6 0x34 m
        = encLoop E 5 0x44 (ftMixBlk (bxor m (readBlk E 0x34))) from fun _ => rfl,
      show ∀ m, encLoop E 5 0x44 m
        = encLoop E 4 0x54 (ftMixBlk (bxor m (readBlk E 0x44))) from fun _ => rfl,
      show ∀ m, encLoop E 4 0x54 m
        = encLoop E 3 0x64 (ftMixBlk (bxor m (readBlk E 0x54))) from fun _ => rfl,
      show ∀ m, encLoop E 3 0x64 m
        = encLoop E 2 0x74 (ftMixBlk (bxor m (readBlk E 0x64))) from fun _ => rfl,
      show ∀ m, encLoop E 2 0x74 m
        = encLoop E 1 0x84 (ftMixBlk (bxor m (readBlk E 0x74))) from fun _ => rfl,
      show ∀ m, encLoop E 1 0x84 m
        = encLoop E 0 0x94 (ftMixBlk (bxor m (readBlk E 0x84))) from fun _ => rfl,
      show ∀ m, encLoop E 0 0x94 m = m from fun _ => rfl]
  have ca1 : bxor a1 (rkBlk key 1) = m0 := by rw [ha1, bxor_cancel]
  have ca2 : bxor a2 (rkBlk key 2) = m1 := by rw [ha2, bxor_cancel]
  have ca3 : bxor a3 (rkBlk key 3) = m2 := by rw [ha3, bxor_cancel]
  have ca4 : bxor a4 (rkBlk key 4) = m3 := by rw [ha4, bxor_cancel]
  have ca5 : bxor a5 (rkBlk key 5) = m4 := by rw [ha5, bxor_cancel]
  have ca6 : bxor a6 (rkBlk key 6) = m5 := by rw [ha6, bxor_cancel]
  have ca7 : bxor a7 (rkBlk key 7) = m6 := by rw [ha7, bxor_cancel]
  have ca8 : bxor a8 (rkBlk key 8) = m7 := by rw [ha8, bxor_cancel]
  have ca9 : bxor a9 (rkBlk key 9) = m8 := by rw [ha9, bxor_cancel]
  have cm0 : imcB m0 = finSubBlk a0 := by rw [hm0]; exact imc_ftMix a0 ba0
  have cm1 : imcB m1 = finSubBlk a1 := by rw [hm1]; exact imc_ftMix a1 ba1
  have cm2 : imcB m2 = finSubBlk a2 := by rw [hm2]; exact imc_ftMix a2 ba2
  have cm3 : imcB m3 = finSubBlk a3 := by rw [hm3]; exact imc_ftMix a3 ba3
  have cm4 : imcB m4 = finSubBlk a4 := by rw [hm4]; exact imc_ftMix a4 ba4
  have cm5 : imcB m5 = finSubBlk a5 := by rw [hm5]; exact imc_ftMix a5 ba5
  have cm6 : imcB m6 = finSubBlk a6 := by rw [hm6]; exact imc_ftMix a6 ba6
  have cm7 : imcB m7 = finSubBlk a7 := by rw [hm7]; exact imc_ftMix a7 ba7
  have cm8 : imcB m8 = finSubBlk a8 := by rw [hm8]; exact imc_ftMix a8 ba8
  have ci1 : bxor (imcB a1) (imcB (rkBlk key 1)) = finSubBlk a0 := by
    rw [← imcB_xor a1 (rkBlk key 1) ba1 (hkB 1), ca1, cm0]
  have ci2 : bxor (imcB a2) (imcB (rkBlk key 2)) = finSubBlk a1 := by
    rw [← imcB_xor a2 (rkBlk key 2) ba2 (hkB 2), ca2, cm1]
  have ci3 : bxor (imcB a3) (imcB (rkBlk key 3)) = finSubBlk a2 := by
    rw [← imcB_xor a3 (rkBlk key 3) ba3 (hkB 3), ca3, cm2]
  have ci4 : bxor (imcB a4) (imcB (rkBlk key 4)) = finSubBlk a3 := by
    rw [← imcB_xor a4 (rkBlk key 4) ba4 (hkB 4), ca4, cm3]
  have ci5 : bxor (imcB a5) (imcB (rkBlk key 5)) = finSubBlk a4 := by
    rw [← imcB_xor a5 (rkBlk key 5) ba5 (hkB 5), ca5, cm4]
  have ci6 : bxor (imcB a6) (imcB (rkBlk key 6)) = finSubBlk a5 := by
    rw [← imcB_xor a6 (rkBlk key 6) ba6 (hkB 6), ca6, cm5]
  have ci7 : bxor (imcB a7) (imcB (rkBlk key 7)) = finSubBlk a6 := by
    rw [← imcB_xor a7 (rkBlk key 7) ba7 (hkB 7), ca7, cm6]
  have ci8 : bxor (imcB a8) (imcB (rkBlk key 8)) = finSubBlk a7 := by
    rw [← imcB_xor a8 (rkBlk key 8) ba8 (hkB 8), ca8, cm7]
  have ci9 : bxor (imcB a9) (imcB (rkBlk key 9)) = finSubBlk a8 := by
    rw [← imcB_xor a9 (rkBlk key 9) ba9 (hkB 9), ca9, cm8]
  have cr0 : rtMixBlk (finSubBlk a0) = imcB a0 := rtMix_finSub a0 ba0
  have cr1 : rtMixBlk (finSubBlk a1) = imcB a1 := rtMix_finSub a1 ba1
  have cr2 : rtMixBlk (finSubBlk a2) = imcB a2 := rtMix_finSub a2 ba2
  have cr3 : rtMixBlk (finSubBlk a3) = imcB a3 := rtMix_finSub a3 ba3
  have cr4 : rtMixBlk (finSubBlk a4) = imcB a4 := rtMix_finSub a4 ba4
  have cr5 : rtMixBlk (finSubBlk a5) = imcB a5 := rtMix_finSub a5 ba5
  have cr6 : rtMixBlk (finSubBlk a6) = imcB a6 := rtMix_finSub a6 ba6
  have cr7 : rtMixBlk (finSubBlk a7) = imcB a7 := rtMix_finSub a7 ba7
  have cr8 : rtMixBlk (finSubBlk a8) = imcB a8 := rtMix_finSub a8 ba8
  have cr9 : rtMixBlk (finSubBlk a9) = imcB a9 := rtMix_finSub a9 ba9
  have cifs : invFinSubBlk (finSubBlk a0) = a0 := invFinSub_finSub a0 ba0
  have cx : bxor a0 (rkBlk key 0) = x := by rw [ha0, bxor_cancel]
  rw [henc]
  show bxor (invFinSubBlk (bxor (decLoop E 8 0x144 (rtMixBlk (bxor
    (bxor (finSubBlk a9) (rkBlk key 10)) (readBlk E 0x154)))) (readBlk E 0xC4)))
    (readBlk E 0xB4) = x
  simp only [d0, d1, d2, d3, d4, d5, d6, d7, d8, d9, d10, bxor_cancel,
    cr0, cr1, cr2, cr3, cr4, cr5, cr6, cr7, cr8, cr9,
    ci1, ci2, ci3, ci4, ci5, ci6, ci7, ci8, ci9, cifs, cx,
    show ∀ m, decLoop E 8 0x144 m
      = decLoop E 7 0x134 (rtMixBlk (bxor m (readBlk E 0x144))) from fun _ => rfl,
    show ∀ m, decLoop E 7 0x134 m
      = decLoop E 6 0x124 (rtMixBlk (bxor m (readBlk E 0x134))) from fun _ => rfl,
    show ∀ m, decLoop E 6 0x124 m
      = decLoop E 5 0x114 (rtMixBlk (bxor m (readBlk E 0x124))) from fun _ => rfl,
    show ∀ m, decLoop E 5 0x114 m
      = decLoop E 4 0x104 (rtMixBlk (bxor m (readBlk E 0x114))) from fun _ => rfl,
    show ∀ m, decLoop E 4 0x104 m
      = decLoop E 3 0xF4 (rtMixBlk (bxor m (readBlk E 0x104))) from fun _ => rfl,
    show ∀ m, decLoop E 3 0xF4 m
      = decLoop E 2 0xE4 (rtMixBlk (bxor m (readBlk E 0xF4))) from fun _ => rfl,
    show ∀ m, decLoop E 2 0xE4 m
      = decLoop E 1 0xD4 (rtMixBlk (bxor m (readBlk E 0xE4))) from fun _ => rfl,
    show ∀ m, decLoop E 1 0xD4 m
      = decLoop E 0 0xC4 (rtMixBlk (bxor m (readBlk E 0xD4))) from fun _ => rfl,
    show ∀ m, decLoop E 0 0xC4 m = m from fun _ => rfl]


/-! ## Byte/block conversions and the chained mode -/

theorem toBlk_blkBytes (b : Blk) : toBlk (blkBytes b) = b := by
  cases b with
  | mk x0 x1 x2 x3 => cases x0; cases x1; cases x2; cases x3; rfl

theorem BB_toBlk (l : List Nat) (h : ∀ b ∈ l, b < 256) : BB (toBlk l) := by
  refine ⟨⟨?_, ?_, ?_, ?_⟩, ⟨?_, ?_, ?_, ?_⟩, ⟨?_, ?_, ?_, ?_⟩, ⟨?_, ?_, ?_, ?_⟩⟩ <;>
    exact key_byte_lt l h _

theorem blkBytes_length (b : Blk) : (blkBytes b).length = 16 := rfl

theorem blkBytes_toBlk (l : List Nat) (h : l.length = 16) : blkBytes (toBlk l) = l := by
  apply List.ext_getElem
  · simp [blkBytes, toBlk, h]
  · intro i h1 h2
    have h16 : i < 16 := by simpa [blkBytes] using h1
    interval_cases i <;>
      (simp only [blkBytes, toBlk, List.getElem_cons_zero, List.getElem_cons_succ];
       exact List.getD_eq_getElem _ _ (by omega))

theorem toBlocksF_nil (f : Nat) : toBlocksF f [] = [] := by
  cases f <;> rfl

theorem toBlocksF_congr (f1 : Nat) : ∀ (f2 : Nat) (l : List Nat), l.length ≤ f1 →
    l.length ≤ f2 → toBlocksF f1 l = toBlocksF f2 l := by
  induction f1 with
  | zero =>
    intro f2 l h1 _
    have : l = [] := List.eq_nil_of_length_eq_zero (by omega)
    subst this
    rw [toBlocksF_nil, toBlocksF_nil]
  | succ f1 ih =>
    intro f2 l h1 h2
    match l, f2 with
    | [], f2 => rw [toBlocksF_nil, toBlocksF_nil]
    | a :: r, f2 + 1 =>
      show toBlk ((a :: r).take 16) :: toBlocksF f1 ((a :: r).drop 16) = _
      show _ = toBlk ((a :: r).take 16) :: toBlocksF f2 ((a :: r).drop 16)
      have hd : ((a :: r).drop 16).length = (a :: r).length - 16 := by
        rw [List.length_drop]
      rw [ih f2 ((a :: r).drop 16) (by simp at h1 hd ⊢; omega) (by simp at h2 hd ⊢; omega)]

theorem toBlocks_cons16 (b rest : List Nat) (h : b.length = 16) :
    toBlocks (b ++ rest) = toBlk b :: toBlocks rest := by
  match b, h with
  | a :: b1, h =>
    show toBlocksF ((a :: b1) ++ rest).length ((a :: b1) ++ rest) = _
    have hl : ((a :: b1) ++ rest).length = rest.length + 16 := by
      simp [List.length_append] at h ⊢
      omega
    rw [hl]
    show toBlk (((a :: b1) ++ rest).take 16) ::
      toBlocksF (rest.length + 15) (((a :: b1) ++ rest).drop 16) = _
    have ht : ((a :: b1) ++ rest).take 16 = a :: b1 := by
      rw [← h, List.take_left]
    have hd : ((a :: b1) ++ rest).drop 16 = rest := by
      rw [← h, List.drop_left]
    rw [ht, hd, toBlocksF_congr (rest.length + 15) rest.length rest (by omega) (by omega)]
    rfl

theorem toBlocks_flatten (bs : List Blk) :
    toBlocks ((bs.map blkBytes).flatten) = bs := by
  induction bs with
  | nil => rfl
  | cons b r ih =>
    rw [List.map_cons, List.flatten_cons, toBlocks_cons16 _ _ (blkBytes_length b),
      toBlk_blkBytes, ih]

theorem flatten_toBlocks_aux : ∀ (n : Nat) (l : List Nat), l.length ≤ n →
    l.length % 16 = 0 → ((toBlocks l).map blkBytes).flatten = l := by
  intro n
  induction n with
  | zero =>
    intro l h1 _
    have : l = [] := List.eq_nil_of_length_eq_zero (by omega)
    subst this
    rfl
  | succ n ih =>
    intro l h1 h2
    by_cases hl : l = []
    · subst hl; rfl
    · have hlen : 16 ≤ l.length := by
        have := List.length_pos.mpr hl
        omega
      have ht : (l.take 16).length = 16 := by
        rw [List.length_take]
        omega
      calc ((toBlocks l).map blkBytes).flatten
          = ((toBlocks (l.take 16 ++ l.drop 16)).map blkBytes).flatten := by
            rw [List.take_append_drop]
        _ = blkBytes (toBlk (l.take 16)) ++ ((toBlocks (l.drop 16)).map blkBytes).flatten := by
            rw [toBlocks_cons16 _ _ ht, List.map_cons, List.flatten_cons]
        _ = l.take 16 ++ l.drop 16 := by
            rw [blkBytes_toBlk _ ht, ih (l.drop 16) (by rw [List.length_drop]; omega)
              (by rw [List.length_drop]; omega)]
        _ = l := List.take_append_drop 16 l

theorem flatten_toBlocks (l : List Nat) (h : l.length % 16 = 0) :
    ((toBlocks l).map blkBytes).flatten = l :=
  flatten_toBlocks_aux l.length l le_rfl h

theorem toBlocksF_BB : ∀ (f : Nat) (l : List Nat), (∀ x ∈ l, x < 256) →
    ∀ b ∈ toBlocksF f l, BB b := by
  intro f
  induction f with
  | zero => intro l _ b hb; simp [toBlocksF] at hb
  | succ f ih =>
    intro l hl b hb
    cases l with
    | nil => simp [toBlocksF] at hb
    | cons a r =>
      rw [show toBlocksF (f + 1) (a :: r)
          = toBlk ((a :: r).take 16) :: toBlocksF f ((a :: r).drop 16) from rfl] at hb
      rcases List.mem_cons.mp hb with hb | hb
      · subst hb
        exact BB_toBlk _ fun x hx => hl x (List.mem_of_mem_take hx)
      · exact ih _ (fun x hx => hl x (List.mem_of_mem_drop hx)) _ hb

theorem toBlocks_BB (l : List Nat) (hl : ∀ x ∈ l, x < 256) : ∀ b ∈ toBlocks l, BB b :=
  toBlocksF_BB l.length l hl

theorem c_mod_lt (c : Nat) : c % 255 < 256 :=
  Nat.lt_succ_of_le (Nat.le_of_lt_succ (Nat.lt_succ_of_lt (Nat.mod_lt _ (by norm_num))))

theorem WB_expandKey (key : List Nat) (hk : ∀ b ∈ key, b < 256) (kl c o : Nat) :
    WB (mtpz_encryption_expand_key key kl c o) := by
  have hbase : WB (if o < 4 then (⟨c % 255, 0, 0, 0⟩ : W)
      else if o < 4 + innerKsLen kl then schedW key kl ((o - 4) / 4)
      else if o < 4 + 2 * innerKsLen kl then schedW key kl ((o - 4 - innerKsLen kl) / 4)
      else w0) := by
    split
    · exact ⟨c_mod_lt c, by norm_num, by norm_num, by norm_num⟩
    · split
      · exact schedW_bound key hk kl _
      · split
        · exact schedW_bound key hk kl _
        · exact WB_w0
  show WB (if seekOf c + 16 ≤ o ∧ o < seekOf c + 16 * c
    then imcW (if o < 4 then (⟨c % 255, 0, 0, 0⟩ : W)
      else if o < 4 + innerKsLen kl then schedW key kl ((o - 4) / 4)
      else if o < 4 + 2 * innerKsLen kl then schedW key kl ((o - 4 - innerKsLen kl) / 4)
      else w0)
    else if o < 4 then (⟨c % 255, 0, 0, 0⟩ : W)
      else if o < 4 + innerKsLen kl then schedW key kl ((o - 4) / 4)
      else if o < 4 + 2 * innerKsLen kl then schedW key kl ((o - 4 - innerKsLen kl) / 4)
      else w0)
  split
  · exact WB_imcW _
  · exact hbase

theorem BB_readBlkExp (key : List Nat) (hk : ∀ b ∈ key, b < 256) (kl c o : Nat) :
    BB (readBlk (mtpz_encryption_expand_key key kl c) o) :=
  ⟨WB_expandKey key hk kl c o, WB_expandKey key hk kl c _, WB_expandKey key hk kl c _,
   WB_expandKey key hk kl c _⟩

theorem BB_encCore (key : List Nat) (hk : ∀ b ∈ key, b < 256) (kl c : Nat) (s : Blk) :
    BB (encCore (mtpz_encryption_expand_key key kl c) s) :=
  BB_bxor (BB_finSubBlk _) (BB_readBlkExp key hk kl c 0xA4)

/-- The chained decryption loop inverts the chained encryption loop
blockwise, for any starting register. -/
theorem cbcDec_cbcEnc (key : List Nat) (hk : ∀ b ∈ key, b < 256) :
    ∀ (ps : List Blk) (reg : Blk), (∀ p ∈ ps, BB p) → BB reg →
      cbcDec (mtpz_encryption_expand_key key 16 10) reg
        (cbcEnc (mtpz_encryption_expand_key key 16 10) reg ps) = ps := by
  intro ps
  induction ps with
  | nil => intro reg _ _; rfl
  | cons p r ih =>
    intro reg hp hreg
    show bxor (decCore _ (encCore _ (bxor p reg))) reg :: cbcDec _ _ (cbcEnc _ _ r) = p :: r
    rw [decCore_encCore key hk (bxor p reg) (BB_bxor (hp p (by simp)) hreg), bxor_cancel,
      ih _ (fun q hq => hp q (by simp [hq])) (BB_encCore key hk 16 10 _)]


theorem cipher_advanced_enc (key : List Nat) (kl : Nat) (data : List Nat) :
    mtpz_encryption_cipher_advanced key kl data true =
      ((cbcEnc (mtpz_encryption_expand_key key kl (mtpzKeyRounds kl)) ⟨w0, w0, w0, w0⟩
        (toBlocks data)).map blkBytes).flatten := rfl

theorem cipher_advanced_dec (key : List Nat) (kl : Nat) (data : List Nat) :
    mtpz_encryption_cipher_advanced key kl data false =
      ((cbcDec (mtpz_encryption_expand_key key kl (mtpzKeyRounds kl)) ⟨w0, w0, w0, w0⟩
        (toBlocks data)).map blkBytes).flatten := rfl

/-- C5 (amended): the chained mode of `mtpz_encryption_cipher_advanced` with a
16-byte key round-trips: decrypting the encryption of any buffer whose length
is a multiple of 16 returns the buffer.  (As stated over every key accepted by
the key expansion the claim fails; see the 24-byte counterexample.) -/
theorem mtpzC5_cbc_roundtrip (key data : List Nat) (hklen : key.length = 16)
    (hk : ∀ b ∈ key, b < 256) (hlen : data.length % 16 = 0) (hd : ∀ b ∈ data, b < 256) :
    mtpz_encryption_cipher_advanced key 16
      (mtpz_encryption_cipher_advanced key 16 data true) false = data := by
  rw [cipher_advanced_enc, cipher_advanced_dec, show mtpzKeyRounds 16 = 10 from rfl,
    toBlocks_flatten,
    cbcDec_cbcEnc key hk (toBlocks data) _ (toBlocks_BB data hd) ⟨WB_w0, WB_w0, WB_w0, WB_w0⟩,
    flatten_toBlocks data hlen]

/-- Witness for C5: a concrete 16-byte key and 32-byte buffer. -/
theorem mtpzC5_witness :
    mtpz_encryption_cipher_advanced (List.range 16) 16
      (mtpz_encryption_cipher_advanced (List.range 16) 16 (List.replicate 32 7) true)
      false = List.replicate 32 7 :=
  mtpzC5_cbc_roundtrip (List.range 16) (List.replicate 32 7) (by decide) (by decide)
    (by decide) (by decide)

/-- C6 (amended): single-block decryption inverts single-block encryption over
the schedule `mtpz_encryption_expand_key key 16 10` for every 16-byte key and
16-byte block (the NULL-seed forms, as used by `mtpz_encryption_cipher`).
(As stated also for 24- and 32-byte keys the claim fails; see the
counterexample.) -/
theorem mtpzC6_block_roundtrip (key block : List Nat) (hklen : key.length = 16)
    (hk : ∀ b ∈ key, b < 256) (hblen : block.length = 16) (hb : ∀ b ∈ block, b < 256) :
    blkBytes (mtpz_encryption_decrypt_custom
      (mtpz_encryption_encrypt_custom (toBlk block) none (mtpz_encryption_expand_key key 16 10))
      none (mtpz_encryption_expand_key key 16 10)) = block := by
  show blkBytes (decCore (mtpz_encryption_expand_key key 16 10)
    (encCore (mtpz_encryption_expand_key key 16 10) (toBlk block))) = block
  rw [decCore_encCore key hk (toBlk block) (BB_toBlk block hb), blkBytes_toBlk block hblen]

/-- Witness for C6: a concrete 16-byte key and block. -/
theorem mtpzC6_witness :
    blkBytes (mtpz_encryption_decrypt_custom
      (mtpz_encryption_encrypt_custom (toBlk (List.range 16)) none
        (mtpz_encryption_expand_key (List.replicate 16 1) 16 10))
      none (mtpz_encryption_expand_key (List.replicate 16 1) 16 10)) = List.range 16 :=
  mtpzC6_block_roundtrip (List.replicate 16 1) (List.range 16) (by decide) (by decide)
    (by decide) (by decide)

/-- C4: the round-count selection of `mtpz_encryption_cipher_advanced` and
`mtpz_encryption_encrypt_mac` maps 16-byte keys to 10 rounds and 24-byte keys
to 12, but 32-byte keys to 32 — not the 14 the spec states. -/
theorem mtpzC4_rounds :
    mtpzKeyRounds 16 = 10 ∧ mtpzKeyRounds 24 = 12 ∧ mtpzKeyRounds 32 = 32 ∧
      mtpzKeyRounds 32 ≠ 14 := by decide

/-- C10: `mtpz_encryption_encrypt_mac` returns immediately when the hash is
NULL or its length is not 16, leaving the output bytes untouched. -/
theorem mtpzC10_encrypt_mac_guard (hash : Option (List Nat)) (hash_length : Nat)
    (seed : List Nat) (seed_len : Nat) (out : List Nat)
    (h : hash = none ∨ hash_length ≠ 16) :
    mtpz_encryption_encrypt_mac hash hash_length seed seed_len out = out := by
  cases hash with
  | none => rfl
  | some v =>
    rcases h with h | h
    · exact absurd h (by simp)
    · show (if hash_length ≠ 16 then out else _) = out
      rw [if_pos h]

/-- Witness for C10: NULL hash pointer, arbitrary output buffer. -/
theorem mtpzC10_witness :
    mtpz_encryption_encrypt_mac none 16 [3] 1 [9, 9] = [9, 9] :=
  mtpzC10_encrypt_mac_guard none 16 [3] 1 [9, 9] (Or.inl rfl)

theorem be32_length (n : Nat) : (be32 n).length = 4 := rfl

theorem bytesAt_length (l : List Nat) (off n : Nat) : (bytesAt l off n).length = n := by
  simp [bytesAt]

/-- The state returned by the finaliser: reset chaining values, zero counters,
zeroed buffer — the same state `mtpz_hash_reset_state` produces on a fresh
92-byte allocation. -/
theorem finalize_fst (s : HState) :
    (mtpz_hash_finalize_hash s).1 = mtpz_hash_reset_state mtpz_hash_init_state := rfl

theorem finalize_snd_length (s : HState) : (mtpz_hash_finalize_hash s).2.length = 20 := by
  simp [mtpz_hash_finalize_hash, be32_length]

theorem sha1Bytes_length (msg : List Nat) : (sha1Bytes msg).length = 20 :=
  finalize_snd_length _

theorem reset_reset :
    mtpz_hash_reset_state (mtpz_hash_reset_state mtpz_hash_init_state) =
      mtpz_hash_reset_state mtpz_hash_init_state := rfl

/-- The fold of `mtpz_hash_custom6A5DC`, run from any accumulator whose state
resets to the pristine state, appends one standalone hash per index. -/
theorem mgf_fold (msg : List Nat) (len : Nat) (L : List Nat) (acc : HState × List Nat)
    (h : mtpz_hash_reset_state acc.1 = mtpz_hash_reset_state mtpz_hash_init_state) :
    (L.foldl
      (fun (p : HState × List Nat) i =>
        let v5 := bytesAt msg 0 len ++ be32 i
        let st1 := mtpz_hash_transform_hash (mtpz_hash_reset_state p.1) v5 (len + 4)
        let q := mtpz_hash_finalize_hash st1
        (q.1, p.2 ++ q.2)) acc).2
      = acc.2 ++ ((L.map fun i => sha1Bytes (bytesAt msg 0 len ++ be32 i)).flatten) := by
  induction L generalizing acc with
  | nil => simp
  | cons a t ih =>
    simp only [List.foldl_cons, List.map_cons, List.flatten_cons]
    rw [ih _ (by rw [finalize_fst, reset_reset])]
    have hlen : (bytesAt msg 0 len ++ be32 a).length = len + 4 := by
      simp [bytesAt_length, be32_length]
    have hsha : sha1Bytes (bytesAt msg 0 len ++ be32 a) =
        (mtpz_hash_finalize_hash (mtpz_hash_transform_hash
          (mtpz_hash_reset_state mtpz_hash_init_state)
          (bytesAt msg 0 len ++ be32 a) (len + 4))).2 := by
      rw [sha1Bytes, hlen]
    rw [hsha, h, List.append_assoc]

theorem flatten_map_length (g : Nat → List Nat) (n : Nat) (h : ∀ i, (g i).length = 20) :
    ((List.range n).map g).flatten.length = n * 20 := by
  induction n with
  | zero => simp
  | succ m ih =>
    rw [List.range_succ]
    simp [ih, h, Nat.succ_mul]

/-- C2 (amended): `mtpz_hash_custom6A5DC(state, seed, seed_len, out_len)` on a
fresh state iterates `i = 0, 1, ..., out_len/20` — that is, `out_len/20 + 1`
times (floor-quotient plus one, not the ceiling) — each time resetting the
state, absorbing `seed || bswap32(i)` and finalising into the next 20 output
bytes, so the returned buffer has exactly `(out_len/20 + 1) * 20` bytes. -/
theorem mtpzC2_mgf (msg : List Nat) (len a4 : Nat) :
    (mtpz_hash_custom6A5DC mtpz_hash_init_state msg len a4).2 =
      ((List.range (a4 / 20 + 1)).map fun i =>
        sha1Bytes (bytesAt msg 0 len ++ be32 i)).flatten ∧
    (mtpz_hash_custom6A5DC mtpz_hash_init_state msg len a4).2.length = (a4 / 20 + 1) * 20 := by
  have h := mgf_fold msg len (List.range (a4 / 20 + 1)) (mtpz_hash_init_state, []) rfl
  refine ⟨?_, ?_⟩
  · exact (by simpa [mtpz_hash_custom6A5DC] using h)
  · rw [show (mtpz_hash_custom6A5DC mtpz_hash_init_state msg len a4).2 =
      ((List.range (a4 / 20 + 1)).map fun i =>
        sha1Bytes (bytesAt msg 0 len ++ be32 i)).flatten from by simpa [mtpz_hash_custom6A5DC] using h]
    exact flatten_map_length _ _ (fun i => sha1Bytes_length _)

/-- Counterexample for C2 as stated: at `out_len = 20` the claim's iteration
count is `⌈20/20⌉ = 1` and the returned buffer would have 20 bytes, but the
code performs `20/20 + 1 = 2` iterations and returns 40 bytes. -/
theorem mtpzC2_cex :
    (mtpz_hash_custom6A5DC mtpz_hash_init_state [] 0 20).2.length ≠ (20 + 19) / 20 * 20 := by
  decide

/-- C7 (amended): the hash engine computes standard SHA-1: the empty string
hashes to da39a3ee5e6b4b0d3255bfef95601890afd80709 and `"abc"` to
a9993e364706816aba3e25717850c26c9cd0d89d. -/
theorem mtpzC7_sha1_vectors :
    sha1Bytes [] = [0xda, 0x39, 0xa3, 0xee, 0x5e, 0x6b, 0x4b, 0x0d, 0x32, 0x55,
                    0xbf, 0xef, 0x95, 0x60, 0x18, 0x90, 0xaf, 0xd8, 0x07, 0x09] ∧
    sha1Bytes [0x61, 0x62, 0x63] =
      [0xa9, 0x99, 0x3e, 0x36, 0x47, 0x06, 0x81, 0x6a, 0xba, 0x3e, 0x25, 0x71,
       0x78, 0x50, 0xc2, 0x6c, 0x9c, 0xd0, 0xd8, 0x9d] := by decide

/-- Counterexample for C7 as stated: hashing `"abc"` does not produce the
claimed digest ending in 0x9c (the engine produces the standard digest, which
ends in 0x9d). -/
theorem mtpzC7_cex :
    sha1Bytes [0x61, 0x62, 0x63] ≠
      [0xa9, 0x99, 0x3e, 0x36, 0x47, 0x06, 0x81, 0x6a, 0xba, 0x3e, 0x25, 0x71,
       0x78, 0x50, 0xc2, 0x6c, 0x9c, 0xd0, 0xd8, 0x9c] := by decide

theorem compute_hash_len84 (s : HState) (msg : List Nat) (len : Nat) :
    (mtpz_hash_compute_hash s msg len).len84 = s.len84 := by
  unfold mtpz_hash_compute_hash; split <;> rfl

theorem hashBlocksLoop_len84 (msg : List Nat) :
    ∀ fuel i j s, ((hashBlocksLoop msg fuel i j s).1).len84 = s.len84 := by
  intro fuel
  induction fuel with
  | zero => intro i j s; rfl
  | succ f ih =>
    intro i j s
    show ((if 63 < i then hashBlocksLoop msg f (i - 64) (j + 64)
        (mtpz_hash_compute_hash s (bytesAt msg j 64) 64) else (s, i, j)).1).len84 = s.len84
    split
    · rw [ih]; exact compute_hash_len84 ..
    · rfl

/-- C9 (amended): on every absorb call the high length word after the call is
`(old_high + 1) mod 2^32` exactly when the *signed* comparison
`(int)new_low < (int)len` holds — the C writes `if (len > v5)` with `int`
operands — and is unchanged otherwise.  (The claim's unsigned-wrap condition
`new_low < old_low` is not the one implemented; see the counterexample.) -/
theorem mtpzC9_len84 (s : HState) (msg : List Nat) (len : Nat) :
    (mtpz_hash_transform_hash s msg len).len84 =
      if toInt32 ((len + s.len88) &&& 0xFFFFFFFF) < toInt32 len
      then (s.len84 + 1) &&& 0xFFFFFFFF else s.len84 := by
  simp only [mtpz_hash_transform_hash]
  repeat' split
  all_goals simp [hashBlocksLoop_len84, compute_hash_len84]

/-- Counterexample for C9 as stated: with old low counter 0x80000000 and a
16-byte absorb, `new_low = 0x80000010` does not wrap (`new_low ≥ old_low`),
yet the high word is incremented, because the code's comparison is signed. -/
theorem mtpzC9_cex :
    (mtpz_hash_transform_hash ⟨List.replicate 64 0, 0, 0, 0, 0, 0, 0, 0x80000000⟩
      (List.replicate 16 0) 16).len84 = 1 ∧
    ¬ ((16 + 0x80000000) &&& 0xFFFFFFFF < 0x80000000) := by decide

/-- C3 (amended): `mtpz_loaddata` returns 0 exactly when at least five lines
are present and the second and fifth (the two decoded through `hex_to_bytes`)
have even length.  Hex-only content is not required: a non-hex character
merely stops the decoding loop, and the loader still reports success (see the
counterexample). -/
theorem mtpzC3_loaddata (lines : List (List Char)) :
    mtpz_loaddata lines = 0 ↔
      5 ≤ lines.length ∧ (lines.getD 1 []).length % 2 = 0 ∧
        (lines.getD 4 []).length % 2 = 0 := by
  rcases lines with _ | ⟨l0, _ | ⟨l1, _ | ⟨l2, _ | ⟨l3, _ | ⟨l4, rest⟩⟩⟩⟩⟩
  · simp [mtpz_loaddata]
  · simp [mtpz_loaddata]
  · by_cases h1 : l1.length % 2 = 1 <;> simp [mtpz_loaddata, hex_to_bytes, h1]
  · by_cases h1 : l1.length % 2 = 1 <;> simp [mtpz_loaddata, hex_to_bytes, h1]
  · by_cases h1 : l1.length % 2 = 1 <;> simp [mtpz_loaddata, hex_to_bytes, h1]
  · by_cases h1 : l1.length % 2 = 1 <;> by_cases h4 : l4.length % 2 = 1 <;>
      simp [mtpz_loaddata, hex_to_bytes, h1, h4] <;> omega

/-- Counterexample for C3 as stated: a bundle whose key line is `"zz"` — a
non-hex character in every position — still loads successfully. -/
theorem mtpzC3_cex :
    mtpz_loaddata [['0', '1'], ['z', 'z'], ['0', '0'], ['0', '0'], ['0', '0']] = 0 ∧
    hexDigitVal 'z' = none ∧
    hex_to_bytes ['z', 'z'] = some [] := by decide

theorem set_append_len (done : List Nat) (y : Nat) (ys : List Nat) (b : Nat) :
    (done ++ y :: ys).set done.length b = done ++ b :: ys := by
  induction done with
  | nil => rfl
  | cons d t ih => simpa [List.set] using ih

/-- `setBytes` writing `src` exactly at the end of `done` overwrites the next
`src.length` bytes of `rest`. -/
theorem setBytes_append (src : List Nat) : ∀ (done rest : List Nat) (off : Nat),
    off = done.length → src.length ≤ rest.length →
    setBytes (done ++ rest) off src = done ++ src ++ rest.drop src.length := by
  induction src with
  | nil => intro done rest off hoff _; simp [setBytes]
  | cons b r ih =>
    intro done rest off hoff hle
    cases rest with
    | nil => simp at hle
    | cons y ys =>
      subst hoff
      show setBytes ((done ++ y :: ys).set done.length b) (done.length + 1) r = _
      rw [set_append_len]
      have h2 : done ++ b :: ys = (done ++ [b]) ++ ys := by simp
      have h3 : done.length + 1 = (done ++ [b]).length := by simp
      rw [h2, h3, ih (done ++ [b]) ys _ rfl (by simpa using Nat.le_of_succ_le_succ (by simpa using hle))]
      simp

theorem bytesAt_self (l : List Nat) (n : Nat) (h : l.length = n) : bytesAt l 0 n = l := by
  subst h
  apply List.ext_getElem
  · simp [bytesAt_length]
  · intro i h1 h2
    simp only [bytesAt, List.getElem_map, List.getElem_range, Nat.zero_add]
    exact List.getD_eq_getElem l 0 h2

/-- The full application-certificate message layout: marker bytes `01 00 80`
sit between the random bytes and the 128-byte signature, for a total of
7 + 629 + 2 + 16 + 3 + 128 = 785 bytes. -/
theorem acm_layout (certs random : List Nat) (rsaSign : List Nat → List Nat)
    (hc : certs.length = 629) (hr : random.length = 16) :
    ptp_mtpz_makeapplicationcertificatemessage certs random rsaSign =
      [0x02, 0x01, 0x01, 0x00, 0x00, 0x02, 0x75] ++ certs ++ [0x00, 0x10] ++ random ++
        [0x01, 0x00, 0x80] ++ bytesAt (rsaSign (acmOdata certs random)) 0 128 ∧
    (ptp_mtpz_makeapplicationcertificatemessage certs random rsaSign).length = 785 := by
  have hbc : bytesAt certs 0 629 = certs := bytesAt_self certs 629 hc
  have hbr : bytesAt random 0 16 = random := bytesAt_self random 16 hr
  have e1 : setBytes (List.replicate 785 0) 0 [0x02, 0x01, 0x01, 0x00, 0x00, 0x02, 0x75] =
      [0x02, 0x01, 0x01, 0x00, 0x00, 0x02, 0x75] ++ List.replicate 778 0 := by
    simpa [List.drop_replicate] using
      setBytes_append [0x02, 0x01, 0x01, 0x00, 0x00, 0x02, 0x75] []
        (List.replicate 785 0) 0 rfl (by simp)
  have e2 : setBytes ([0x02, 0x01, 0x01, 0x00, 0x00, 0x02, 0x75] ++ List.replicate 778 0)
        7 certs = [0x02, 0x01, 0x01, 0x00, 0x00, 0x02, 0x75] ++ certs ++ List.replicate 149 0 := by
    have := setBytes_append certs [0x02, 0x01, 0x01, 0x00, 0x00, 0x02, 0x75]
      (List.replicate 778 0) 7 rfl (by simp [hc])
    simpa [List.drop_replicate, hc] using this
  have e3 : setBytes ([0x02, 0x01, 0x01, 0x00, 0x00, 0x02, 0x75] ++ certs ++
        List.replicate 149 0) 636 [0x00, 0x10] =
      [0x02, 0x01, 0x01, 0x00, 0x00, 0x02, 0x75] ++ certs ++ [0x00, 0x10] ++
        List.replicate 147 0 := by
    have := setBytes_append [0x00, 0x10]
      ([0x02, 0x01, 0x01, 0x00, 0x00, 0x02, 0x75] ++ certs)
      (List.replicate 149 0) 636 (by simp [hc]) (by simp)
    simpa [List.drop_replicate, List.append_assoc] using this
  have e4 : setBytes ([0x02, 0x01, 0x01, 0x00, 0x00, 0x02, 0x75] ++ certs ++ [0x00, 0x10] ++
        List.replicate 147 0) 638 random =
      [0x02, 0x01, 0x01, 0x00, 0x00, 0x02, 0x75] ++ certs ++ [0x00, 0x10] ++ random ++
        List.replicate 131 0 := by
    have := setBytes_append random
      ([0x02, 0x01, 0x01, 0x00, 0x00, 0x02, 0x75] ++ certs ++ [0x00, 0x10])
      (List.replicate 147 0) 638 (by simp [hc]) (by simp [hr])
    simpa [List.drop_replicate, List.append_assoc, hr] using this
  have epre : acmPrefix certs random =
      [0x02, 0x01, 0x01, 0x00, 0x00, 0x02, 0x75] ++ certs ++ [0x00, 0x10] ++ random ++
        List.replicate 131 0 := by
    rw [acmPrefix, hbc, hbr, e1, e2, e3, e4]
  have e5 : setBytes ([0x02, 0x01, 0x01, 0x00, 0x00, 0x02, 0x75] ++ certs ++ [0x00, 0x10] ++
        random ++ List.replicate 131 0) 654 [0x01, 0x00, 0x80] =
      [0x02, 0x01, 0x01, 0x00, 0x00, 0x02, 0x75] ++ certs ++ [0x00, 0x10] ++ random ++
        [0x01, 0x00, 0x80] ++ List.replicate 128 0 := by
    have := setBytes_append [0x01, 0x00, 0x80]
      ([0x02, 0x01, 0x01, 0x00, 0x00, 0x02, 0x75] ++ certs ++ [0x00, 0x10] ++ random)
      (List.replicate 131 0) 654 (by simp [hc, hr]) (by simp)
    simpa [List.drop_replicate, List.append_assoc] using this
  have e6 : setBytes ([0x02, 0x01, 0x01, 0x00, 0x00, 0x02, 0x75] ++ certs ++ [0x00, 0x10] ++
        random ++ [0x01, 0x00, 0x80] ++ List.replicate 128 0) 657
        (bytesAt (rsaSign (acmOdata certs random)) 0 128) =
      [0x02, 0x01, 0x01, 0x00, 0x00, 0x02, 0x75] ++ certs ++ [0x00, 0x10] ++ random ++
        [0x01, 0x00, 0x80] ++ bytesAt (rsaSign (acmOdata certs random)) 0 128 := by
    have := setBytes_append (bytesAt (rsaSign (acmOdata certs random)) 0 128)
      ([0x02, 0x01, 0x01, 0x00, 0x00, 0x02, 0x75] ++ certs ++ [0x00, 0x10] ++ random ++
        [0x01, 0x00, 0x80])
      (List.replicate 128 0) 657 (by simp [hc, hr]) (by simp [bytesAt_length])
    simpa [List.drop_replicate, List.append_assoc, bytesAt_length] using this
  have hmsg : ptp_mtpz_makeapplicationcertificatemessage certs random rsaSign =
      [0x02, 0x01, 0x01, 0x00, 0x00, 0x02, 0x75] ++ certs ++ [0x00, 0x10] ++ random ++
        [0x01, 0x00, 0x80] ++ bytesAt (rsaSign (acmOdata certs random)) 0 128 := by
    rw [ptp_mtpz_makeapplicationcertificatemessage, epre, e5, e6]
  refine ⟨hmsg, ?_⟩
  rw [hmsg]
  simp [List.length_append, hc, hr, bytesAt_length]

/-- C1 (amended): for 0x275 certificate bytes and a 16-byte client random the
application-certificate message is exactly 785 bytes: the fixed preamble
`02 01 01 00 00 02 75`, the certificates, `00 10`, the 16 random bytes, the
three marker bytes `01 00 80` (a signature-length prefix the claim omits),
and the 128-byte RSA signature. -/
theorem mtpzC1_acm_layout (certs random : List Nat) (rsaSign : List Nat → List Nat)
    (hc : certs.length = 629) (hr : random.length = 16) :
    ptp_mtpz_makeapplicationcertificatemessage certs random rsaSign =
      [0x02, 0x01, 0x01, 0x00, 0x00, 0x02, 0x75] ++ certs ++ [0x00, 0x10] ++ random ++
        [0x01, 0x00, 0x80] ++ bytesAt (rsaSign (acmOdata certs random)) 0 128 ∧
    (ptp_mtpz_makeapplicationcertificatemessage certs random rsaSign).length = 785 :=
  acm_layout certs random rsaSign hc hr

/-- Witness for C1: concrete certificates, random bytes and signer. -/
theorem mtpzC1_witness :
    ptp_mtpz_makeapplicationcertificatemessage (List.replicate 629 5) (List.replicate 16 3)
        (fun _ => List.replicate 128 9) =
      [0x02, 0x01, 0x01, 0x00, 0x00, 0x02, 0x75] ++ List.replicate 629 5 ++ [0x00, 0x10] ++
        List.replicate 16 3 ++ [0x01, 0x00, 0x80] ++
        bytesAt ((fun _ => List.replicate 128 9)
          (acmOdata (List.replicate 629 5) (List.replicate 16 3))) 0 128 ∧
    (ptp_mtpz_makeapplicationcertificatemessage (List.replicate 629 5) (List.replicate 16 3)
        (fun _ => List.replicate 128 9)).length = 785 :=
  mtpzC1_acm_layout (List.replicate 629 5) (List.replicate 16 3)
    (fun _ => List.replicate 128 9) (by simp) (by simp)

/-- Counterexample for C1 as stated: the message cannot be the claim's layout
with the signature directly after the random bytes — that layout has
7 + 629 + 2 + 16 + 128 = 782 bytes while the message has 785. -/
theorem mtpzC1_cex :
    ptp_mtpz_makeapplicationcertificatemessage (List.replicate 629 5) (List.replicate 16 3)
        (fun _ => List.replicate 128 9) ≠
      [0x02, 0x01, 0x01, 0x00, 0x00, 0x02, 0x75] ++ List.replicate 629 5 ++ [0x00, 0x10] ++
        List.replicate 16 3 ++
        bytesAt ((fun _ => List.replicate 128 9)
          (acmOdata (List.replicate 629 5) (List.replicate 16 3))) 0 128 := by
  intro h
  have h1 := congrArg List.length h
  rw [(acm_layout (List.replicate 629 5) (List.replicate 16 3)
    (fun _ => List.replicate 128 9) (by simp) (by simp)).2] at h1
  simp [List.length_append, bytesAt_length] at h1

/-- C8: when the random field of the decrypted response body differs from the
client random, validation returns an error and the handshake never sends the
confirmation message — whatever the transport outcomes, it sends nothing or
only the application-certificate message. -/
theorem mtpzC8_random_mismatch (rsaD : List Nat → Nat × List Nat)
    (resp random certs : List Nat) (rsaSign : List Nat → List Nat)
    (setInfoOk resetOk sendCertOk respOk : Bool)
    (h : bytesAt (mtpzDecryptedBody rsaD resp)
          (7 + be32At (mtpzDecryptedBody rsaD resp) 1) 16 ≠ bytesAt random 0 16) :
    ptp_mtpz_validatehandshakeresponse rsaD resp random = none ∧
    (ptp_mtpz_handshake_sends certs random rsaSign rsaD setInfoOk resetOk sendCertOk respOk
        resp = [] ∨
     ptp_mtpz_handshake_sends certs random rsaSign rsaD setInfoOk resetOk sendCertOk respOk
        resp = [ptp_mtpz_makeapplicationcertificatemessage certs random rsaSign]) := by
  have hv : ptp_mtpz_validatehandshakeresponse rsaD resp random = none := by
    simp only [ptp_mtpz_validatehandshakeresponse]
    repeat' split
    all_goals first | rfl | (rename_i hn; exact absurd h hn)
  refine ⟨hv, ?_⟩
  simp only [ptp_mtpz_handshake_sends, hv]
  repeat' split
  all_goals simp

set_option allowUnsafeReducibility true in
attribute [semireducible] schedWords

set_option maxRecDepth 1000000 in
/-- Counterexample for C6 as stated: with the all-zero 24-byte key (12-round
schedule as selected for 24-byte keys), decrypting the encryption of the zero
block does not return the zero block. -/
theorem mtpzC6_cex :
    blkBytes (mtpz_encryption_decrypt_custom
      (mtpz_encryption_encrypt_custom (toBlk (List.replicate 16 0)) none
        (mtpz_encryption_expand_key (List.replicate 24 0) 24 12))
      none (mtpz_encryption_expand_key (List.replicate 24 0) 24 12))
      ≠ List.replicate 16 0 := by decide

set_option maxRecDepth 1000000 in
/-- Counterexample for C5 as stated: with the all-zero 24-byte key (accepted
by the key expansion), the chained mode does not round-trip a 32-byte buffer. -/
theorem mtpzC5_cex :
    mtpz_encryption_cipher_advanced (List.replicate 24 0) 24
      (mtpz_encryption_cipher_advanced (List.replicate 24 0) 24 (List.replicate 32 0) true)
      false ≠ List.replicate 32 0 := by decide


set_option maxRecDepth 10000000 in
/-- Witness for C8: a concrete RSA oracle, response and client random whose
decrypted body fails the random-field comparison. -/
theorem mtpzC8_witness :
    (bytesAt (mtpzDecryptedBody (fun _ => (1, List.replicate 128 0)) [])
        (7 + be32At (mtpzDecryptedBody (fun _ => (1, List.replicate 128 0)) []) 1) 16 ≠
      bytesAt (List.replicate 16 1) 0 16) ∧
    (ptp_mtpz_validatehandshakeresponse (fun _ => (1, List.replicate 128 0)) []
        (List.replicate 16 1) = none ∧
      (ptp_mtpz_handshake_sends [] (List.replicate 16 1) (fun _ => List.replicate 128 9)
          (fun _ => (1, List.replicate 128 0)) true true true true [] = [] ∨
       ptp_mtpz_handshake_sends [] (List.replicate 16 1) (fun _ => List.replicate 128 9)
          (fun _ => (1, List.replicate 128 0)) true true true true [] =
        [ptp_mtpz_makeapplicationcertificatemessage [] (List.replicate 16 1)
          (fun _ => List.replicate 128 9)])) :=
  ⟨by decide, mtpzC8_random_mismatch (fun _ => (1, List.replicate 128 0)) []
    (List.replicate 16 1) [] (fun _ => List.replicate 128 9) true true true true (by decide)⟩

end Mtpz
